import Mathlib

/-!
# OpenGLExamples: the windowed-rendering bootstrap of the three programs

A shallow embedding of `HelloTriangle.cpp`, `triangle/HelloTriangleInterpolated.cpp`
and `triangle/CoolTriangleShape.cpp`.

Every call a program makes into GLFW, glad, OpenGL or spdlog is appended to a trace,
together with what the call returned. The answers of the outside world (does `glfwInit`
succeed, which pointer does `glfwCreateWindow` return, does the loader succeed, what does
the k-th `glfwWindowShouldClose` say, what does the k-th `glfwGetTime` read, which resize
events arrive during the k-th `glfwPollEvents`) are the fields of a `World`, so a
statement quantified over `World` speaks about every combination of outcomes of the
external calls.

The `while` loops are recursive functions with a fuel argument, one unit per evaluation
of the loop condition; when the fuel runs out the loop is reported as still running
(`none` as exit status) and the trace built so far is kept.

Floating-point values are given as rationals: the literals of the sources as the
decimals written there, a clock reading as the value of the double read. The two
operations on doubles that decide control flow, the subtraction and the division in the
frame throttle of `CoolTriangleShape.cpp`, round their exact result to the nearest
double. A trailing `\0` written inside a C string literal ends the C string and is
left out of the embedded shader sources.

The file has two parts: the definitions (the programs, then the vocabulary in which
the statements are written), and the theorems.
-/

namespace OpenGLExamples

/-! ## Constants of the C, OpenGL and GLFW headers used by the programs -/

/-- The constant `EXIT_SUCCESS` of `<cstdlib>`. -/
def EXIT_SUCCESS : Nat := 0

/-- The constant `EXIT_FAILURE` of `<cstdlib>`. -/
def EXIT_FAILURE : Nat := 1

/-- The value of `sizeof(GLfloat)`: a 32-bit float. -/
def sizeof_GLfloat : Nat := 4

/-- The value of `sizeof(GLuint)`: a 32-bit unsigned integer. -/
def sizeof_GLuint : Nat := 4

/-- The enumerators of the OpenGL and GLFW headers that occur in the three programs. -/
inductive GLenum where
  | GLFW_CONTEXT_VERSION_MAJOR
  | GLFW_CONTEXT_VERSION_MINOR
  | GLFW_OPENGL_PROFILE
  | GLFW_OPENGL_CORE_PROFILE
  | GL_VERTEX_SHADER
  | GL_FRAGMENT_SHADER
  | GL_ARRAY_BUFFER
  | GL_ELEMENT_ARRAY_BUFFER
  | GL_STATIC_DRAW
  | GL_FLOAT
  | GL_UNSIGNED_INT
  | GL_TRIANGLES
  | GL_COLOR_BUFFER_BIT
  deriving DecidableEq, Repr

/-- The host-side data handed to `glBufferData`. -/
inductive HostData where
  | floats (xs : List ℚ)
  | uints (xs : List Nat)
  deriving DecidableEq

/-- One call into GLFW, glad, OpenGL or spdlog, with the arguments the program passes.
Object names and the window pointer are natural numbers; `nullptr` is `0`. -/
inductive Call where
  | spdlog_info (msg : String)
  | spdlog_error (msg : String)
  | glfwInit
  | glfwWindowHint (hint : GLenum) (value : GLenum ⊕ Nat)
  | glfwCreateWindow (width height : Nat) (title : String)
  | glfwMakeContextCurrent (window : Nat)
  | glfwSetWindowSizeCallback (window : Nat)
  | gladLoadGL
  | gladLoadGLLoader
  | glCreateShader (type : GLenum)
  | glShaderSource (shader count : Nat) (source : String)
  | glCompileShader (shader : Nat)
  | glCreateProgram
  | glAttachShader (program shader : Nat)
  | glLinkProgram (program : Nat)
  | glDeleteShader (shader : Nat)
  | glGenVertexArrays (n : Nat)
  | glGenBuffers (n : Nat)
  | glBindVertexArray (array : Nat)
  | glBindBuffer (target : GLenum) (buffer : Nat)
  | glBufferData (target : GLenum) (size : Nat) (data : HostData) (usage : GLenum)
  | glVertexAttribPointer (index size : Nat) (type : GLenum) (normalized : Bool)
      (stride pointer : Nat)
  | glEnableVertexAttribArray (index : Nat)
  | glfwWindowShouldClose (window : Nat)
  | glfwGetTime
  | glClearColor (red green blue alpha : ℚ)
  | glClear (mask : GLenum)
  | glUseProgram (program : Nat)
  | glDrawArrays (mode : GLenum) (first count : Nat)
  | glDrawElements (mode : GLenum) (count : Nat) (type : GLenum) (indices : Nat)
  | glfwSwapBuffers (window : Nat)
  | glfwPollEvents
  | glViewport (x y width height : Int)
  | glDeleteBuffers (n buffer : Nat)
  /-- the release call for a program object; none of the three programs issues it -/
  | glDeleteProgram (program : Nat)
  | glDeleteVertexArrays (n array : Nat)
  | glfwDestroyWindow (window : Nat)
  | glfwTerminate
  deriving DecidableEq

/-- What a call returns to the program. -/
inductive Value where
  | void
  | bool (b : Bool)
  | nat (n : Nat)
  | real (q : ℚ)
  deriving DecidableEq

/-- An entry of the trace: whether the call was issued from inside the resize callback
(`true`) or by `main` itself (`false`), the call, and what it returned. -/
structure Event where
  fromCallback : Bool
  call : Call
  result : Value
  deriving DecidableEq

/-- The answers of the collaborators the program cannot control. -/
structure World where
  /-- does `glfwInit` report success -/
  glfwInit : Bool
  /-- the pointer `glfwCreateWindow` returns; `0` is `nullptr` -/
  glfwCreateWindow : Nat
  /-- does the function-pointer loader (`gladLoadGL` / `gladLoadGLLoader`) report success -/
  gladLoad : Bool
  /-- the answer of the k-th evaluation of `glfwWindowShouldClose`, counted from 0 -/
  glfwWindowShouldClose : Nat → Bool
  /-- the k-th reading of `glfwGetTime`, counted from 0, in seconds: the double the call
  returns, given as the rational it denotes -/
  glfwGetTime : Nat → ℚ
  /-- the resize events (width, height) delivered during the k-th `glfwPollEvents` -/
  resizeEvents : Nat → List (Int × Int)

/-- The state threaded through a program. -/
structure State where
  /-- every call issued so far, oldest first -/
  trace : List Event
  /-- the viewport rectangle (x, y, width, height) last set through `glViewport` -/
  viewport : Option (Int × Int × Int × Int)
  /-- whether control is inside the resize callback -/
  inCallback : Bool
  /-- whether a window-size callback has been registered -/
  callbackSet : Bool
  /-- number of shader and program names handed out (they share one namespace) -/
  objectNames : Nat
  /-- number of buffer names handed out -/
  bufferNames : Nat
  /-- number of vertex-array names handed out -/
  arrayNames : Nat
  /-- number of `glfwWindowShouldClose` evaluations so far -/
  closeChecks : Nat
  /-- number of `glfwGetTime` readings so far -/
  clockReads : Nat
  /-- number of `glfwPollEvents` calls so far -/
  polls : Nat

/-- The state at program start. -/
def State.initial : State :=
  { trace := [], viewport := none, inCallback := false, callbackSet := false,
    objectNames := 0, bufferNames := 0, arrayNames := 0,
    closeChecks := 0, clockReads := 0, polls := 0 }

/-- A computation over the program state. -/
def Prog (α : Type) : Type := State → α × State

instance : Monad Prog where
  pure a := fun s => (a, s)
  bind m f := fun s => f (m s).1 (m s).2

/-- Append a call and its result to the trace. -/
def emit (c : Call) (r : Value) (s : State) : State :=
  { s with trace := s.trace ++ [⟨s.inCallback, c, r⟩] }

/-- A call without a result and without an effect the model tracks besides the trace. -/
def call (c : Call) : Prog Unit := fun s => ((), emit c .void s)

/-! ## The library functions the programs call -/

namespace spdlog

def info (msg : String) : Prog Unit := call (.spdlog_info msg)

def error (msg : String) : Prog Unit := call (.spdlog_error msg)

end spdlog

def glfwInit (w : World) : Prog Bool := fun s => (w.glfwInit, emit .glfwInit (.bool w.glfwInit) s)

def glfwWindowHint (hint : GLenum) (value : GLenum ⊕ Nat) : Prog Unit :=
  call (.glfwWindowHint hint value)

def glfwCreateWindow (w : World) (width height : Nat) (title : String) : Prog Nat :=
  fun s => (w.glfwCreateWindow,
    emit (.glfwCreateWindow width height title) (.nat w.glfwCreateWindow) s)

def glfwMakeContextCurrent (window : Nat) : Prog Unit := call (.glfwMakeContextCurrent window)

def glfwSetWindowSizeCallback (window : Nat) : Prog Unit := fun s =>
  ((), { emit (.glfwSetWindowSizeCallback window) .void s with callbackSet := true })

def gladLoadGL (w : World) : Prog Bool := fun s => (w.gladLoad, emit .gladLoadGL (.bool w.gladLoad) s)

def gladLoadGLLoader (w : World) : Prog Bool := fun s => (w.gladLoad, emit .gladLoadGLLoader (.bool w.gladLoad) s)

/-- A call of `glCreateShader` hands out a fresh non-zero object name. -/
def glCreateShader (type : GLenum) : Prog Nat := fun s =>
  (s.objectNames + 1,
   { emit (.glCreateShader type) (.nat (s.objectNames + 1)) s with
     objectNames := s.objectNames + 1 })

def glShaderSource (shader count : Nat) (source : String) : Prog Unit :=
  call (.glShaderSource shader count source)

def glCompileShader (shader : Nat) : Prog Unit := call (.glCompileShader shader)

/-- A call of `glCreateProgram` hands out a fresh non-zero object name. -/
def glCreateProgram : Prog Nat := fun s =>
  (s.objectNames + 1,
   { emit .glCreateProgram (.nat (s.objectNames + 1)) s with objectNames := s.objectNames + 1 })

def glAttachShader (program shader : Nat) : Prog Unit := call (.glAttachShader program shader)

def glLinkProgram (program : Nat) : Prog Unit := call (.glLinkProgram program)

def glDeleteShader (shader : Nat) : Prog Unit := call (.glDeleteShader shader)

/-- A call `glGenVertexArrays(1, &a)` stores a fresh vertex-array name in `a`. -/
def glGenVertexArrays (n : Nat) : Prog Nat := fun s =>
  (s.arrayNames + 1,
   { emit (.glGenVertexArrays n) (.nat (s.arrayNames + 1)) s with
     arrayNames := s.arrayNames + 1 })

/-- A call `glGenBuffers(1, &b)` stores a fresh buffer name in `b`. -/
def glGenBuffers (n : Nat) : Prog Nat := fun s =>
  (s.bufferNames + 1,
   { emit (.glGenBuffers n) (.nat (s.bufferNames + 1)) s with
     bufferNames := s.bufferNames + 1 })

def glBindVertexArray (array : Nat) : Prog Unit := call (.glBindVertexArray array)

def glBindBuffer (target : GLenum) (buffer : Nat) : Prog Unit := call (.glBindBuffer target buffer)

def glBufferData (target : GLenum) (size : Nat) (data : HostData) (usage : GLenum) : Prog Unit :=
  call (.glBufferData target size data usage)

def glVertexAttribPointer (index size : Nat) (type : GLenum) (normalized : Bool)
    (stride pointer : Nat) : Prog Unit :=
  call (.glVertexAttribPointer index size type normalized stride pointer)

def glEnableVertexAttribArray (index : Nat) : Prog Unit := call (.glEnableVertexAttribArray index)

/-- The k-th evaluation answers what the world says for k. -/
def glfwWindowShouldClose (w : World) (window : Nat) : Prog Bool := fun s =>
  (w.glfwWindowShouldClose s.closeChecks,
   { emit (.glfwWindowShouldClose window) (.bool (w.glfwWindowShouldClose s.closeChecks)) s with
     closeChecks := s.closeChecks + 1 })

/-- The k-th reading returns what the world says for k. -/
def glfwGetTime (w : World) : Prog ℚ := fun s =>
  (w.glfwGetTime s.clockReads,
   { emit .glfwGetTime (.real (w.glfwGetTime s.clockReads)) s with
     clockReads := s.clockReads + 1 })

def glClearColor (red green blue alpha : ℚ) : Prog Unit := call (.glClearColor red green blue alpha)

def glClear (mask : GLenum) : Prog Unit := call (.glClear mask)

def glUseProgram (program : Nat) : Prog Unit := call (.glUseProgram program)

def glDrawArrays (mode : GLenum) (first count : Nat) : Prog Unit :=
  call (.glDrawArrays mode first count)

def glDrawElements (mode : GLenum) (count : Nat) (type : GLenum) (indices : Nat) : Prog Unit :=
  call (.glDrawElements mode count type indices)

def glfwSwapBuffers (window : Nat) : Prog Unit := call (.glfwSwapBuffers window)

/-- A call of `glViewport` records the rectangle it is given as the current viewport
(what the driver does with a rectangle it rejects or clamps is outside the programs). -/
def glViewport (x y width height : Int) : Prog Unit := fun s =>
  ((), { emit (.glViewport x y width height) .void s with
         viewport := some (x, y, width, height) })

def glDeleteBuffers (n buffer : Nat) : Prog Unit := call (.glDeleteBuffers n buffer)

def glDeleteProgram (program : Nat) : Prog Unit := call (.glDeleteProgram program)

def glDeleteVertexArrays (n array : Nat) : Prog Unit := call (.glDeleteVertexArrays n array)

def glfwDestroyWindow (window : Nat) : Prog Unit := call (.glfwDestroyWindow window)

def glfwTerminate : Prog Unit := call .glfwTerminate

/-- Run a window-size callback once for every pending resize event, oldest first. -/
def deliver (callback : Int → Int → Prog Unit) : List (Int × Int) → State → State
  | [], s => s
  | e :: es, s => deliver callback es (callback e.1 e.2 s).2

/-- A call of `glfwPollEvents` processes the pending events: the window-size callback registered
through `glfwSetWindowSizeCallback` (passed here as `callback`, since the state cannot
hold a function on itself) runs synchronously, inside this call, once per resize
event of this poll. GLFW invokes the callback from event processing only. -/
def glfwPollEvents (w : World) (callback : Int → Int → Prog Unit) : Prog Unit := fun s =>
  let s1 := { emit .glfwPollEvents .void s with polls := s.polls + 1 }
  if s1.callbackSet then
    let s2 := deliver callback (w.resizeEvents s.polls) { s1 with inCallback := true }
    ((), { s2 with inCallback := s1.inCallback })
  else ((), s1)

/-! ## HelloTriangle.cpp -/

namespace HelloTriangle

def vertShaderSource : String :=
  "#version 330 core\n" ++
  "layout(location = 0) in vec3 aPos;\n" ++
  "void main() \x7b\n" ++
  "\tgl_Position = vec4(aPos, 1.0);\n" ++
  "\x7d"

def fragShaderSource : String :=
  "#version 330 core\n" ++
  "out vec4 FragColor;\n" ++
  "void main() \x7b\n" ++
  "\tFragColor = vec4(0.8f, 0.3f, 0.02f, 1.0);\n" ++
  "\x7d"

def window_resize_callback (window : Nat) (width height : Int) : Prog Unit := do
  glViewport 0 0 width height
  spdlog.info "Window resized to dimensions: \x7b:d\x7dx\x7b:d\x7d"

def vertices : List ℚ := [
  -0.5, -0.433, 0.0,
  0.5, -0.433, 0.0,
  0.0, 0.433, 0.0
]

/-- The `while (!glfwWindowShouldClose(window))` loop of lines 93-100. The result says
whether the loop was left (`true`) or is still running when the fuel is used up. -/
def renderLoop (w : World) (window shaderProg : Nat) : Nat → Prog Bool
  | 0 => pure false
  | fuel + 1 => do
    if (← glfwWindowShouldClose w window) then return true
    glClearColor 0.17 0.25 0.32 1.0
    glClear .GL_COLOR_BUFFER_BIT
    glUseProgram shaderProg
    glDrawArrays .GL_TRIANGLES 0 3
    glfwSwapBuffers window
    glfwPollEvents w (window_resize_callback window)
    renderLoop w window shaderProg fuel

/-- The function `main`; `none` as result means the render loop is still running. -/
def main (w : World) (fuel : Nat) : Prog (Option Nat) := do
  spdlog.info "Initialize GLFW"
  if !(← glfwInit w) then
    spdlog.error "Failed to initialize GLFW"
    return some EXIT_FAILURE

  spdlog.info "Set OpenGL 3.3 core profile"
  glfwWindowHint .GLFW_CONTEXT_VERSION_MAJOR (.inr 3)
  glfwWindowHint .GLFW_CONTEXT_VERSION_MINOR (.inr 3)
  glfwWindowHint .GLFW_OPENGL_PROFILE (.inl .GLFW_OPENGL_CORE_PROFILE)

  spdlog.info "Create window: 640x480"
  let window ← glfwCreateWindow w 640 480 "OpenGL Playground"

  if window = 0 then
    spdlog.error "Failed to create window"
    spdlog.info "Initiate cleanup"
    glfwTerminate
    return some EXIT_FAILURE

  glfwMakeContextCurrent window
  glfwSetWindowSizeCallback window

  spdlog.info "Load OpenGL function pointers"
  if !(← gladLoadGL w) then
    spdlog.error "Failed to load OpenGL function pointers"
    spdlog.info "Initiate cleanup"
    glfwDestroyWindow window
    glfwTerminate
    return some EXIT_FAILURE

  spdlog.info "Initialize graphics pipeline"
  spdlog.info "Process vertex and fragment shaders"
  let vertShader ← glCreateShader .GL_VERTEX_SHADER
  glShaderSource vertShader 1 vertShaderSource
  glCompileShader vertShader

  let fragShader ← glCreateShader .GL_FRAGMENT_SHADER
  glShaderSource fragShader 1 fragShaderSource
  glCompileShader fragShader

  let shaderProg ← glCreateProgram
  glAttachShader shaderProg vertShader
  glAttachShader shaderProg fragShader
  glLinkProgram shaderProg

  glDeleteShader vertShader
  glDeleteShader fragShader

  spdlog.info "Setup VAO and VBO"
  let VAO ← glGenVertexArrays 1
  let VBO ← glGenBuffers 1
  glBindVertexArray VAO
  glBindBuffer .GL_ARRAY_BUFFER VBO
  glBufferData .GL_ARRAY_BUFFER (vertices.length * sizeof_GLfloat) (.floats vertices)
    .GL_STATIC_DRAW
  glVertexAttribPointer 0 3 .GL_FLOAT false (3 * sizeof_GLfloat) 0
  glEnableVertexAttribArray 0

  spdlog.info "Initialize window event loop"
  if !(← renderLoop w window shaderProg fuel) then return none

  spdlog.info "Initiate cleanup"
  glDeleteBuffers 1 VBO
  glDeleteVertexArrays 1 VAO
  glfwDestroyWindow window
  glfwTerminate

  return some EXIT_SUCCESS

end HelloTriangle

/-! ## triangle/HelloTriangleInterpolated.cpp -/

namespace HelloTriangleInterpolated

def vertShaderSource : String :=
  "#version 330 core\n" ++
  "layout(location = 0) in vec3 aPos;\n" ++
  "layout(location = 1) in vec3 aColor;\n" ++
  "out vec3 vertexColor;\n" ++
  "void main() \x7b" ++
  "\tgl_Position = vec4(aPos, 1.0);\n" ++
  "\tvertexColor = aColor;\n" ++
  "\x7d"

def fragShaderSource : String :=
  "#version 330 core\n" ++
  "in vec3 vertexColor;\n" ++
  "out vec4 FragColor;\n" ++
  "void main() \x7b" ++
  "\tgl_FragColor = vec4(vertexColor, 1.0);\n" ++
  "\x7d"

def window_resize_callback (window : Nat) (width height : Int) : Prog Unit := do
  glViewport 0 0 width height
  spdlog.info "Window resized to dimensions: \x7b:d\x7dx\x7b:d\x7d"

def vertices : List ℚ := [
  -0.5, -0.433, 0.0,
  1.0, 0.0, 0.0,

  0.5, -0.433, 0.0,
  0.0, 1.0, 0.0,

  0.0, 0.433, 0.0,
  0.0, 0.0, 1.0
]

/-- The `while (!glfwWindowShouldClose(window))` loop of lines 107-114. The result says
whether the loop was left (`true`) or is still running when the fuel is used up. -/
def renderLoop (w : World) (window shaderProg : Nat) : Nat → Prog Bool
  | 0 => pure false
  | fuel + 1 => do
    if (← glfwWindowShouldClose w window) then return true
    glClearColor 0.0 0.0 0.0 1.0
    glClear .GL_COLOR_BUFFER_BIT
    glUseProgram shaderProg
    glDrawArrays .GL_TRIANGLES 0 3
    glfwSwapBuffers window
    glfwPollEvents w (window_resize_callback window)
    renderLoop w window shaderProg fuel

/-- The function `main`; `none` as result means the render loop is still running. -/
def main (w : World) (fuel : Nat) : Prog (Option Nat) := do
  spdlog.info "Initialize GLFW"
  if !(← glfwInit w) then
    spdlog.error "Failed to initialize GLFW"
    return some EXIT_FAILURE

  spdlog.info "Set OpenGL 3.3 core profile"
  glfwWindowHint .GLFW_CONTEXT_VERSION_MAJOR (.inr 3)
  glfwWindowHint .GLFW_CONTEXT_VERSION_MINOR (.inr 3)
  glfwWindowHint .GLFW_OPENGL_PROFILE (.inl .GLFW_OPENGL_CORE_PROFILE)

  spdlog.info "Create window: 640x480"
  let window ← glfwCreateWindow w 640 480 "OpenGL Playground"
  if window = 0 then
    spdlog.error "Failed to create window"
    spdlog.info "Initiate cleanup"
    glfwTerminate
    return some EXIT_FAILURE

  glfwSetWindowSizeCallback window
  glfwMakeContextCurrent window

  spdlog.info "Load OpenGL function pointers"
  if !(← gladLoadGL w) then
    spdlog.error "Failed to load OpenGL function pointers"
    spdlog.info "Initiate cleanup"
    glfwDestroyWindow window
    glfwTerminate
    return some EXIT_FAILURE

  spdlog.info "Setup graphics pipeline"

  spdlog.info "Process vertex and fragment shaders"
  let vertShader ← glCreateShader .GL_VERTEX_SHADER
  glShaderSource vertShader 1 vertShaderSource
  glCompileShader vertShader

  let fragShader ← glCreateShader .GL_FRAGMENT_SHADER
  glShaderSource fragShader 1 fragShaderSource
  glCompileShader fragShader

  let shaderProg ← glCreateProgram
  glAttachShader shaderProg vertShader
  glAttachShader shaderProg fragShader
  glLinkProgram shaderProg

  glDeleteShader vertShader
  glDeleteShader fragShader

  spdlog.info "Setup VAO and VBO"
  let VAO ← glGenVertexArrays 1
  let VBO ← glGenBuffers 1
  glBindVertexArray VAO
  glBindBuffer .GL_ARRAY_BUFFER VBO
  glBufferData .GL_ARRAY_BUFFER (vertices.length * sizeof_GLfloat) (.floats vertices)
    .GL_STATIC_DRAW
  glVertexAttribPointer 0 3 .GL_FLOAT false (6 * sizeof_GLfloat) 0
  glEnableVertexAttribArray 0
  glVertexAttribPointer 1 3 .GL_FLOAT false (6 * sizeof_GLfloat) (3 * sizeof_GLfloat)
  glEnableVertexAttribArray 1

  spdlog.info "Start window event loop"
  if !(← renderLoop w window shaderProg fuel) then return none

  spdlog.info "Initiate cleanup"
  glDeleteBuffers 1 VBO
  glDeleteVertexArrays 1 VAO
  glfwDestroyWindow window
  glfwTerminate

  return some EXIT_SUCCESS

end HelloTriangleInterpolated

/-! ## Double-precision arithmetic -/

/-- The integer nearest to `x`, the even one of the two nearest when `x` lies halfway
between them. -/
def roundHalfEven (x : ℚ) : ℤ :=
  if x - ⌊x⌋ < 1 / 2 then ⌊x⌋
  else if 1 / 2 < x - ⌊x⌋ then ⌊x⌋ + 1
  else if ⌊x⌋ % 2 = 0 then ⌊x⌋ else ⌊x⌋ + 1

/-- The distance between neighbouring doubles around `x`: `2 ^ (e - 52)` when
`2 ^ e ≤ |x| < 2 ^ (e + 1)`, a significand having 53 bits, and `2 ^ (-1074)` below the
smallest normal double `2 ^ (-1022)`. -/
def doubleSpacing (x : ℚ) : ℚ := (2 : ℚ) ^ (max (Int.log 2 |x|) (-1022) - 52)

/-- The double nearest to `x` (IEEE 754 binary64, round to nearest, ties to even), as
the rational it denotes. Results beyond the largest finite double are not turned into an
infinity; the programs compare a rounded value with a small positive constant only,
and an infinity compares with it as the finite value of the same sign does. -/
def toDouble (x : ℚ) : ℚ := roundHalfEven (x / doubleSpacing x) * doubleSpacing x

/-- The C expression `a - b` on doubles: the exact difference, rounded. -/
def Double.sub (a b : ℚ) : ℚ := toDouble (a - b)

/-- The C expression `a / b` on doubles, for `b` other than 0: the exact quotient,
rounded. -/
def Double.div (a b : ℚ) : ℚ := toDouble (a / b)

/-! ## triangle/CoolTriangleShape.cpp -/

namespace CoolTriangleShape

def vertShaderSource : String :=
  "\n#version 330 core\n\n" ++
  "layout(location = 0) in vec3 aPos;\n" ++
  "layout(location = 1) in vec3 aColor;\n" ++
  "out vec3 vertColor;\n\n" ++
  "void main() \x7b\n" ++
  "\tgl_Position = vec4(aPos, 1.0);\n" ++
  "\tvertColor = aColor;\n" ++
  "\x7d\n"

def fragShaderSource : String :=
  "\n#version 330 core\n\n" ++
  "in vec3 vertColor;\n" ++
  "out vec4 FragColor;\n\n" ++
  "void main() \x7b\n" ++
  "\tFragColor = vec4(vertColor, 1.0);\n" ++
  "\x7d\n"

def window_size_callback (window : Nat) (width height : Int) : Prog Unit := do
  glViewport 0 0 width height
  spdlog.info "Window resized to dimensions: \x7b:d\x7dx\x7b:d\x7d"

/-- The array `GLfloat vertices[][2][3]`: per vertex a position and a colour. -/
def vertices : List (List (List ℚ)) := [
  [[0.0, 0.0, 0.0],
   [1.0, 0.0, 0.0]],

  [[-0.75, -0.75, 0.0],
   [0.0, 1.0, 0.0]],

  [[-0.75, 0.75, 0.0],
   [0.0, 0.0, 1.0]],

  [[0.75, -0.75, 0.0],
   [0.0, 1.0, 0.0]],

  [[0.75, 0.75, 0.0],
   [0.0, 0.0, 1.0]],

  [[-0.1875, 0.0, 0.0],
   [0.0, 1.0, 0.0]],

  [[-0.625, -0.375, 0.0],
   [0.0, 0.0, 1.0]],

  [[-0.625, 0.375, 0.0],
   [1.0, 0.0, 0.0]],

  [[0.1875, 0.0, 0.0],
   [0.0, 1.0, 0.0]],

  [[0.625, -0.375, 0.0],
   [0.0, 0.0, 1.0]],

  [[0.625, 0.375, 0.0],
   [1.0, 0.0, 0.0]]
]

/-- The array `GLuint indices[]`. -/
def indices : List Nat := [
  0, 1, 2,
  0, 3, 4,
  5, 6, 7,
  8, 9, 10
]

/-- One pass through the body of the loop of lines 152-167, entered after the close
check answered false. The result is the value of `prevTime` after the pass: unchanged
when the pass ends at `continue`, `currTime` when it runs to the end. -/
def loopBody (w : World) (window shaderProg : Nat) (frameTime prevTime : ℚ) : Prog ℚ := do
  let currTime ← glfwGetTime w
  if Double.sub currTime prevTime < frameTime then
    return prevTime

  glClearColor 0.0 0.0 0.0 1.0
  glClear .GL_COLOR_BUFFER_BIT
  glUseProgram shaderProg
  glDrawElements .GL_TRIANGLES 12 .GL_UNSIGNED_INT 0

  glfwSwapBuffers window
  glfwPollEvents w (window_size_callback window)

  return currTime

/-- The `while (!glfwWindowShouldClose(window))` loop of lines 152-167. The result says
whether the loop was left (`true`) or is still running when the fuel is used up. -/
def renderLoop (w : World) (window shaderProg : Nat) (frameTime : ℚ) : Nat → ℚ → Prog Bool
  | 0, _ => pure false
  | fuel + 1, prevTime => do
    if (← glfwWindowShouldClose w window) then return true
    let prevTime ← loopBody w window shaderProg frameTime prevTime
    renderLoop w window shaderProg frameTime fuel prevTime

/-- The function `main`; `none` as result means the render loop is still running. -/
def main (w : World) (fuel : Nat) : Prog (Option Nat) := do
  spdlog.info "Initialize GLFW"
  if !(← glfwInit w) then
    spdlog.error "Failed to initialize GLFW"
    return some EXIT_FAILURE

  spdlog.info "Set OpenGL 3.3 core profile"
  glfwWindowHint .GLFW_CONTEXT_VERSION_MAJOR (.inr 3)
  glfwWindowHint .GLFW_CONTEXT_VERSION_MINOR (.inr 3)
  glfwWindowHint .GLFW_OPENGL_PROFILE (.inl .GLFW_OPENGL_CORE_PROFILE)

  spdlog.info "Create window: 640x480"
  let window ← glfwCreateWindow w 640 480 "OpenGL playground"
  if window = 0 then
    spdlog.error "Failed to create window"
    spdlog.info "Initiate cleanup"
    glfwTerminate
    return some EXIT_FAILURE

  glfwSetWindowSizeCallback window
  glfwMakeContextCurrent window

  spdlog.info "Load OpenGL function pointers"
  if !(← gladLoadGLLoader w) then
    spdlog.error "Failed to load OpenGL function pointers"
    spdlog.info "Initiate cleanup"
    glfwDestroyWindow window
    glfwTerminate
    return some EXIT_FAILURE

  spdlog.info "Initialize graphics pipeline"

  spdlog.info "Process vertex and fragment shaders"
  let vertShader ← glCreateShader .GL_VERTEX_SHADER
  glShaderSource vertShader 1 vertShaderSource
  glCompileShader vertShader

  let fragShader ← glCreateShader .GL_FRAGMENT_SHADER
  glShaderSource fragShader 1 fragShaderSource
  glCompileShader fragShader

  let shaderProg ← glCreateProgram
  glAttachShader shaderProg vertShader
  glAttachShader shaderProg fragShader
  glLinkProgram shaderProg

  glDeleteShader vertShader
  glDeleteShader fragShader

  spdlog.info "Process VAO, VBO, and IBO"
  let VAO ← glGenVertexArrays 1
  let VBO ← glGenBuffers 1
  let IBO ← glGenBuffers 1

  glBindVertexArray VAO

  glBindBuffer .GL_ARRAY_BUFFER VBO
  glBufferData .GL_ARRAY_BUFFER (vertices.flatten.flatten.length * sizeof_GLfloat)
    (.floats vertices.flatten.flatten) .GL_STATIC_DRAW

  glBindBuffer .GL_ELEMENT_ARRAY_BUFFER IBO
  glBufferData .GL_ELEMENT_ARRAY_BUFFER (indices.length * sizeof_GLuint) (.uints indices)
    .GL_STATIC_DRAW

  glVertexAttribPointer 0 3 .GL_FLOAT false (6 * sizeof_GLfloat) 0
  glEnableVertexAttribArray 0
  glVertexAttribPointer 1 3 .GL_FLOAT false (6 * sizeof_GLfloat) (3 * sizeof_GLfloat)
  glEnableVertexAttribArray 1

  spdlog.info "Begin window event loop"
  let frameTime : ℚ := Double.div 1.0 60.0
  let prevTime ← glfwGetTime w
  if !(← renderLoop w window shaderProg frameTime fuel prevTime) then return none

  spdlog.info "Initiate cleanup"
  glDeleteBuffers 1 VBO
  glDeleteBuffers 1 IBO
  glDeleteVertexArrays 1 VAO
  glfwDestroyWindow window
  glfwTerminate

  return some EXIT_SUCCESS

end CoolTriangleShape

/-! ## Vocabulary for statements about traces -/

/-- The log line of the resize callbacks. -/
def resizeMessage : String := "Window resized to dimensions: \x7b:d\x7dx\x7b:d\x7d"

/-- The trace entry of a close check issued by `main` that answered `b`. -/
def closeCheck (window : Nat) (b : Bool) : Event :=
  ⟨false, .glfwWindowShouldClose window, .bool b⟩

/-- The trace entries produced by the resize callback for a list of resize events. -/
def resizeCalls : List (Int × Int) → List Event
  | [] => []
  | e :: es =>
    ⟨true, .glViewport 0 0 e.1 e.2, .void⟩ ::
    ⟨true, .spdlog_info resizeMessage, .void⟩ ::
    resizeCalls es

/-- Does one of the `fuel` close checks numbered `c`, `c + 1`, ... answer true. -/
def closesWithin (w : World) : Nat → Nat → Bool
  | _, 0 => false
  | c, fuel + 1 => w.glfwWindowShouldClose c || closesWithin w (c + 1) fuel

/-- A trace entry for a call issued by `main` that returns nothing. -/
def own (c : Call) : Event := ⟨false, c, .void⟩

/-- Is the call a draw call. -/
def isDraw : Call → Bool
  | .glDrawArrays _ _ _ => true
  | .glDrawElements _ _ _ _ => true
  | _ => false

/-- The draw calls of a trace. -/
def drawCalls (tr : List Event) : List Event := tr.filter fun e => isDraw e.call

/-- The trace of an unthrottled render loop that is given `fuel` iterations, starts with
close check number `c` and poll number `p`, and issues the calls `frame` per iteration. -/
def plainLoopCalls (w : World) (window : Nat) (frame : List Event) : Nat → Nat → Nat → List Event
  | 0, _, _ => []
  | fuel + 1, c, p =>
    if w.glfwWindowShouldClose c then [closeCheck window true]
    else closeCheck window false :: (frame ++ (resizeCalls (w.resizeEvents p) ++
      plainLoopCalls w window frame fuel (c + 1) (p + 1)))

/-- The trace of the throttled render loop that is given `fuel` iterations and starts
with close check number `c`, clock reading number `t`, poll number `p` and the value
`prevTime` of the loop variable. -/
def throttledLoopCalls (w : World) (window : Nat) (frame : List Event) (frameTime : ℚ) :
    Nat → Nat → Nat → Nat → ℚ → List Event
  | 0, _, _, _, _ => []
  | fuel + 1, c, t, p, prevTime =>
    if w.glfwWindowShouldClose c then [closeCheck window true]
    else closeCheck window false :: ⟨false, .glfwGetTime, .real (w.glfwGetTime t)⟩ ::
      (if Double.sub (w.glfwGetTime t) prevTime < frameTime then
        throttledLoopCalls w window frame frameTime fuel (c + 1) (t + 1) p prevTime
      else frame ++ (resizeCalls (w.resizeEvents p) ++
        throttledLoopCalls w window frame frameTime fuel (c + 1) (t + 1) (p + 1)
          (w.glfwGetTime t)))

/-- What a resize callback does: it sets the viewport to `(0, 0, W, H)`, and appends
its `glViewport` call and one info log line to the trace; nothing else changes. -/
def resized (W H : Int) (s : State) : State :=
  { s with
    trace := s.trace ++ [⟨s.inCallback, .glViewport 0 0 W H, .void⟩,
      ⟨s.inCallback, .spdlog_info resizeMessage, .void⟩]
    viewport := some (0, 0, W, H) }

/-! ### The call sequences of HelloTriangle.cpp -/

namespace HelloTriangle

/-- The calls of one loop iteration, lines 94-99. -/
def frameCalls (window shaderProg : Nat) : List Event :=
  [own (.glClearColor 0.17 0.25 0.32 1.0), own (.glClear .GL_COLOR_BUFFER_BIT),
   own (.glUseProgram shaderProg), own (.glDrawArrays .GL_TRIANGLES 0 3),
   own (.glfwSwapBuffers window), own .glfwPollEvents]

/-- The calls of lines 23-92 when the three initialization steps succeed. -/
def setupCalls (w : World) : List Event :=
  [own (.spdlog_info "Initialize GLFW"),
   ⟨false, .glfwInit, .bool true⟩,
   own (.spdlog_info "Set OpenGL 3.3 core profile"),
   own (.glfwWindowHint .GLFW_CONTEXT_VERSION_MAJOR (.inr 3)),
   own (.glfwWindowHint .GLFW_CONTEXT_VERSION_MINOR (.inr 3)),
   own (.glfwWindowHint .GLFW_OPENGL_PROFILE (.inl .GLFW_OPENGL_CORE_PROFILE)),
   own (.spdlog_info "Create window: 640x480"),
   ⟨false, .glfwCreateWindow 640 480 "OpenGL Playground", .nat w.glfwCreateWindow⟩,
   own (.glfwMakeContextCurrent w.glfwCreateWindow),
   own (.glfwSetWindowSizeCallback w.glfwCreateWindow),
   own (.spdlog_info "Load OpenGL function pointers"),
   ⟨false, .gladLoadGL, .bool true⟩,
   own (.spdlog_info "Initialize graphics pipeline"),
   own (.spdlog_info "Process vertex and fragment shaders"),
   ⟨false, .glCreateShader .GL_VERTEX_SHADER, .nat 1⟩,
   own (.glShaderSource 1 1 vertShaderSource),
   own (.glCompileShader 1),
   ⟨false, .glCreateShader .GL_FRAGMENT_SHADER, .nat 2⟩,
   own (.glShaderSource 2 1 fragShaderSource),
   own (.glCompileShader 2),
   ⟨false, .glCreateProgram, .nat 3⟩,
   own (.glAttachShader 3 1),
   own (.glAttachShader 3 2),
   own (.glLinkProgram 3),
   own (.glDeleteShader 1),
   own (.glDeleteShader 2),
   own (.spdlog_info "Setup VAO and VBO"),
   ⟨false, .glGenVertexArrays 1, .nat 1⟩,
   ⟨false, .glGenBuffers 1, .nat 1⟩,
   own (.glBindVertexArray 1),
   own (.glBindBuffer .GL_ARRAY_BUFFER 1),
   own (.glBufferData .GL_ARRAY_BUFFER 36 (.floats vertices) .GL_STATIC_DRAW),
   own (.glVertexAttribPointer 0 3 .GL_FLOAT false 12 0),
   own (.glEnableVertexAttribArray 0),
   own (.spdlog_info "Initialize window event loop")]

/-- The state in which the render loop is entered. -/
def setupState (w : World) : State :=
  { trace := setupCalls w, viewport := none, inCallback := false, callbackSet := true,
    objectNames := 3, bufferNames := 1, arrayNames := 1,
    closeChecks := 0, clockReads := 0, polls := 0 }

/-- The calls of lines 102-106. -/
def cleanupCalls (w : World) : List Event :=
  [own (.spdlog_info "Initiate cleanup"),
   own (.glDeleteBuffers 1 1),
   own (.glDeleteVertexArrays 1 1),
   own (.glfwDestroyWindow w.glfwCreateWindow),
   own .glfwTerminate]

/-- The whole trace of a run: one of the three failure paths, or setup, loop and, when
the loop is left within the fuel, cleanup. -/
def runCalls (w : World) (fuel : Nat) : List Event :=
  if w.glfwInit = false then
    [own (.spdlog_info "Initialize GLFW"),
     ⟨false, .glfwInit, .bool false⟩,
     own (.spdlog_error "Failed to initialize GLFW")]
  else if w.glfwCreateWindow = 0 then
    [own (.spdlog_info "Initialize GLFW"),
     ⟨false, .glfwInit, .bool true⟩,
     own (.spdlog_info "Set OpenGL 3.3 core profile"),
     own (.glfwWindowHint .GLFW_CONTEXT_VERSION_MAJOR (.inr 3)),
     own (.glfwWindowHint .GLFW_CONTEXT_VERSION_MINOR (.inr 3)),
     own (.glfwWindowHint .GLFW_OPENGL_PROFILE (.inl .GLFW_OPENGL_CORE_PROFILE)),
     own (.spdlog_info "Create window: 640x480"),
     ⟨false, .glfwCreateWindow 640 480 "OpenGL Playground", .nat 0⟩,
     own (.spdlog_error "Failed to create window"),
     own (.spdlog_info "Initiate cleanup"),
     own .glfwTerminate]
  else if w.gladLoad = false then
    [own (.spdlog_info "Initialize GLFW"),
     ⟨false, .glfwInit, .bool true⟩,
     own (.spdlog_info "Set OpenGL 3.3 core profile"),
     own (.glfwWindowHint .GLFW_CONTEXT_VERSION_MAJOR (.inr 3)),
     own (.glfwWindowHint .GLFW_CONTEXT_VERSION_MINOR (.inr 3)),
     own (.glfwWindowHint .GLFW_OPENGL_PROFILE (.inl .GLFW_OPENGL_CORE_PROFILE)),
     own (.spdlog_info "Create window: 640x480"),
     ⟨false, .glfwCreateWindow 640 480 "OpenGL Playground", .nat w.glfwCreateWindow⟩,
     own (.glfwMakeContextCurrent w.glfwCreateWindow),
     own (.glfwSetWindowSizeCallback w.glfwCreateWindow),
     own (.spdlog_info "Load OpenGL function pointers"),
     ⟨false, .gladLoadGL, .bool false⟩,
     own (.spdlog_error "Failed to load OpenGL function pointers"),
     own (.spdlog_info "Initiate cleanup"),
     own (.glfwDestroyWindow w.glfwCreateWindow),
     own .glfwTerminate]
  else
    setupCalls w ++
      (plainLoopCalls w w.glfwCreateWindow (frameCalls w.glfwCreateWindow 3) fuel 0 0 ++
        if closesWithin w 0 fuel then cleanupCalls w else [])

end HelloTriangle

/-! ### The call sequences of triangle/HelloTriangleInterpolated.cpp -/

namespace HelloTriangleInterpolated

/-- The calls of one loop iteration, lines 108-113. -/
def frameCalls (window shaderProg : Nat) : List Event :=
  [own (.glClearColor 0.0 0.0 0.0 1.0), own (.glClear .GL_COLOR_BUFFER_BIT),
   own (.glUseProgram shaderProg), own (.glDrawArrays .GL_TRIANGLES 0 3),
   own (.glfwSwapBuffers window), own .glfwPollEvents]

/-- The calls of lines 29-106 when the three initialization steps succeed. -/
def setupCalls (w : World) : List Event :=
  [own (.spdlog_info "Initialize GLFW"),
   ⟨false, .glfwInit, .bool true⟩,
   own (.spdlog_info "Set OpenGL 3.3 core profile"),
   own (.glfwWindowHint .GLFW_CONTEXT_VERSION_MAJOR (.inr 3)),
   own (.glfwWindowHint .GLFW_CONTEXT_VERSION_MINOR (.inr 3)),
   own (.glfwWindowHint .GLFW_OPENGL_PROFILE (.inl .GLFW_OPENGL_CORE_PROFILE)),
   own (.spdlog_info "Create window: 640x480"),
   ⟨false, .glfwCreateWindow 640 480 "OpenGL Playground", .nat w.glfwCreateWindow⟩,
   own (.glfwSetWindowSizeCallback w.glfwCreateWindow),
   own (.glfwMakeContextCurrent w.glfwCreateWindow),
   own (.spdlog_info "Load OpenGL function pointers"),
   ⟨false, .gladLoadGL, .bool true⟩,
   own (.spdlog_info "Setup graphics pipeline"),
   own (.spdlog_info "Process vertex and fragment shaders"),
   ⟨false, .glCreateShader .GL_VERTEX_SHADER, .nat 1⟩,
   own (.glShaderSource 1 1 vertShaderSource),
   own (.glCompileShader 1),
   ⟨false, .glCreateShader .GL_FRAGMENT_SHADER, .nat 2⟩,
   own (.glShaderSource 2 1 fragShaderSource),
   own (.glCompileShader 2),
   ⟨false, .glCreateProgram, .nat 3⟩,
   own (.glAttachShader 3 1),
   own (.glAttachShader 3 2),
   own (.glLinkProgram 3),
   own (.glDeleteShader 1),
   own (.glDeleteShader 2),
   own (.spdlog_info "Setup VAO and VBO"),
   ⟨false, .glGenVertexArrays 1, .nat 1⟩,
   ⟨false, .glGenBuffers 1, .nat 1⟩,
   own (.glBindVertexArray 1),
   own (.glBindBuffer .GL_ARRAY_BUFFER 1),
   own (.glBufferData .GL_ARRAY_BUFFER 72 (.floats vertices) .GL_STATIC_DRAW),
   own (.glVertexAttribPointer 0 3 .GL_FLOAT false 24 0),
   own (.glEnableVertexAttribArray 0),
   own (.glVertexAttribPointer 1 3 .GL_FLOAT false 24 12),
   own (.glEnableVertexAttribArray 1),
   own (.spdlog_info "Start window event loop")]

/-- The state in which the render loop is entered. -/
def setupState (w : World) : State :=
  { trace := setupCalls w, viewport := none, inCallback := false, callbackSet := true,
    objectNames := 3, bufferNames := 1, arrayNames := 1,
    closeChecks := 0, clockReads := 0, polls := 0 }

/-- The calls of lines 116-120. -/
def cleanupCalls (w : World) : List Event :=
  [own (.spdlog_info "Initiate cleanup"),
   own (.glDeleteBuffers 1 1),
   own (.glDeleteVertexArrays 1 1),
   own (.glfwDestroyWindow w.glfwCreateWindow),
   own .glfwTerminate]

/-- The whole trace of a run: one of the three failure paths, or setup, loop and, when
the loop is left within the fuel, cleanup. -/
def runCalls (w : World) (fuel : Nat) : List Event :=
  if w.glfwInit = false then
    [own (.spdlog_info "Initialize GLFW"),
     ⟨false, .glfwInit, .bool false⟩,
     own (.spdlog_error "Failed to initialize GLFW")]
  else if w.glfwCreateWindow = 0 then
    [own (.spdlog_info "Initialize GLFW"),
     ⟨false, .glfwInit, .bool true⟩,
     own (.spdlog_info "Set OpenGL 3.3 core profile"),
     own (.glfwWindowHint .GLFW_CONTEXT_VERSION_MAJOR (.inr 3)),
     own (.glfwWindowHint .GLFW_CONTEXT_VERSION_MINOR (.inr 3)),
     own (.glfwWindowHint .GLFW_OPENGL_PROFILE (.inl .GLFW_OPENGL_CORE_PROFILE)),
     own (.spdlog_info "Create window: 640x480"),
     ⟨false, .glfwCreateWindow 640 480 "OpenGL Playground", .nat 0⟩,
     own (.spdlog_error "Failed to create window"),
     own (.spdlog_info "Initiate cleanup"),
     own .glfwTerminate]
  else if w.gladLoad = false then
    [own (.spdlog_info "Initialize GLFW"),
     ⟨false, .glfwInit, .bool true⟩,
     own (.spdlog_info "Set OpenGL 3.3 core profile"),
     own (.glfwWindowHint .GLFW_CONTEXT_VERSION_MAJOR (.inr 3)),
     own (.glfwWindowHint .GLFW_CONTEXT_VERSION_MINOR (.inr 3)),
     own (.glfwWindowHint .GLFW_OPENGL_PROFILE (.inl .GLFW_OPENGL_CORE_PROFILE)),
     own (.spdlog_info "Create window: 640x480"),
     ⟨false, .glfwCreateWindow 640 480 "OpenGL Playground", .nat w.glfwCreateWindow⟩,
     own (.glfwSetWindowSizeCallback w.glfwCreateWindow),
     own (.glfwMakeContextCurrent w.glfwCreateWindow),
     own (.spdlog_info "Load OpenGL function pointers"),
     ⟨false, .gladLoadGL, .bool false⟩,
     own (.spdlog_error "Failed to load OpenGL function pointers"),
     own (.spdlog_info "Initiate cleanup"),
     own (.glfwDestroyWindow w.glfwCreateWindow),
     own .glfwTerminate]
  else
    setupCalls w ++
      (plainLoopCalls w w.glfwCreateWindow (frameCalls w.glfwCreateWindow 3) fuel 0 0 ++
        if closesWithin w 0 fuel then cleanupCalls w else [])

end HelloTriangleInterpolated

/-! ### The call sequences of triangle/CoolTriangleShape.cpp -/

namespace CoolTriangleShape

/-- The calls of a loop iteration that is not skipped, lines 158-164. -/
def frameCalls (window shaderProg : Nat) : List Event :=
  [own (.glClearColor 0.0 0.0 0.0 1.0), own (.glClear .GL_COLOR_BUFFER_BIT),
   own (.glUseProgram shaderProg), own (.glDrawElements .GL_TRIANGLES 12 .GL_UNSIGNED_INT 0),
   own (.glfwSwapBuffers window), own .glfwPollEvents]

/-- The calls of lines 35-151 when the three initialization steps succeed; the last
one is the clock reading that initializes `prevTime`. -/
def setupCalls (w : World) : List Event :=
  [own (.spdlog_info "Initialize GLFW"),
   ⟨false, .glfwInit, .bool true⟩,
   own (.spdlog_info "Set OpenGL 3.3 core profile"),
   own (.glfwWindowHint .GLFW_CONTEXT_VERSION_MAJOR (.inr 3)),
   own (.glfwWindowHint .GLFW_CONTEXT_VERSION_MINOR (.inr 3)),
   own (.glfwWindowHint .GLFW_OPENGL_PROFILE (.inl .GLFW_OPENGL_CORE_PROFILE)),
   own (.spdlog_info "Create window: 640x480"),
   ⟨false, .glfwCreateWindow 640 480 "OpenGL playground", .nat w.glfwCreateWindow⟩,
   own (.glfwSetWindowSizeCallback w.glfwCreateWindow),
   own (.glfwMakeContextCurrent w.glfwCreateWindow),
   own (.spdlog_info "Load OpenGL function pointers"),
   ⟨false, .gladLoadGLLoader, .bool true⟩,
   own (.spdlog_info "Initialize graphics pipeline"),
   own (.spdlog_info "Process vertex and fragment shaders"),
   ⟨false, .glCreateShader .GL_VERTEX_SHADER, .nat 1⟩,
   own (.glShaderSource 1 1 vertShaderSource),
   own (.glCompileShader 1),
   ⟨false, .glCreateShader .GL_FRAGMENT_SHADER, .nat 2⟩,
   own (.glShaderSource 2 1 fragShaderSource),
   own (.glCompileShader 2),
   ⟨false, .glCreateProgram, .nat 3⟩,
   own (.glAttachShader 3 1),
   own (.glAttachShader 3 2),
   own (.glLinkProgram 3),
   own (.glDeleteShader 1),
   own (.glDeleteShader 2),
   own (.spdlog_info "Process VAO, VBO, and IBO"),
   ⟨false, .glGenVertexArrays 1, .nat 1⟩,
   ⟨false, .glGenBuffers 1, .nat 1⟩,
   ⟨false, .glGenBuffers 1, .nat 2⟩,
   own (.glBindVertexArray 1),
   own (.glBindBuffer .GL_ARRAY_BUFFER 1),
   own (.glBufferData .GL_ARRAY_BUFFER 264 (.floats vertices.flatten.flatten) .GL_STATIC_DRAW),
   own (.glBindBuffer .GL_ELEMENT_ARRAY_BUFFER 2),
   own (.glBufferData .GL_ELEMENT_ARRAY_BUFFER 48 (.uints indices) .GL_STATIC_DRAW),
   own (.glVertexAttribPointer 0 3 .GL_FLOAT false 24 0),
   own (.glEnableVertexAttribArray 0),
   own (.glVertexAttribPointer 1 3 .GL_FLOAT false 24 12),
   own (.glEnableVertexAttribArray 1),
   own (.spdlog_info "Begin window event loop"),
   ⟨false, .glfwGetTime, .real (w.glfwGetTime 0)⟩]

/-- The state in which the render loop is entered. -/
def setupState (w : World) : State :=
  { trace := setupCalls w, viewport := none, inCallback := false, callbackSet := true,
    objectNames := 3, bufferNames := 2, arrayNames := 1,
    closeChecks := 0, clockReads := 1, polls := 0 }

/-- The calls of lines 169-174. -/
def cleanupCalls (w : World) : List Event :=
  [own (.spdlog_info "Initiate cleanup"),
   own (.glDeleteBuffers 1 1),
   own (.glDeleteBuffers 1 2),
   own (.glDeleteVertexArrays 1 1),
   own (.glfwDestroyWindow w.glfwCreateWindow),
   own .glfwTerminate]

/-- The whole trace of a run: one of the three failure paths, or setup, loop and, when
the loop is left within the fuel, cleanup. -/
def runCalls (w : World) (fuel : Nat) : List Event :=
  if w.glfwInit = false then
    [own (.spdlog_info "Initialize GLFW"),
     ⟨false, .glfwInit, .bool false⟩,
     own (.spdlog_error "Failed to initialize GLFW")]
  else if w.glfwCreateWindow = 0 then
    [own (.spdlog_info "Initialize GLFW"),
     ⟨false, .glfwInit, .bool true⟩,
     own (.spdlog_info "Set OpenGL 3.3 core profile"),
     own (.glfwWindowHint .GLFW_CONTEXT_VERSION_MAJOR (.inr 3)),
     own (.glfwWindowHint .GLFW_CONTEXT_VERSION_MINOR (.inr 3)),
     own (.glfwWindowHint .GLFW_OPENGL_PROFILE (.inl .GLFW_OPENGL_CORE_PROFILE)),
     own (.spdlog_info "Create window: 640x480"),
     ⟨false, .glfwCreateWindow 640 480 "OpenGL playground", .nat 0⟩,
     own (.spdlog_error "Failed to create window"),
     own (.spdlog_info "Initiate cleanup"),
     own .glfwTerminate]
  else if w.gladLoad = false then
    [own (.spdlog_info "Initialize GLFW"),
     ⟨false, .glfwInit, .bool true⟩,
     own (.spdlog_info "Set OpenGL 3.3 core profile"),
     own (.glfwWindowHint .GLFW_CONTEXT_VERSION_MAJOR (.inr 3)),
     own (.glfwWindowHint .GLFW_CONTEXT_VERSION_MINOR (.inr 3)),
     own (.glfwWindowHint .GLFW_OPENGL_PROFILE (.inl .GLFW_OPENGL_CORE_PROFILE)),
     own (.spdlog_info "Create window: 640x480"),
     ⟨false, .glfwCreateWindow 640 480 "OpenGL playground", .nat w.glfwCreateWindow⟩,
     own (.glfwSetWindowSizeCallback w.glfwCreateWindow),
     own (.glfwMakeContextCurrent w.glfwCreateWindow),
     own (.spdlog_info "Load OpenGL function pointers"),
     ⟨false, .gladLoadGLLoader, .bool false⟩,
     own (.spdlog_error "Failed to load OpenGL function pointers"),
     own (.spdlog_info "Initiate cleanup"),
     own (.glfwDestroyWindow w.glfwCreateWindow),
     own .glfwTerminate]
  else
    setupCalls w ++
      (throttledLoopCalls w w.glfwCreateWindow (frameCalls w.glfwCreateWindow 3) (Double.div 1.0 60.0)
          fuel 0 1 0 (w.glfwGetTime 0) ++
        if closesWithin w 0 fuel then cleanupCalls w else [])

/-- The loop variable `prevTime` and the state after the first `i` iterations of the
render loop, for a run whose initialization succeeds: each iteration is the close check
followed by one pass through the loop body. It describes the run as long as the close
checks answer false. -/
def afterIterations (w : World) : Nat → ℚ × State
  | 0 => (w.glfwGetTime 0, setupState w)
  | i + 1 =>
    loopBody w w.glfwCreateWindow 3 (Double.div 1.0 60.0) (afterIterations w i).1
      (glfwWindowShouldClose w w.glfwCreateWindow (afterIterations w i).2).2

/-- Does iteration number `i` of the render loop, counted from 0, issue a draw call:
the trace has one draw call more after it than before it. Iteration `i` takes clock
reading number `i + 1`, reading number 0 being taken just before the loop. -/
def drawsIn (w : World) (i : Nat) : Prop :=
  (drawCalls (afterIterations w (i + 1)).2.trace).length =
    (drawCalls (afterIterations w i).2.trace).length + 1

instance (w : World) (i : Nat) : Decidable (drawsIn w i) := by
  unfold drawsIn; infer_instance

end CoolTriangleShape

/-- The exit status of a run of any of the three programs: failure when an
initialization step fails, success when the loop is left within the fuel, and no
status yet otherwise. -/
def runStatus (w : World) (fuel : Nat) : Option Nat :=
  if w.glfwInit = false ∨ w.glfwCreateWindow = 0 ∨ w.gladLoad = false then some EXIT_FAILURE
  else if closesWithin w 0 fuel then some EXIT_SUCCESS
  else none

/-- The three programs. -/
def programs : List (World → Nat → Prog (Option Nat)) :=
  [HelloTriangle.main, HelloTriangleInterpolated.main, CoolTriangleShape.main]

/-! ### Resources -/

/-- What a program can acquire and has to release. -/
inductive Resource where
  | subsystem
  | window (pointer : Nat)
  | shader (name : Nat)
  | program (name : Nat)
  | vertexArray (name : Nat)
  | buffer (name : Nat)
  deriving DecidableEq

/-- The resource a trace entry acquires, if any. -/
def acquired (e : Event) : Option Resource :=
  match e.call, e.result with
  | .glfwInit, .bool true => some .subsystem
  | .glfwCreateWindow _ _ _, .nat p => if p = 0 then none else some (.window p)
  | .glCreateShader _, .nat n => some (.shader n)
  | .glCreateProgram, .nat n => some (.program n)
  | .glGenVertexArrays _, .nat n => some (.vertexArray n)
  | .glGenBuffers _, .nat n => some (.buffer n)
  | _, _ => none

/-- The resource a trace entry releases, if any. -/
def released (e : Event) : Option Resource :=
  match e.call with
  | .glfwTerminate => some .subsystem
  | .glfwDestroyWindow p => some (.window p)
  | .glDeleteShader n => some (.shader n)
  | .glDeleteProgram n => some (.program n)
  | .glDeleteVertexArrays _ n => some (.vertexArray n)
  | .glDeleteBuffers _ n => some (.buffer n)
  | _ => none

/-- The resources acquired along a trace, in order. -/
def acquisitions (tr : List Event) : List Resource := tr.filterMap acquired

/-- The resources released along a trace, in order. -/
def releases (tr : List Event) : List Resource := tr.filterMap released

/-- Is the call a log line. -/
def isLog : Call → Bool
  | .spdlog_info _ => true
  | .spdlog_error _ => true
  | _ => false

/-- Does the call create a shader, program, buffer or vertex-array object. -/
def createsObject : Call → Bool
  | .glCreateShader _ => true
  | .glCreateProgram => true
  | .glGenBuffers _ => true
  | .glGenVertexArrays _ => true
  | _ => false

/-- The calls `main` itself issues in a stretch of trace, without the evaluations of the
loop condition and without what the resize callback does. -/
def bodyCalls (tr : List Event) : List Call :=
  (tr.filter fun e => !e.fromCallback && !(match e.call with
    | .glfwWindowShouldClose _ => true
    | _ => false)).map Event.call

/-! ### Graphics-API calls and the interval in which they are allowed -/

/-- Is the call an OpenGL call (shader, program, buffer, vertex-array, clear, draw,
viewport), as opposed to a GLFW, glad or spdlog call. -/
def isGraphicsCall : Call → Bool
  | .glCreateShader _ => true
  | .glShaderSource _ _ _ => true
  | .glCompileShader _ => true
  | .glCreateProgram => true
  | .glAttachShader _ _ => true
  | .glLinkProgram _ => true
  | .glDeleteShader _ => true
  | .glGenVertexArrays _ => true
  | .glGenBuffers _ => true
  | .glBindVertexArray _ => true
  | .glBindBuffer _ _ => true
  | .glBufferData _ _ _ _ => true
  | .glVertexAttribPointer _ _ _ _ _ _ => true
  | .glEnableVertexAttribArray _ => true
  | .glClearColor _ _ _ _ => true
  | .glClear _ => true
  | .glUseProgram _ => true
  | .glDrawArrays _ _ _ => true
  | .glDrawElements _ _ _ _ => true
  | .glViewport _ _ _ _ => true
  | .glDeleteBuffers _ _ => true
  | .glDeleteProgram _ => true
  | .glDeleteVertexArrays _ _ => true
  | _ => false

/-- Has a window's context been made current in the stretch of trace. -/
def contextCurrent (pre : List Event) : Bool :=
  pre.any fun x => match x.call with
    | .glfwMakeContextCurrent _ => true
    | _ => false

/-- Has the function-pointer loader returned success in the stretch of trace. -/
def loaderSucceeded (pre : List Event) : Bool :=
  pre.any fun x => match x.call, x.result with
    | .gladLoadGL, .bool true => true
    | .gladLoadGLLoader, .bool true => true
    | _, _ => false

/-- Has a window been destroyed in the stretch of trace. -/
def windowDestroyed (pre : List Event) : Bool :=
  pre.any fun x => match x.call with
    | .glfwDestroyWindow _ => true
    | _ => false

/-- Has the render loop been entered: some close check answered false. -/
def loopEntered (pre : List Event) : Bool :=
  pre.any fun x => match x.call, x.result with
    | .glfwWindowShouldClose _, .bool false => true
    | _, _ => false

/-- Has the render loop been left: some close check answered true. -/
def loopLeft (pre : List Event) : Bool :=
  pre.any fun x => match x.call, x.result with
    | .glfwWindowShouldClose _, .bool true => true
    | _, _ => false

/-- Is the end of the stretch of trace inside an event poll: going back over the
entries issued from the callback, the first other entry is `glfwPollEvents`. -/
def insidePoll (pre : List Event) : Bool :=
  match pre.reverse.dropWhile Event.fromCallback with
  | x :: _ => decide (x.call = .glfwPollEvents)
  | [] => false

/-- The entry `e` may follow the stretch of trace `pre`: a graphics call needs a current
context, a successful loader and a window that is not destroyed; an entry issued from
the resize callback needs to be inside an event poll of the render loop. -/
def admissible (pre : List Event) (e : Event) : Prop :=
  (isGraphicsCall e.call = true →
    contextCurrent pre = true ∧ loaderSucceeded pre = true ∧ windowDestroyed pre = false) ∧
  (e.fromCallback = true →
    insidePoll pre = true ∧ loopEntered pre = true ∧ loopLeft pre = false)

instance (pre : List Event) (e : Event) : Decidable (admissible pre e) := by
  unfold admissible; infer_instance

/-- Every entry of `rest` may follow what precedes it, `seen` included. -/
def gated : List Event → List Event → Bool
  | _, [] => true
  | seen, e :: rest => decide (admissible seen e) && gated (seen ++ [e]) rest

/-- After the stretch of trace graphics calls are allowed: a context has been made
current, the loader has succeeded and no window has been destroyed. -/
def renderReady (pre : List Event) : Prop :=
  contextCurrent pre = true ∧ loaderSucceeded pre = true ∧ windowDestroyed pre = false

/-! ### Vertex attribute layout -/

/-- The rest of the text after the literal `lit`, when the text starts with it. -/
def afterLiteral : List Char → List Char → Option (List Char)
  | [], text => some text
  | _ :: _, [] => none
  | p :: ps, c :: cs => if p = c then afterLiteral ps cs else none

/-- The number written by a list of decimal digits. -/
def digitsValue (ds : List Char) : Nat :=
  ds.foldl (fun n d => 10 * n + (d.toNat - 48)) 0

/-- The locations `k` of the declarations `layout(location = k) in vec3 ...` in a
shader source text, in order. -/
def vec3InputsFrom : List Char → List Nat
  | [] => []
  | c :: cs =>
    match afterLiteral "layout(location = ".toList (c :: cs) with
    | some rest =>
      match afterLiteral ") in vec3 ".toList (rest.dropWhile Char.isDigit) with
      | some _ => digitsValue (rest.takeWhile Char.isDigit) :: vec3InputsFrom cs
      | none => vec3InputsFrom cs
    | none => vec3InputsFrom cs

/-- The locations of the `vec3` inputs a shader source declares. -/
def vec3Inputs (source : String) : List Nat := vec3InputsFrom source.toList

/-- The attribute slots enabled along a trace. -/
def enabledSlots (tr : List Event) : List Nat :=
  tr.filterMap fun e => match e.call with
    | .glEnableVertexAttribArray k => some k
    | _ => none

/-- The layouts declared along a trace: slot, component count, component type, stride
in bytes, byte offset. -/
def attribPointers (tr : List Event) : List (Nat × Nat × GLenum × Nat × Nat) :=
  tr.filterMap fun e => match e.call with
    | .glVertexAttribPointer index size type _ stride pointer =>
      some (index, size, type, stride, pointer)
    | _ => none

/-- The byte sizes of the uploads to a buffer target along a trace. -/
def uploadSizes (target : GLenum) (tr : List Event) : List Nat :=
  tr.filterMap fun e => match e.call with
    | .glBufferData t size _ _ => if t = target then some size else none
    | _ => none

/-- Do the declared attributes, in the order given, occupy consecutive byte ranges that
start at byte `start` of a vertex and end exactly at the stride: each attribute begins
where the previous one ends, so the ranges are disjoint and leave no gap. -/
def fillsStride (stride : Nat) : Nat → List (Nat × Nat × GLenum × Nat × Nat) → Bool
  | start, [] => decide (start = stride)
  | start, (_, size, _, st, pointer) :: rest =>
    decide (pointer = start) && decide (st = stride) &&
      fillsStride stride (start + size * sizeof_GLfloat) rest

/-! ### Loop entries and sample worlds -/

/-- The trace entries a render loop with per-iteration calls `frame` can produce: a close
check, a clock reading, one of the calls of `frame`, or one of the two calls of the
resize callback. -/
def LoopEvent (window : Nat) (frame : List Event) (e : Event) : Prop :=
  (∃ b, e = closeCheck window b) ∨
  (∃ q, e = ⟨false, .glfwGetTime, .real q⟩) ∨
  e ∈ frame ∨
  (∃ W H, e = ⟨true, .glViewport 0 0 W H, .void⟩) ∨
  e = ⟨true, .spdlog_info resizeMessage, .void⟩

/-- The trace of `n` complete iterations of an unthrottled loop, the first of which
makes poll number `p`: per iteration the close check that answers false, the calls of
`frame`, and what the resize callback does for the resize events of that poll. -/
def plainIterations (w : World) (window : Nat) (frame : List Event) : Nat → Nat → List Event
  | 0, _ => []
  | n + 1, p =>
    closeCheck window false :: (frame ++ (resizeCalls (w.resizeEvents p) ++
      plainIterations w window frame n (p + 1)))

/-- The calls that occur inside the render loops of the three programs. -/
def loopCall : Call → Bool
  | .glfwWindowShouldClose _ => true
  | .glfwGetTime => true
  | .glClearColor _ _ _ _ => true
  | .glClear _ => true
  | .glUseProgram _ => true
  | .glDrawArrays _ _ _ => true
  | .glDrawElements _ _ _ _ => true
  | .glfwSwapBuffers _ => true
  | .glfwPollEvents => true
  | .glViewport _ _ _ _ => true
  | .spdlog_info _ => true
  | _ => false

/-- A world in which every initialization step succeeds, the window pointer is 7, the
third close check is the first to answer true, the clock advances by 1/120 s per reading
and the window is resized to 800x600 during the second event poll. -/
def sampleWorld : World where
  glfwInit := true
  glfwCreateWindow := 7
  gladLoad := true
  glfwWindowShouldClose k := decide (2 ≤ k)
  glfwGetTime k := (k : ℚ) / 120
  resizeEvents k := if k = 1 then [(800, 600)] else []

/-- A world in which every initialization step succeeds and the close request is
already set at the first check. -/
def closedAtOnce : World where
  glfwInit := true
  glfwCreateWindow := 7
  gladLoad := true
  glfwWindowShouldClose _ := true
  glfwGetTime k := (k : ℚ) / 120
  resizeEvents _ := []

/-- A world in which every initialization step succeeds, the clock advances by 1/128 s
per reading and the window is never closed. -/
def steadyWorld : World where
  glfwInit := true
  glfwCreateWindow := 7
  gladLoad := true
  glfwWindowShouldClose _ := false
  glfwGetTime k := (k : ℚ) / 128
  resizeEvents _ := []

/-- A world at the boundary of the frame throttle: every initialization step succeeds,
the clock reads 0 just before the loop and the double `1.0 / 60.0`, which is
4803839602528529 / 2^58, at every later reading, and the second close check is the first
to answer true. -/
def thresholdWorld : World where
  glfwInit := true
  glfwCreateWindow := 7
  gladLoad := true
  glfwWindowShouldClose k := decide (1 ≤ k)
  glfwGetTime k := if k = 0 then 0 else 4803839602528529 / 2 ^ 58
  resizeEvents _ := []

end OpenGLExamples

/-! # Theorems -/

namespace OpenGLExamples

/-! ## Running a computation -/

@[simp] theorem Prog.bind_apply {α β : Type} (m : Prog α) (f : α → Prog β) (s : State) :
    (m >>= f) s = f (m s).1 (m s).2 := rfl

@[simp] theorem Prog.pure_apply {α : Type} (a : α) (s : State) :
    (pure a : Prog α) s = (a, s) := rfl

@[simp] theorem Prog.ite_apply {α : Type} (c : Prop) [Decidable c] (a b : Prog α) (s : State) :
    (if c then a else b) s = if c then a s else b s := by
  split <;> rfl

/-! ## Event delivery -/

theorem deliver_spec (cb : Int → Int → Prog Unit)
    (hcb : ∀ W H s, (cb W H s).2 = resized W H s)
    (evs : List (Int × Int)) (s : State) (h : s.inCallback = true) :
    (deliver cb evs s).trace = s.trace ++ resizeCalls evs ∧
    (deliver cb evs s).inCallback = true ∧
    (deliver cb evs s).callbackSet = s.callbackSet ∧
    (deliver cb evs s).closeChecks = s.closeChecks ∧
    (deliver cb evs s).clockReads = s.clockReads ∧
    (deliver cb evs s).polls = s.polls := by
  induction evs generalizing s with
  | nil => simp [deliver, resizeCalls, h]
  | cons e es ih =>
    have := ih (cb e.1 e.2 s).2 (by rw [hcb]; exact h)
    simp only [deliver]
    rw [hcb] at this ⊢
    simpa [resizeCalls, resized, h] using this

theorem pollEvents_spec (w : World) (cb : Int → Int → Prog Unit)
    (hcb : ∀ W H s, (cb W H s).2 = resized W H s)
    (s : State) (h : s.inCallback = false) (hset : s.callbackSet = true) :
    (glfwPollEvents w cb s).2.trace =
      s.trace ++ own .glfwPollEvents :: resizeCalls (w.resizeEvents s.polls) ∧
    (glfwPollEvents w cb s).2.inCallback = false ∧
    (glfwPollEvents w cb s).2.callbackSet = true ∧
    (glfwPollEvents w cb s).2.closeChecks = s.closeChecks ∧
    (glfwPollEvents w cb s).2.clockReads = s.clockReads ∧
    (glfwPollEvents w cb s).2.polls = s.polls + 1 := by
  have := deliver_spec cb hcb (w.resizeEvents s.polls)
    { emit .glfwPollEvents .void s with polls := s.polls + 1, inCallback := true } rfl
  obtain ⟨h1, _, h3, h4, h5, h6⟩ := this
  simp only [emit, h, hset] at h1 h3 h4 h5 h6
  simp only [glfwPollEvents, emit, hset, h, if_true]
  refine ⟨?_, trivial, ?_, ?_, ?_, ?_⟩
  · simpa [own] using h1
  · simpa using h3
  · simpa using h4
  · simpa using h5
  · simpa using h6

/-! ## HelloTriangle.cpp: the run is `runCalls` -/

theorem HelloTriangle.hello_callback_spec (window : Nat) (W H : Int) (s : State) :
    HelloTriangle.window_resize_callback window W H s = ((), resized W H s) := by
  simp [HelloTriangle.window_resize_callback, glViewport, spdlog.info, call, emit, resized,
    resizeMessage]

theorem HelloTriangle.hello_renderLoop_succ (w : World) (window prog fuel : Nat) (s : State)
    (h : s.inCallback = false) (hc : w.glfwWindowShouldClose s.closeChecks = false) :
    renderLoop w window prog (fuel + 1) s =
      renderLoop w window prog fuel (glfwPollEvents w (window_resize_callback window)
        { s with
          trace := s.trace ++ (closeCheck window false :: (frameCalls window prog).take 5)
          closeChecks := s.closeChecks + 1 }).2 := by
  simp [renderLoop, glfwWindowShouldClose, hc, glClearColor, glClear, glUseProgram, glDrawArrays,
    glfwSwapBuffers, call, emit, h, closeCheck, frameCalls, own]

theorem HelloTriangle.hello_renderLoop_spec (w : World) (window prog : Nat) :
    ∀ (fuel : Nat) (s : State), s.inCallback = false → s.callbackSet = true →
      (renderLoop w window prog fuel s).1 = closesWithin w s.closeChecks fuel ∧
      (renderLoop w window prog fuel s).2.trace =
        s.trace ++ plainLoopCalls w window (frameCalls window prog) fuel s.closeChecks s.polls ∧
      (renderLoop w window prog fuel s).2.inCallback = false := by
  intro fuel
  induction fuel with
  | zero => intro s h _; simp [renderLoop, closesWithin, plainLoopCalls, h]
  | succ fuel ih =>
    intro s h hset
    by_cases hc : w.glfwWindowShouldClose s.closeChecks = true
    · simp [renderLoop, closesWithin, plainLoopCalls, glfwWindowShouldClose, emit, hc, h,
        closeCheck]
    · simp only [Bool.not_eq_true] at hc
      obtain ⟨p1, p2, p3, p4, _, p6⟩ := pollEvents_spec w (window_resize_callback window)
        (fun W H s => by rw [HelloTriangle.hello_callback_spec])
        { s with
          trace := s.trace ++ (closeCheck window false :: (frameCalls window prog).take 5)
          closeChecks := s.closeChecks + 1 } h hset
      obtain ⟨i1, i2, i3⟩ := ih _ p2 p3
      rw [HelloTriangle.hello_renderLoop_succ w window prog fuel s h hc]
      refine ⟨?_, ?_, i3⟩
      · rw [i1, p4]; simp [closesWithin, hc]
      · rw [i2, p1, p4, p6]; simp [plainLoopCalls, hc, frameCalls]


theorem HelloTriangle.hello_main_loop (w : World) (fuel : Nat)
    (h1 : w.glfwInit = true) (h2 : w.glfwCreateWindow ≠ 0) (h3 : w.gladLoad = true) :
    main w fuel State.initial =
      if (renderLoop w w.glfwCreateWindow 3 fuel (setupState w)).1 = false then
        (none, (renderLoop w w.glfwCreateWindow 3 fuel (setupState w)).2)
      else
        (some EXIT_SUCCESS,
          (glfwTerminate (glfwDestroyWindow w.glfwCreateWindow (glDeleteVertexArrays 1 1
            (glDeleteBuffers 1 1 (spdlog.info "Initiate cleanup"
              (renderLoop w w.glfwCreateWindow 3 fuel (setupState w)).2).2).2).2).2).2) := by
  simp [main, h1, h2, h3, glfwInit, glfwWindowHint, glfwCreateWindow, glfwMakeContextCurrent,
    glfwSetWindowSizeCallback, gladLoadGL, glCreateShader, glShaderSource, glCompileShader,
    glCreateProgram, glAttachShader, glLinkProgram, glDeleteShader, glGenVertexArrays,
    glGenBuffers, glBindVertexArray, glBindBuffer, glBufferData, glVertexAttribPointer,
    glEnableVertexAttribArray, glDeleteBuffers, glDeleteVertexArrays, glfwDestroyWindow,
    glfwTerminate, spdlog.info, spdlog.error, call, emit, State.initial,
    setupState, setupCalls, own, vertices, sizeof_GLfloat]


theorem HelloTriangle.hello_main_spec (w : World) (fuel : Nat) :
    (main w fuel State.initial).1 = runStatus w fuel ∧
    (main w fuel State.initial).2.trace = runCalls w fuel := by
  cases h1 : w.glfwInit
  · simp [main, runStatus, runCalls, h1, glfwInit, spdlog.info, spdlog.error, call, emit,
      State.initial, own]
  · by_cases h2 : w.glfwCreateWindow = 0
    · simp [main, runStatus, runCalls, h1, h2, glfwInit, glfwWindowHint, glfwCreateWindow,
        glfwTerminate, spdlog.info, spdlog.error, call, emit, State.initial, own]
    · cases h3 : w.gladLoad
      · simp [main, runStatus, runCalls, h1, h2, h3, glfwInit, glfwWindowHint, glfwCreateWindow,
          glfwMakeContextCurrent, glfwSetWindowSizeCallback, gladLoadGL, glfwDestroyWindow,
          glfwTerminate, spdlog.info, spdlog.error, call, emit, State.initial, own]
      · obtain ⟨r1, r2, r3⟩ := HelloTriangle.hello_renderLoop_spec w w.glfwCreateWindow 3 fuel
          (setupState w) rfl rfl
        change _ = closesWithin w 0 fuel at r1
        change _ = setupCalls w ++ plainLoopCalls w _ _ fuel 0 0 at r2
        rw [HelloTriangle.hello_main_loop w fuel h1 h2 h3, r1]
        cases hcl : closesWithin w 0 fuel
        · simp [runStatus, runCalls, h1, h2, h3, hcl, r2]
        · simp [runStatus, runCalls, h1, h2, h3, hcl, r2, r3, glfwTerminate,
            glfwDestroyWindow, glDeleteVertexArrays, glDeleteBuffers, spdlog.info, call, emit,
            cleanupCalls, own]


/-! ## HelloTriangleInterpolated.cpp: the run is `runCalls` -/

theorem HelloTriangleInterpolated.interp_callback_spec (window : Nat) (W H : Int) (s : State) :
    HelloTriangleInterpolated.window_resize_callback window W H s = ((), resized W H s) := by
  simp [HelloTriangleInterpolated.window_resize_callback, glViewport, spdlog.info, call, emit, resized,
    resizeMessage]

theorem HelloTriangleInterpolated.interp_renderLoop_succ (w : World) (window prog fuel : Nat) (s : State)
    (h : s.inCallback = false) (hc : w.glfwWindowShouldClose s.closeChecks = false) :
    renderLoop w window prog (fuel + 1) s =
      renderLoop w window prog fuel (glfwPollEvents w (window_resize_callback window)
        { s with
          trace := s.trace ++ (closeCheck window false :: (frameCalls window prog).take 5)
          closeChecks := s.closeChecks + 1 }).2 := by
  simp [renderLoop, glfwWindowShouldClose, hc, glClearColor, glClear, glUseProgram, glDrawArrays,
    glfwSwapBuffers, call, emit, h, closeCheck, frameCalls, own]

theorem HelloTriangleInterpolated.interp_renderLoop_spec (w : World) (window prog : Nat) :
    ∀ (fuel : Nat) (s : State), s.inCallback = false → s.callbackSet = true →
      (renderLoop w window prog fuel s).1 = closesWithin w s.closeChecks fuel ∧
      (renderLoop w window prog fuel s).2.trace =
        s.trace ++ plainLoopCalls w window (frameCalls window prog) fuel s.closeChecks s.polls ∧
      (renderLoop w window prog fuel s).2.inCallback = false := by
  intro fuel
  induction fuel with
  | zero => intro s h _; simp [renderLoop, closesWithin, plainLoopCalls, h]
  | succ fuel ih =>
    intro s h hset
    by_cases hc : w.glfwWindowShouldClose s.closeChecks = true
    · simp [renderLoop, closesWithin, plainLoopCalls, glfwWindowShouldClose, emit, hc, h,
        closeCheck]
    · simp only [Bool.not_eq_true] at hc
      obtain ⟨p1, p2, p3, p4, _, p6⟩ := pollEvents_spec w (window_resize_callback window)
        (fun W H s => by rw [HelloTriangleInterpolated.interp_callback_spec])
        { s with
          trace := s.trace ++ (closeCheck window false :: (frameCalls window prog).take 5)
          closeChecks := s.closeChecks + 1 } h hset
      obtain ⟨i1, i2, i3⟩ := ih _ p2 p3
      rw [HelloTriangleInterpolated.interp_renderLoop_succ w window prog fuel s h hc]
      refine ⟨?_, ?_, i3⟩
      · rw [i1, p4]; simp [closesWithin, hc]
      · rw [i2, p1, p4, p6]; simp [plainLoopCalls, hc, frameCalls]


theorem HelloTriangleInterpolated.interp_main_loop (w : World) (fuel : Nat)
    (h1 : w.glfwInit = true) (h2 : w.glfwCreateWindow ≠ 0) (h3 : w.gladLoad = true) :
    main w fuel State.initial =
      if (renderLoop w w.glfwCreateWindow 3 fuel (setupState w)).1 = false then
        (none, (renderLoop w w.glfwCreateWindow 3 fuel (setupState w)).2)
      else
        (some EXIT_SUCCESS,
          (glfwTerminate (glfwDestroyWindow w.glfwCreateWindow (glDeleteVertexArrays 1 1
            (glDeleteBuffers 1 1 (spdlog.info "Initiate cleanup"
              (renderLoop w w.glfwCreateWindow 3 fuel (setupState w)).2).2).2).2).2).2) := by
  simp [main, h1, h2, h3, glfwInit, glfwWindowHint, glfwCreateWindow, glfwMakeContextCurrent,
    glfwSetWindowSizeCallback, gladLoadGL, glCreateShader, glShaderSource, glCompileShader,
    glCreateProgram, glAttachShader, glLinkProgram, glDeleteShader, glGenVertexArrays,
    glGenBuffers, glBindVertexArray, glBindBuffer, glBufferData, glVertexAttribPointer,
    glEnableVertexAttribArray, glDeleteBuffers, glDeleteVertexArrays, glfwDestroyWindow,
    glfwTerminate, spdlog.info, spdlog.error, call, emit, State.initial,
    setupState, setupCalls, own, vertices, sizeof_GLfloat]


theorem HelloTriangleInterpolated.interp_main_spec (w : World) (fuel : Nat) :
    (main w fuel State.initial).1 = runStatus w fuel ∧
    (main w fuel State.initial).2.trace = runCalls w fuel := by
  cases h1 : w.glfwInit
  · simp [main, runStatus, runCalls, h1, glfwInit, spdlog.info, spdlog.error, call, emit,
      State.initial, own]
  · by_cases h2 : w.glfwCreateWindow = 0
    · simp [main, runStatus, runCalls, h1, h2, glfwInit, glfwWindowHint, glfwCreateWindow,
        glfwTerminate, spdlog.info, spdlog.error, call, emit, State.initial, own]
    · cases h3 : w.gladLoad
      · simp [main, runStatus, runCalls, h1, h2, h3, glfwInit, glfwWindowHint, glfwCreateWindow,
          glfwMakeContextCurrent, glfwSetWindowSizeCallback, gladLoadGL, glfwDestroyWindow,
          glfwTerminate, spdlog.info, spdlog.error, call, emit, State.initial, own]
      · obtain ⟨r1, r2, r3⟩ := HelloTriangleInterpolated.interp_renderLoop_spec w w.glfwCreateWindow 3 fuel
          (setupState w) rfl rfl
        change _ = closesWithin w 0 fuel at r1
        change _ = setupCalls w ++ plainLoopCalls w _ _ fuel 0 0 at r2
        rw [HelloTriangleInterpolated.interp_main_loop w fuel h1 h2 h3, r1]
        cases hcl : closesWithin w 0 fuel
        · simp [runStatus, runCalls, h1, h2, h3, hcl, r2]
        · simp [runStatus, runCalls, h1, h2, h3, hcl, r2, r3, glfwTerminate,
            glfwDestroyWindow, glDeleteVertexArrays, glDeleteBuffers, spdlog.info, call, emit,
            cleanupCalls, own]


/-! ## CoolTriangleShape.cpp: the run is `runCalls` -/

theorem CoolTriangleShape.cool_callback_spec (window : Nat) (W H : Int) (s : State) :
    CoolTriangleShape.window_size_callback window W H s = ((), resized W H s) := by
  simp [CoolTriangleShape.window_size_callback, glViewport, spdlog.info, call, emit, resized,
    resizeMessage]

theorem CoolTriangleShape.cool_loopBody_skip (w : World) (window prog : Nat) (frameTime prevTime : ℚ)
    (s : State) (h : s.inCallback = false)
    (hlt : Double.sub (w.glfwGetTime s.clockReads) prevTime < frameTime) :
    loopBody w window prog frameTime prevTime s =
      (prevTime, { s with
        trace := s.trace ++ [⟨false, .glfwGetTime, .real (w.glfwGetTime s.clockReads)⟩]
        clockReads := s.clockReads + 1 }) := by
  simp [loopBody, glfwGetTime, emit, hlt, h]

theorem CoolTriangleShape.cool_loopBody_draw (w : World) (window prog : Nat) (frameTime prevTime : ℚ)
    (s : State) (h : s.inCallback = false)
    (hge : ¬ Double.sub (w.glfwGetTime s.clockReads) prevTime < frameTime) :
    loopBody w window prog frameTime prevTime s =
      (w.glfwGetTime s.clockReads,
        (glfwPollEvents w (window_size_callback window)
          { s with
            trace := s.trace ++ (⟨false, .glfwGetTime, .real (w.glfwGetTime s.clockReads)⟩ ::
              (frameCalls window prog).take 5)
            clockReads := s.clockReads + 1 }).2) := by
  simp [loopBody, glfwGetTime, emit, hge, h, glClearColor, glClear, glUseProgram, glDrawElements,
    glfwSwapBuffers, call, frameCalls, own]

theorem CoolTriangleShape.cool_loopBody_spec (w : World) (window prog : Nat) (frameTime prevTime : ℚ)
    (s : State) (h : s.inCallback = false) (hset : s.callbackSet = true) :
    (loopBody w window prog frameTime prevTime s).1 =
      (if Double.sub (w.glfwGetTime s.clockReads) prevTime < frameTime then prevTime
       else w.glfwGetTime s.clockReads) ∧
    (loopBody w window prog frameTime prevTime s).2.trace =
      s.trace ++ ⟨false, .glfwGetTime, .real (w.glfwGetTime s.clockReads)⟩ ::
        (if Double.sub (w.glfwGetTime s.clockReads) prevTime < frameTime then []
         else frameCalls window prog ++ resizeCalls (w.resizeEvents s.polls)) ∧
    (loopBody w window prog frameTime prevTime s).2.inCallback = false ∧
    (loopBody w window prog frameTime prevTime s).2.callbackSet = true ∧
    (loopBody w window prog frameTime prevTime s).2.closeChecks = s.closeChecks ∧
    (loopBody w window prog frameTime prevTime s).2.clockReads = s.clockReads + 1 ∧
    (loopBody w window prog frameTime prevTime s).2.polls =
      (if Double.sub (w.glfwGetTime s.clockReads) prevTime < frameTime then s.polls else s.polls + 1) := by
  by_cases hlt : Double.sub (w.glfwGetTime s.clockReads) prevTime < frameTime
  · rw [CoolTriangleShape.cool_loopBody_skip w window prog frameTime prevTime s h hlt]
    simp [hlt, h, hset]
  · rw [CoolTriangleShape.cool_loopBody_draw w window prog frameTime prevTime s h hlt]
    obtain ⟨p1, p2, p3, p4, p5, p6⟩ := pollEvents_spec w (window_size_callback window)
      (fun W H s => by rw [CoolTriangleShape.cool_callback_spec])
      { s with
        trace := s.trace ++ (⟨false, .glfwGetTime, .real (w.glfwGetTime s.clockReads)⟩ ::
          (frameCalls window prog).take 5)
        clockReads := s.clockReads + 1 } h hset
    refine ⟨by simp [hlt], ?_, p2, p3, p4, p5, by simpa [hlt] using p6⟩
    rw [p1]; simp [hlt, frameCalls]

theorem CoolTriangleShape.cool_renderLoop_spec (w : World) (window prog : Nat) (frameTime : ℚ) :
    ∀ (fuel : Nat) (s : State) (prevTime : ℚ), s.inCallback = false → s.callbackSet = true →
      (renderLoop w window prog frameTime fuel prevTime s).1 = closesWithin w s.closeChecks fuel ∧
      (renderLoop w window prog frameTime fuel prevTime s).2.trace =
        s.trace ++ throttledLoopCalls w window (frameCalls window prog) frameTime fuel
          s.closeChecks s.clockReads s.polls prevTime ∧
      (renderLoop w window prog frameTime fuel prevTime s).2.inCallback = false := by
  intro fuel
  induction fuel with
  | zero => intro s prevTime h _; simp [renderLoop, closesWithin, throttledLoopCalls, h]
  | succ fuel ih =>
    intro s prevTime h hset
    by_cases hc : w.glfwWindowShouldClose s.closeChecks = true
    · simp [renderLoop, closesWithin, throttledLoopCalls, glfwWindowShouldClose, emit, hc, h,
        closeCheck]
    · simp only [Bool.not_eq_true] at hc
      have hstep : renderLoop w window prog frameTime (fuel + 1) prevTime s =
          renderLoop w window prog frameTime fuel
            (loopBody w window prog frameTime prevTime
              { s with
                trace := s.trace ++ [closeCheck window false]
                closeChecks := s.closeChecks + 1 }).1
            (loopBody w window prog frameTime prevTime
              { s with
                trace := s.trace ++ [closeCheck window false]
                closeChecks := s.closeChecks + 1 }).2 := by
        simp [renderLoop, glfwWindowShouldClose, hc, emit, h, closeCheck]
      obtain ⟨b1, b2, b3, b4, b5, b6, b7⟩ := CoolTriangleShape.cool_loopBody_spec w window prog
        frameTime prevTime
        { s with
          trace := s.trace ++ [closeCheck window false]
          closeChecks := s.closeChecks + 1 } h hset
      obtain ⟨i1, i2, i3⟩ := ih _ (loopBody w window prog frameTime prevTime
              { s with
                trace := s.trace ++ [closeCheck window false]
                closeChecks := s.closeChecks + 1 }).1 b3 b4
      rw [hstep]
      refine ⟨?_, ?_, i3⟩
      · rw [i1, b5]; simp [closesWithin, hc]
      · rw [i2, b1, b2, b5, b6, b7]
        by_cases hlt : Double.sub (w.glfwGetTime s.clockReads) prevTime < frameTime
        · simp [throttledLoopCalls, hc, hlt]
        · simp [throttledLoopCalls, hc, hlt]


theorem CoolTriangleShape.cool_main_loop (w : World) (fuel : Nat)
    (h1 : w.glfwInit = true) (h2 : w.glfwCreateWindow ≠ 0) (h3 : w.gladLoad = true) :
    main w fuel State.initial =
      if (renderLoop w w.glfwCreateWindow 3 (Double.div 1.0 60.0) fuel (w.glfwGetTime 0) (setupState w)).1 = false then
        (none, (renderLoop w w.glfwCreateWindow 3 (Double.div 1.0 60.0) fuel (w.glfwGetTime 0) (setupState w)).2)
      else
        (some EXIT_SUCCESS,
          (glfwTerminate (glfwDestroyWindow w.glfwCreateWindow (glDeleteVertexArrays 1 1
            (glDeleteBuffers 1 2 (glDeleteBuffers 1 1 (spdlog.info "Initiate cleanup"
              (renderLoop w w.glfwCreateWindow 3 (Double.div 1.0 60.0) fuel (w.glfwGetTime 0) (setupState w)).2).2).2).2).2).2).2) := by
  simp [main, h1, h2, h3, glfwInit, glfwWindowHint, glfwCreateWindow, glfwMakeContextCurrent,
    glfwSetWindowSizeCallback, gladLoadGLLoader, glCreateShader, glShaderSource, glCompileShader,
    glCreateProgram, glAttachShader, glLinkProgram, glDeleteShader, glGenVertexArrays,
    glGenBuffers, glBindVertexArray, glBindBuffer, glBufferData, glVertexAttribPointer,
    glEnableVertexAttribArray, glDeleteBuffers, glDeleteVertexArrays, glfwDestroyWindow,
    glfwTerminate, spdlog.info, spdlog.error, call, emit, State.initial,
    setupState, setupCalls, own, vertices, indices, sizeof_GLfloat, sizeof_GLuint,
    glfwGetTime]


theorem CoolTriangleShape.cool_main_spec (w : World) (fuel : Nat) :
    (main w fuel State.initial).1 = runStatus w fuel ∧
    (main w fuel State.initial).2.trace = runCalls w fuel := by
  cases h1 : w.glfwInit
  · simp [main, runStatus, runCalls, h1, glfwInit, spdlog.info, spdlog.error, call, emit,
      State.initial, own]
  · by_cases h2 : w.glfwCreateWindow = 0
    · simp [main, runStatus, runCalls, h1, h2, glfwInit, glfwWindowHint, glfwCreateWindow,
        glfwTerminate, spdlog.info, spdlog.error, call, emit, State.initial, own]
    · cases h3 : w.gladLoad
      · simp [main, runStatus, runCalls, h1, h2, h3, glfwInit, glfwWindowHint, glfwCreateWindow,
          glfwMakeContextCurrent, glfwSetWindowSizeCallback, gladLoadGLLoader, glfwDestroyWindow,
          glfwTerminate, spdlog.info, spdlog.error, call, emit, State.initial, own]
      · obtain ⟨r1, r2, r3⟩ := CoolTriangleShape.cool_renderLoop_spec w w.glfwCreateWindow 3
          (Double.div 1.0 60.0) fuel (setupState w) (w.glfwGetTime 0) rfl rfl
        change _ = closesWithin w 0 fuel at r1
        change _ = setupCalls w ++ throttledLoopCalls w _ _ _ fuel 0 1 0 _ at r2
        rw [CoolTriangleShape.cool_main_loop w fuel h1 h2 h3, r1]
        cases hcl : closesWithin w 0 fuel
        · simp [runStatus, runCalls, h1, h2, h3, hcl, r2]
        · simp [runStatus, runCalls, h1, h2, h3, hcl, r2, r3, glfwTerminate,
            glfwDestroyWindow, glDeleteVertexArrays, glDeleteBuffers, spdlog.info, call, emit,
            cleanupCalls, own]


end OpenGLExamples

namespace OpenGLExamples

/-! ## Close checks -/

theorem closesWithin_iff (w : World) (fuel : Nat) :
    ∀ c, closesWithin w c fuel = true ↔ ∃ n, n < fuel ∧ w.glfwWindowShouldClose (c + n) = true := by
  induction fuel with
  | zero => intro c; simp [closesWithin]
  | succ fuel ih =>
    intro c
    simp only [closesWithin, Bool.or_eq_true, ih]
    constructor
    · rintro (h | ⟨n, hn, h⟩)
      · exact ⟨0, by omega, by simpa using h⟩
      · exact ⟨n + 1, by omega, by rw [← h]; congr 1; omega⟩
    · rintro ⟨n, hn, h⟩
      cases n with
      | zero => left; simpa using h
      | succ n => right; exact ⟨n, by omega, by rw [← h]; congr 1; omega⟩

theorem closesWithin_eq_false_iff (w : World) (fuel c : Nat) :
    closesWithin w c fuel = false ↔ ∀ n, n < fuel → w.glfwWindowShouldClose (c + n) = false := by
  rw [← Bool.not_eq_true, closesWithin_iff]
  simp

/-! ## What a render loop can emit -/

theorem mem_resizeCalls (e : Event) :
    ∀ evs, e ∈ resizeCalls evs →
      (∃ W H, e = ⟨true, .glViewport 0 0 W H, .void⟩) ∨
      e = ⟨true, .spdlog_info resizeMessage, .void⟩ := by
  intro evs
  induction evs with
  | nil => simp [resizeCalls]
  | cons x xs ih =>
    simp only [resizeCalls, List.mem_cons]
    rintro (h | h | h)
    · exact Or.inl ⟨_, _, h⟩
    · exact Or.inr h
    · exact ih h

theorem loopEvent_plainLoopCalls (w : World) (window : Nat) (frame : List Event) (e : Event) :
    ∀ fuel c p, e ∈ plainLoopCalls w window frame fuel c p → LoopEvent window frame e := by
  intro fuel
  induction fuel with
  | zero => intro c p h; simp [plainLoopCalls] at h
  | succ fuel ih =>
    intro c p h
    simp only [plainLoopCalls] at h
    split at h
    · simp only [List.mem_singleton] at h
      exact Or.inl ⟨_, h⟩
    · simp only [List.mem_cons, List.mem_append] at h
      rcases h with h | h | h | h
      · exact Or.inl ⟨_, h⟩
      · exact Or.inr (Or.inr (Or.inl h))
      · rcases mem_resizeCalls e _ h with h | h
        · exact Or.inr (Or.inr (Or.inr (Or.inl h)))
        · exact Or.inr (Or.inr (Or.inr (Or.inr h)))
      · exact ih _ _ h

theorem loopEvent_throttledLoopCalls (w : World) (window : Nat) (frame : List Event)
    (frameTime : ℚ) (e : Event) :
    ∀ fuel c t p prevTime, e ∈ throttledLoopCalls w window frame frameTime fuel c t p prevTime →
      LoopEvent window frame e := by
  intro fuel
  induction fuel with
  | zero => intro c t p prevTime h; simp [throttledLoopCalls] at h
  | succ fuel ih =>
    intro c t p prevTime h
    simp only [throttledLoopCalls] at h
    split at h
    · simp only [List.mem_singleton] at h
      exact Or.inl ⟨_, h⟩
    · simp only [List.mem_cons] at h
      rcases h with h | h | h
      · exact Or.inl ⟨_, h⟩
      · exact Or.inr (Or.inl ⟨_, h⟩)
      · split at h
        · exact ih _ _ _ _ h
        · simp only [List.mem_append] at h
          rcases h with h | h | h
          · exact Or.inr (Or.inr (Or.inl h))
          · rcases mem_resizeCalls e _ h with h | h
            · exact Or.inr (Or.inr (Or.inr (Or.inl h)))
            · exact Or.inr (Or.inr (Or.inr (Or.inr h)))
          · exact ih _ _ _ _ h

end OpenGLExamples

namespace OpenGLExamples

/-! ## Exit status -/

theorem status_of_programs (w : World) (fuel : Nat) :
    ∀ m ∈ programs, (m w fuel State.initial).1 = runStatus w fuel := by
  intro m hm
  simp only [programs, List.mem_cons, List.mem_singleton, List.not_mem_nil, or_false] at hm
  rcases hm with rfl | rfl | rfl
  · exact (HelloTriangle.hello_main_spec w fuel).1
  · exact (HelloTriangleInterpolated.interp_main_spec w fuel).1
  · exact (CoolTriangleShape.cool_main_spec w fuel).1

/-- C1: in each of the three programs and for every combination of outcomes of the
external calls, `main` returns `EXIT_FAILURE` (which is not 0) exactly when `glfwInit`
reports failure, `glfwCreateWindow` returns the null pointer or the loader reports
failure, and this for every amount of fuel; it returns `EXIT_SUCCESS` (which is 0)
exactly when the three steps succeed and one of the close checks the fuel allows
answers true; and it is still in the render loop exactly when the three steps succeed
and none of these close checks answers true. -/
theorem main_exit_status (w : World) (fuel : Nat) :
    ∀ m ∈ programs,
      ((m w fuel State.initial).1 = some EXIT_FAILURE ↔
        (w.glfwInit = false ∨ w.glfwCreateWindow = 0 ∨ w.gladLoad = false)) ∧
      ((m w fuel State.initial).1 = some EXIT_SUCCESS ↔
        (w.glfwInit = true ∧ w.glfwCreateWindow ≠ 0 ∧ w.gladLoad = true ∧
          ∃ n, n < fuel ∧ w.glfwWindowShouldClose n = true)) ∧
      ((m w fuel State.initial).1 = none ↔
        (w.glfwInit = true ∧ w.glfwCreateWindow ≠ 0 ∧ w.gladLoad = true ∧
          ∀ n, n < fuel → w.glfwWindowShouldClose n = false)) ∧
      EXIT_FAILURE ≠ 0 ∧ EXIT_SUCCESS = 0 := by
  intro m hm
  rw [status_of_programs w fuel m hm]
  have hc := closesWithin_iff w fuel 0
  have hn := closesWithin_eq_false_iff w fuel 0
  simp only [Nat.zero_add] at hc hn
  unfold runStatus
  by_cases h : w.glfwInit = false ∨ w.glfwCreateWindow = 0 ∨ w.gladLoad = false
  · have h' : ¬ (w.glfwInit = true ∧ w.glfwCreateWindow ≠ 0 ∧ w.gladLoad = true) := by
      rintro ⟨a, b, c⟩
      rcases h with h | h | h
      · simp [a] at h
      · exact b h
      · simp [c] at h
    simp only [h, if_true, true_iff, iff_true]
    refine ⟨trivial, ?_, ?_, by decide, rfl⟩
    · constructor
      · intro e; simp [EXIT_FAILURE, EXIT_SUCCESS] at e
      · rintro ⟨a, b, c, _⟩; exact absurd ⟨a, b, c⟩ h'
    · constructor
      · intro e; simp at e
      · rintro ⟨a, b, c, _⟩; exact absurd ⟨a, b, c⟩ h'
  · have h' : w.glfwInit = true ∧ w.glfwCreateWindow ≠ 0 ∧ w.gladLoad = true := by
      simp only [not_or, Bool.not_eq_false] at h
      exact h
    simp only [h, if_false]
    cases hcl : closesWithin w 0 fuel
    · have := hn.mp hcl
      refine ⟨by simp, ?_, ?_, by decide, rfl⟩
      · constructor
        · intro e; simp at e
        · rintro ⟨_, _, _, n, hlt, hx⟩; rw [this n hlt] at hx; simp at hx
      · simp only [Bool.false_eq_true, if_false, true_iff]
        exact ⟨h'.1, h'.2.1, h'.2.2, this⟩
    · have := hc.mp hcl
      refine ⟨by simp [EXIT_FAILURE, EXIT_SUCCESS], ?_, ?_, by decide, rfl⟩
      · simp only [if_true, true_iff]
        exact ⟨h'.1, h'.2.1, h'.2.2, this⟩
      · constructor
        · intro e; simp at e
        · rintro ⟨_, _, _, hall⟩
          obtain ⟨n, hlt, hx⟩ := this
          rw [hall n hlt] at hx; simp at hx

theorem main_exit_status_witness :
    (HelloTriangle.main sampleWorld 5 State.initial).1 = some EXIT_SUCCESS ∧
    (CoolTriangleShape.main { sampleWorld with gladLoad := false } 0 State.initial).1 =
      some EXIT_FAILURE :=
  ⟨((main_exit_status sampleWorld 5 HelloTriangle.main (by simp [programs])).2.1).mpr
      ⟨rfl, by decide, rfl, 2, by decide, rfl⟩,
   ((main_exit_status { sampleWorld with gladLoad := false } 0 CoolTriangleShape.main
      (by simp [programs])).1).mpr (Or.inr (Or.inr rfl))⟩

end OpenGLExamples

namespace OpenGLExamples

/-! ## Failed initialization -/

theorem HelloTriangle.hello_failure_paths (w : World) (fuel : Nat) :
    (w.glfwInit = false → releases (runCalls w fuel) = []) ∧
    (w.glfwInit = true → w.glfwCreateWindow = 0 → releases (runCalls w fuel) = [.subsystem]) ∧
    (w.glfwInit = true → w.glfwCreateWindow ≠ 0 → w.gladLoad = false →
      releases (runCalls w fuel) = [.window w.glfwCreateWindow, .subsystem]) ∧
    ((w.glfwInit = false ∨ w.glfwCreateWindow = 0 ∨ w.gladLoad = false) →
      (runCalls w fuel).filter (fun e => createsObject e.call || isDraw e.call) = []) := by
  refine ⟨?_, ?_, ?_, ?_⟩
  · intro h1; simp [runCalls, h1, releases, released, own]
  · intro h1 h2; simp [runCalls, h1, h2, releases, released, own]
  · intro h1 h2 h3; simp [runCalls, h1, h2, h3, releases, released, own]
  · intro h
    cases h1 : w.glfwInit
    · simp [runCalls, h1, own, createsObject, isDraw]
    · by_cases h2 : w.glfwCreateWindow = 0
      · simp [runCalls, h1, h2, own, createsObject, isDraw]
      · have h3 : w.gladLoad = false := by simpa [h1, h2] using h
        simp [runCalls, h1, h2, h3, own, createsObject, isDraw]

theorem HelloTriangleInterpolated.interp_failure_paths (w : World) (fuel : Nat) :
    (w.glfwInit = false → releases (runCalls w fuel) = []) ∧
    (w.glfwInit = true → w.glfwCreateWindow = 0 → releases (runCalls w fuel) = [.subsystem]) ∧
    (w.glfwInit = true → w.glfwCreateWindow ≠ 0 → w.gladLoad = false →
      releases (runCalls w fuel) = [.window w.glfwCreateWindow, .subsystem]) ∧
    ((w.glfwInit = false ∨ w.glfwCreateWindow = 0 ∨ w.gladLoad = false) →
      (runCalls w fuel).filter (fun e => createsObject e.call || isDraw e.call) = []) := by
  refine ⟨?_, ?_, ?_, ?_⟩
  · intro h1; simp [runCalls, h1, releases, released, own]
  · intro h1 h2; simp [runCalls, h1, h2, releases, released, own]
  · intro h1 h2 h3; simp [runCalls, h1, h2, h3, releases, released, own]
  · intro h
    cases h1 : w.glfwInit
    · simp [runCalls, h1, own, createsObject, isDraw]
    · by_cases h2 : w.glfwCreateWindow = 0
      · simp [runCalls, h1, h2, own, createsObject, isDraw]
      · have h3 : w.gladLoad = false := by simpa [h1, h2] using h
        simp [runCalls, h1, h2, h3, own, createsObject, isDraw]

theorem CoolTriangleShape.cool_failure_paths (w : World) (fuel : Nat) :
    (w.glfwInit = false → releases (runCalls w fuel) = []) ∧
    (w.glfwInit = true → w.glfwCreateWindow = 0 → releases (runCalls w fuel) = [.subsystem]) ∧
    (w.glfwInit = true → w.glfwCreateWindow ≠ 0 → w.gladLoad = false →
      releases (runCalls w fuel) = [.window w.glfwCreateWindow, .subsystem]) ∧
    ((w.glfwInit = false ∨ w.glfwCreateWindow = 0 ∨ w.gladLoad = false) →
      (runCalls w fuel).filter (fun e => createsObject e.call || isDraw e.call) = []) := by
  refine ⟨?_, ?_, ?_, ?_⟩
  · intro h1; simp [runCalls, h1, releases, released, own]
  · intro h1 h2; simp [runCalls, h1, h2, releases, released, own]
  · intro h1 h2 h3; simp [runCalls, h1, h2, h3, releases, released, own]
  · intro h
    cases h1 : w.glfwInit
    · simp [runCalls, h1, own, createsObject, isDraw]
    · by_cases h2 : w.glfwCreateWindow = 0
      · simp [runCalls, h1, h2, own, createsObject, isDraw]
      · have h3 : w.gladLoad = false := by simpa [h1, h2] using h
        simp [runCalls, h1, h2, h3, own, createsObject, isDraw]

/-- C2: in each of the three programs a failed initialization step releases only what
was acquired so far. When `glfwInit` fails no release call is made. When window creation
fails the only release call is one `glfwTerminate`, so no window is destroyed. When the
loader fails the release calls are one `glfwDestroyWindow` of the created window followed
by one `glfwTerminate`. In none of these runs is a shader, program, buffer or
vertex-array object created or a draw call issued. -/
theorem failed_init_releases (w : World) (fuel : Nat) :
    ∀ m ∈ programs,
      (w.glfwInit = false → releases (m w fuel State.initial).2.trace = []) ∧
      (w.glfwInit = true → w.glfwCreateWindow = 0 →
        releases (m w fuel State.initial).2.trace = [.subsystem]) ∧
      (w.glfwInit = true → w.glfwCreateWindow ≠ 0 → w.gladLoad = false →
        releases (m w fuel State.initial).2.trace =
          [.window w.glfwCreateWindow, .subsystem]) ∧
      ((w.glfwInit = false ∨ w.glfwCreateWindow = 0 ∨ w.gladLoad = false) →
        (m w fuel State.initial).2.trace.filter
          (fun e => createsObject e.call || isDraw e.call) = []) := by
  intro m hm
  simp only [programs, List.mem_cons, List.mem_singleton, List.not_mem_nil, or_false] at hm
  rcases hm with rfl | rfl | rfl
  · rw [(HelloTriangle.hello_main_spec w fuel).2]
    exact HelloTriangle.hello_failure_paths w fuel
  · rw [(HelloTriangleInterpolated.interp_main_spec w fuel).2]
    exact HelloTriangleInterpolated.interp_failure_paths w fuel
  · rw [(CoolTriangleShape.cool_main_spec w fuel).2]
    exact CoolTriangleShape.cool_failure_paths w fuel

theorem failed_init_releases_witness :
    releases (HelloTriangleInterpolated.main { sampleWorld with gladLoad := false } 3
      State.initial).2.trace = [.window 7, .subsystem] :=
  (failed_init_releases { sampleWorld with gladLoad := false } 3
    HelloTriangleInterpolated.main (by simp [programs])).2.2.1 rfl (by decide) rfl

end OpenGLExamples

namespace OpenGLExamples

/-! ## Immediate close -/

/-- C3 (evaluation at the failing input): in the world whose close request is set at the
first check, each of the three programs returns success without a draw call and
releases the subsystem, the window, both shader objects, the vertex array and every
buffer exactly once; the program object 3 it acquired through `glCreateProgram` is
not among the releases, no `glDeleteProgram` being issued. -/
theorem immediate_close_leaves_program (fuel : Nat) :
    (HelloTriangle.main closedAtOnce (fuel + 1) State.initial).1 = some EXIT_SUCCESS ∧
    drawCalls (HelloTriangle.main closedAtOnce (fuel + 1) State.initial).2.trace = [] ∧
    acquisitions (HelloTriangle.main closedAtOnce (fuel + 1) State.initial).2.trace =
      [.subsystem, .window 7, .shader 1, .shader 2, .program 3, .vertexArray 1, .buffer 1] ∧
    releases (HelloTriangle.main closedAtOnce (fuel + 1) State.initial).2.trace =
      [.shader 1, .shader 2, .buffer 1, .vertexArray 1, .window 7, .subsystem] ∧
    (HelloTriangleInterpolated.main closedAtOnce (fuel + 1) State.initial).1 =
      some EXIT_SUCCESS ∧
    drawCalls (HelloTriangleInterpolated.main closedAtOnce (fuel + 1) State.initial).2.trace =
      [] ∧
    acquisitions (HelloTriangleInterpolated.main closedAtOnce (fuel + 1) State.initial).2.trace =
      [.subsystem, .window 7, .shader 1, .shader 2, .program 3, .vertexArray 1, .buffer 1] ∧
    releases (HelloTriangleInterpolated.main closedAtOnce (fuel + 1) State.initial).2.trace =
      [.shader 1, .shader 2, .buffer 1, .vertexArray 1, .window 7, .subsystem] ∧
    (CoolTriangleShape.main closedAtOnce (fuel + 1) State.initial).1 = some EXIT_SUCCESS ∧
    drawCalls (CoolTriangleShape.main closedAtOnce (fuel + 1) State.initial).2.trace = [] ∧
    acquisitions (CoolTriangleShape.main closedAtOnce (fuel + 1) State.initial).2.trace =
      [.subsystem, .window 7, .shader 1, .shader 2, .program 3, .vertexArray 1, .buffer 1,
        .buffer 2] ∧
    releases (CoolTriangleShape.main closedAtOnce (fuel + 1) State.initial).2.trace =
      [.shader 1, .shader 2, .buffer 1, .buffer 2, .vertexArray 1, .window 7, .subsystem] := by
  have hs : runStatus closedAtOnce (fuel + 1) = some EXIT_SUCCESS := by
    simp [runStatus, closesWithin, closedAtOnce]
  have h1 : HelloTriangle.runCalls closedAtOnce (fuel + 1) =
      HelloTriangle.setupCalls closedAtOnce ++
        closeCheck 7 true :: HelloTriangle.cleanupCalls closedAtOnce := by
    simp [HelloTriangle.runCalls, plainLoopCalls, closesWithin, closedAtOnce]
  have h2 : HelloTriangleInterpolated.runCalls closedAtOnce (fuel + 1) =
      HelloTriangleInterpolated.setupCalls closedAtOnce ++
        closeCheck 7 true :: HelloTriangleInterpolated.cleanupCalls closedAtOnce := by
    simp [HelloTriangleInterpolated.runCalls, plainLoopCalls, closesWithin, closedAtOnce]
  have h3 : CoolTriangleShape.runCalls closedAtOnce (fuel + 1) =
      CoolTriangleShape.setupCalls closedAtOnce ++
        closeCheck 7 true :: CoolTriangleShape.cleanupCalls closedAtOnce := by
    simp [CoolTriangleShape.runCalls, throttledLoopCalls, closesWithin, closedAtOnce]
  rw [(HelloTriangle.hello_main_spec _ _).1, (HelloTriangle.hello_main_spec _ _).2,
    (HelloTriangleInterpolated.interp_main_spec _ _).1, (HelloTriangleInterpolated.interp_main_spec _ _).2,
    (CoolTriangleShape.cool_main_spec _ _).1, (CoolTriangleShape.cool_main_spec _ _).2, hs, h1, h2, h3]
  refine ⟨rfl, rfl, rfl, rfl, rfl, rfl, rfl, rfl, rfl, rfl, rfl, rfl⟩

/-! ## Leaving the loop -/

theorem loopLeft_append (a b : List Event) : loopLeft (a ++ b) = (loopLeft a || loopLeft b) := by
  simp [loopLeft, List.any_append]

theorem loopLeft_resizeCalls : ∀ evs, loopLeft (resizeCalls evs) = false := by
  intro evs
  induction evs with
  | nil => rfl
  | cons x xs ih =>
    simp only [loopLeft] at ih
    simp [resizeCalls, loopLeft, ih]

theorem plainLoopCalls_closing (w : World) (window : Nat) (frame : List Event)
    (hframe : loopLeft frame = false) :
    ∀ fuel c p, closesWithin w c fuel = true →
      ∃ L, plainLoopCalls w window frame fuel c p = L ++ [closeCheck window true] ∧
        loopLeft L = false := by
  intro fuel
  induction fuel with
  | zero => intro c p h; simp [closesWithin] at h
  | succ fuel ih =>
    intro c p h
    by_cases hc : w.glfwWindowShouldClose c = true
    · exact ⟨[], by simp [plainLoopCalls, hc], rfl⟩
    · simp only [Bool.not_eq_true] at hc
      simp only [closesWithin, hc, Bool.false_or] at h
      obtain ⟨L, hL, hleft⟩ := ih (c + 1) (p + 1) h
      refine ⟨closeCheck window false :: (frame ++ (resizeCalls (w.resizeEvents p) ++ L)), ?_, ?_⟩
      · simp [plainLoopCalls, hc, hL]
      · rw [show closeCheck window false :: (frame ++ (resizeCalls (w.resizeEvents p) ++ L)) =
          [closeCheck window false] ++ (frame ++ (resizeCalls (w.resizeEvents p) ++ L)) from rfl]
        simp only [loopLeft_append, hframe, loopLeft_resizeCalls, hleft]
        rfl

theorem throttledLoopCalls_closing (w : World) (window : Nat) (frame : List Event)
    (frameTime : ℚ) (hframe : loopLeft frame = false) :
    ∀ fuel c t p prevTime, closesWithin w c fuel = true →
      ∃ L, throttledLoopCalls w window frame frameTime fuel c t p prevTime =
          L ++ [closeCheck window true] ∧
        loopLeft L = false := by
  intro fuel
  induction fuel with
  | zero => intro c t p prevTime h; simp [closesWithin] at h
  | succ fuel ih =>
    intro c t p prevTime h
    by_cases hc : w.glfwWindowShouldClose c = true
    · exact ⟨[], by simp [throttledLoopCalls, hc], rfl⟩
    · simp only [Bool.not_eq_true] at hc
      simp only [closesWithin, hc, Bool.false_or] at h
      by_cases hlt : Double.sub (w.glfwGetTime t) prevTime < frameTime
      · obtain ⟨L, hL, hleft⟩ := ih (c + 1) (t + 1) p prevTime h
        refine ⟨[closeCheck window false, ⟨false, .glfwGetTime, .real (w.glfwGetTime t)⟩] ++ L,
          ?_, ?_⟩
        · simp [throttledLoopCalls, hc, hlt, hL]
        · simp only [loopLeft_append, hleft]
          rfl
      · obtain ⟨L, hL, hleft⟩ := ih (c + 1) (t + 1) (p + 1) (w.glfwGetTime t) h
        refine ⟨[closeCheck window false, ⟨false, .glfwGetTime, .real (w.glfwGetTime t)⟩] ++
          (frame ++ (resizeCalls (w.resizeEvents p) ++ L)), ?_, ?_⟩
        · simp [throttledLoopCalls, hc, hlt, hL]
        · simp only [loopLeft_append, hframe, loopLeft_resizeCalls, hleft]
          rfl

end OpenGLExamples

namespace OpenGLExamples

/-! ## Calls inside the loop -/

theorem loopCall_of_loopEvent (window : Nat) (frame : List Event)
    (hframe : ∀ x ∈ frame, loopCall x.call = true) (e : Event)
    (h : LoopEvent window frame e) : loopCall e.call = true := by
  rcases h with ⟨b, rfl⟩ | ⟨q, rfl⟩ | h | ⟨W, H, rfl⟩ | rfl
  · rfl
  · rfl
  · exact hframe e h
  · rfl
  · rfl

theorem HelloTriangle.hello_loopCall_frameCalls (window prog : Nat) :
    ∀ x ∈ frameCalls window prog, loopCall x.call = true := by
  intro x hx
  simp only [frameCalls, List.mem_cons, List.mem_singleton, List.not_mem_nil, or_false] at hx
  rcases hx with rfl | rfl | rfl | rfl | rfl | rfl <;> rfl

theorem HelloTriangleInterpolated.interp_loopCall_frameCalls (window prog : Nat) :
    ∀ x ∈ frameCalls window prog, loopCall x.call = true := by
  intro x hx
  simp only [frameCalls, List.mem_cons, List.mem_singleton, List.not_mem_nil, or_false] at hx
  rcases hx with rfl | rfl | rfl | rfl | rfl | rfl <;> rfl

theorem CoolTriangleShape.cool_loopCall_frameCalls (window prog : Nat) :
    ∀ x ∈ frameCalls window prog, loopCall x.call = true := by
  intro x hx
  simp only [frameCalls, List.mem_cons, List.mem_singleton, List.not_mem_nil, or_false] at hx
  rcases hx with rfl | rfl | rfl | rfl | rfl | rfl <;> rfl

theorem filterMap_eq_nil_of_loopCall {β : Type} (f : Event → Option β) (l : List Event)
    (hl : ∀ e ∈ l, loopCall e.call = true)
    (hf : ∀ e, loopCall e.call = true → f e = none) : l.filterMap f = [] := by
  induction l with
  | nil => rfl
  | cons x xs ih =>
    rw [List.filterMap_cons, hf x (hl x (List.mem_cons_self _ _))]
    exact ih (fun e he => hl e (List.mem_cons_of_mem _ he))

theorem HelloTriangle.hello_loopCall_loop (w : World) (fuel : Nat) :
    ∀ e ∈ plainLoopCalls w w.glfwCreateWindow (frameCalls w.glfwCreateWindow 3) fuel 0 0,
      loopCall e.call = true := fun e he =>
  loopCall_of_loopEvent _ _ (HelloTriangle.hello_loopCall_frameCalls _ _) e (loopEvent_plainLoopCalls _ _ _ e _ _ _ he)

theorem HelloTriangleInterpolated.interp_loopCall_loop (w : World) (fuel : Nat) :
    ∀ e ∈ plainLoopCalls w w.glfwCreateWindow (frameCalls w.glfwCreateWindow 3) fuel 0 0,
      loopCall e.call = true := fun e he =>
  loopCall_of_loopEvent _ _ (HelloTriangleInterpolated.interp_loopCall_frameCalls _ _) e (loopEvent_plainLoopCalls _ _ _ e _ _ _ he)

theorem CoolTriangleShape.cool_loopCall_loop (w : World) (fuel : Nat) :
    ∀ e ∈ throttledLoopCalls w w.glfwCreateWindow (frameCalls w.glfwCreateWindow 3) (Double.div 1.0 60.0)
        fuel 0 1 0 (w.glfwGetTime 0),
      loopCall e.call = true := fun e he =>
  loopCall_of_loopEvent _ _ (CoolTriangleShape.cool_loopCall_frameCalls _ _) e
    (loopEvent_throttledLoopCalls _ _ _ _ e _ _ _ _ _ he)

theorem acquired_of_loopCall (e : Event) (h : loopCall e.call = true) : acquired e = none := by
  obtain ⟨cb, c, r⟩ := e
  cases c <;> first | rfl | (simp [loopCall] at h)

theorem released_of_loopCall (e : Event) (h : loopCall e.call = true) : released e = none := by
  obtain ⟨cb, c, r⟩ := e
  cases c <;> first | rfl | (simp [loopCall] at h)

end OpenGLExamples

namespace OpenGLExamples

/-! ## Successful runs -/

theorem runStatus_success_iff (w : World) (fuel : Nat) :
    runStatus w fuel = some EXIT_SUCCESS ↔
      w.glfwInit = true ∧ w.glfwCreateWindow ≠ 0 ∧ w.gladLoad = true ∧
        closesWithin w 0 fuel = true := by
  unfold runStatus
  by_cases h : w.glfwInit = false ∨ w.glfwCreateWindow = 0 ∨ w.gladLoad = false
  · simp only [h, if_true]
    constructor
    · intro e; simp [EXIT_FAILURE, EXIT_SUCCESS] at e
    · rintro ⟨a, b, c, _⟩
      rcases h with h | h | h
      · simp [a] at h
      · exact absurd h b
      · simp [c] at h
  · simp only [h, if_false]
    simp only [not_or, Bool.not_eq_false] at h
    cases hc : closesWithin w 0 fuel
    · simp
    · simp [h.1, h.2.1, h.2.2]

theorem HelloTriangle.hello_run_success (w : World) (fuel : Nat)
    (h : runStatus w fuel = some EXIT_SUCCESS) :
    ∃ L, runCalls w fuel = (setupCalls w ++ L) ++ closeCheck w.glfwCreateWindow true ::
        cleanupCalls w ∧
      loopLeft L = false ∧ (∀ e ∈ L, loopCall e.call = true) ∧
      plainLoopCalls w w.glfwCreateWindow (frameCalls w.glfwCreateWindow 3) fuel 0 0 =
        L ++ [closeCheck w.glfwCreateWindow true] := by
  obtain ⟨h1, h2, h3, hc⟩ := (runStatus_success_iff w fuel).mp h
  obtain ⟨L, hL, hleft⟩ := plainLoopCalls_closing w w.glfwCreateWindow
    (frameCalls w.glfwCreateWindow 3) rfl fuel 0 0 hc
  refine ⟨L, ?_, hleft, ?_, hL⟩
  · simp [runCalls, h1, h2, h3, hc, hL]
  · intro e he
    exact HelloTriangle.hello_loopCall_loop w fuel e (by rw [hL]; exact List.mem_append_left _ he)

theorem HelloTriangle.hello_setup_resources (w : World) (h2 : w.glfwCreateWindow ≠ 0) :
    acquisitions (setupCalls w) =
      [.subsystem, .window w.glfwCreateWindow, .shader 1, .shader 2, .program 3,
        .vertexArray 1, .buffer 1] ∧
    releases (setupCalls w) = [.shader 1, .shader 2] := by
  simp [setupCalls, acquisitions, releases, acquired, released, own, h2]

theorem HelloTriangleInterpolated.interp_run_success (w : World) (fuel : Nat)
    (h : runStatus w fuel = some EXIT_SUCCESS) :
    ∃ L, runCalls w fuel = (setupCalls w ++ L) ++ closeCheck w.glfwCreateWindow true ::
        cleanupCalls w ∧
      loopLeft L = false ∧ (∀ e ∈ L, loopCall e.call = true) ∧
      plainLoopCalls w w.glfwCreateWindow (frameCalls w.glfwCreateWindow 3) fuel 0 0 =
        L ++ [closeCheck w.glfwCreateWindow true] := by
  obtain ⟨h1, h2, h3, hc⟩ := (runStatus_success_iff w fuel).mp h
  obtain ⟨L, hL, hleft⟩ := plainLoopCalls_closing w w.glfwCreateWindow
    (frameCalls w.glfwCreateWindow 3) rfl fuel 0 0 hc
  refine ⟨L, ?_, hleft, ?_, hL⟩
  · simp [runCalls, h1, h2, h3, hc, hL]
  · intro e he
    exact HelloTriangleInterpolated.interp_loopCall_loop w fuel e (by rw [hL]; exact List.mem_append_left _ he)

theorem HelloTriangleInterpolated.interp_setup_resources (w : World) (h2 : w.glfwCreateWindow ≠ 0) :
    acquisitions (setupCalls w) =
      [.subsystem, .window w.glfwCreateWindow, .shader 1, .shader 2, .program 3,
        .vertexArray 1, .buffer 1] ∧
    releases (setupCalls w) = [.shader 1, .shader 2] := by
  simp [setupCalls, acquisitions, releases, acquired, released, own, h2]

theorem CoolTriangleShape.cool_run_success (w : World) (fuel : Nat)
    (h : runStatus w fuel = some EXIT_SUCCESS) :
    ∃ L, runCalls w fuel = (setupCalls w ++ L) ++ closeCheck w.glfwCreateWindow true ::
        cleanupCalls w ∧
      loopLeft L = false ∧ (∀ e ∈ L, loopCall e.call = true) ∧
      throttledLoopCalls w w.glfwCreateWindow (frameCalls w.glfwCreateWindow 3) (Double.div 1.0 60.0)
          fuel 0 1 0 (w.glfwGetTime 0) =
        L ++ [closeCheck w.glfwCreateWindow true] := by
  obtain ⟨h1, h2, h3, hc⟩ := (runStatus_success_iff w fuel).mp h
  obtain ⟨L, hL, hleft⟩ := throttledLoopCalls_closing w w.glfwCreateWindow
    (frameCalls w.glfwCreateWindow 3) (Double.div 1.0 60.0) rfl fuel 0 1 0 (w.glfwGetTime 0) hc
  refine ⟨L, ?_, hleft, ?_, hL⟩
  · simp [runCalls, h1, h2, h3, hc, hL]
  · intro e he
    exact CoolTriangleShape.cool_loopCall_loop w fuel e (by rw [hL]; exact List.mem_append_left _ he)

theorem CoolTriangleShape.cool_setup_resources (w : World) (h2 : w.glfwCreateWindow ≠ 0) :
    acquisitions (setupCalls w) =
      [.subsystem, .window w.glfwCreateWindow, .shader 1, .shader 2, .program 3,
        .vertexArray 1, .buffer 1, .buffer 2] ∧
    releases (setupCalls w) = [.shader 1, .shader 2] := by
  simp [setupCalls, acquisitions, releases, acquired, released, own, h2]

/-- C6: in each of the three programs a run that returns success ends, after the close
check that answered true (the only one to do so), with exactly these calls in this
order: the info log line "Initiate cleanup", `glDeleteBuffers` for every buffer the run
generated (buffer 1, and buffer 2 in the indexed program), `glDeleteVertexArrays` for
vertex array 1, `glfwDestroyWindow`, `glfwTerminate`; the log line apart, the calls after
that close check are the buffer releases, the vertex-array release, the window
destruction and the shutdown. Everything the run acquired is acquired before that close
check, where only the two shader objects are released. -/
theorem teardown_order (w : World) (fuel : Nat) :
    (((HelloTriangle.main w fuel State.initial).1 = some EXIT_SUCCESS →
      ∃ pre, (HelloTriangle.main w fuel State.initial).2.trace =
          pre ++ [closeCheck w.glfwCreateWindow true,
            own (.spdlog_info "Initiate cleanup"),
            own (.glDeleteBuffers 1 1),
            own (.glDeleteVertexArrays 1 1),
            own (.glfwDestroyWindow w.glfwCreateWindow),
            own .glfwTerminate] ∧
        loopLeft pre = false ∧
        acquisitions pre =
          [.subsystem, .window w.glfwCreateWindow, .shader 1, .shader 2, .program 3,
            .vertexArray 1, .buffer 1] ∧
        releases pre = [.shader 1, .shader 2] ∧
        ((((HelloTriangle.main w fuel State.initial).2.trace.drop (pre.length + 1)).filter
            fun e => !isLog e.call).map Event.call =
          [.glDeleteBuffers 1 1,
           .glDeleteVertexArrays 1 1, .glfwDestroyWindow w.glfwCreateWindow, .glfwTerminate]))) ∧
    (((HelloTriangleInterpolated.main w fuel State.initial).1 = some EXIT_SUCCESS →
      ∃ pre, (HelloTriangleInterpolated.main w fuel State.initial).2.trace =
          pre ++ [closeCheck w.glfwCreateWindow true,
            own (.spdlog_info "Initiate cleanup"),
            own (.glDeleteBuffers 1 1),
            own (.glDeleteVertexArrays 1 1),
            own (.glfwDestroyWindow w.glfwCreateWindow),
            own .glfwTerminate] ∧
        loopLeft pre = false ∧
        acquisitions pre =
          [.subsystem, .window w.glfwCreateWindow, .shader 1, .shader 2, .program 3,
            .vertexArray 1, .buffer 1] ∧
        releases pre = [.shader 1, .shader 2] ∧
        ((((HelloTriangleInterpolated.main w fuel State.initial).2.trace.drop (pre.length + 1)).filter
            fun e => !isLog e.call).map Event.call =
          [.glDeleteBuffers 1 1,
           .glDeleteVertexArrays 1 1, .glfwDestroyWindow w.glfwCreateWindow, .glfwTerminate]))) ∧
    (((CoolTriangleShape.main w fuel State.initial).1 = some EXIT_SUCCESS →
      ∃ pre, (CoolTriangleShape.main w fuel State.initial).2.trace =
          pre ++ [closeCheck w.glfwCreateWindow true,
            own (.spdlog_info "Initiate cleanup"),
            own (.glDeleteBuffers 1 1),
            own (.glDeleteBuffers 1 2),
            own (.glDeleteVertexArrays 1 1),
            own (.glfwDestroyWindow w.glfwCreateWindow),
            own .glfwTerminate] ∧
        loopLeft pre = false ∧
        acquisitions pre =
          [.subsystem, .window w.glfwCreateWindow, .shader 1, .shader 2, .program 3,
            .vertexArray 1, .buffer 1, .buffer 2] ∧
        releases pre = [.shader 1, .shader 2] ∧
        ((((CoolTriangleShape.main w fuel State.initial).2.trace.drop (pre.length + 1)).filter
            fun e => !isLog e.call).map Event.call =
          [.glDeleteBuffers 1 1, .glDeleteBuffers 1 2,
           .glDeleteVertexArrays 1 1, .glfwDestroyWindow w.glfwCreateWindow, .glfwTerminate]))) := by
  refine ⟨?_, ?_, ?_⟩
  · intro h
    rw [(HelloTriangle.hello_main_spec w fuel).1] at h
    obtain ⟨L, hrun, hleft, hloop, _⟩ := HelloTriangle.hello_run_success w fuel h
    obtain ⟨_, h2, _, _⟩ := (runStatus_success_iff w fuel).mp h
    obtain ⟨ha, hr⟩ := HelloTriangle.hello_setup_resources w h2
    refine ⟨HelloTriangle.setupCalls w ++ L, ?_, ?_, ?_, ?_, ?_⟩
    · rw [(HelloTriangle.hello_main_spec w fuel).2, hrun]; rfl
    · rw [loopLeft_append, hleft]; rfl
    · rw [acquisitions, List.filterMap_append, filterMap_eq_nil_of_loopCall acquired L hloop
        acquired_of_loopCall, List.append_nil]
      exact ha
    · rw [releases, List.filterMap_append, filterMap_eq_nil_of_loopCall released L hloop
        released_of_loopCall, List.append_nil]
      exact hr
    · rw [(HelloTriangle.hello_main_spec w fuel).2, hrun, List.drop_append]
      rfl
  · intro h
    rw [(HelloTriangleInterpolated.interp_main_spec w fuel).1] at h
    obtain ⟨L, hrun, hleft, hloop, _⟩ := HelloTriangleInterpolated.interp_run_success w fuel h
    obtain ⟨_, h2, _, _⟩ := (runStatus_success_iff w fuel).mp h
    obtain ⟨ha, hr⟩ := HelloTriangleInterpolated.interp_setup_resources w h2
    refine ⟨HelloTriangleInterpolated.setupCalls w ++ L, ?_, ?_, ?_, ?_, ?_⟩
    · rw [(HelloTriangleInterpolated.interp_main_spec w fuel).2, hrun]; rfl
    · rw [loopLeft_append, hleft]; rfl
    · rw [acquisitions, List.filterMap_append, filterMap_eq_nil_of_loopCall acquired L hloop
        acquired_of_loopCall, List.append_nil]
      exact ha
    · rw [releases, List.filterMap_append, filterMap_eq_nil_of_loopCall released L hloop
        released_of_loopCall, List.append_nil]
      exact hr
    · rw [(HelloTriangleInterpolated.interp_main_spec w fuel).2, hrun, List.drop_append]
      rfl
  · intro h
    rw [(CoolTriangleShape.cool_main_spec w fuel).1] at h
    obtain ⟨L, hrun, hleft, hloop, _⟩ := CoolTriangleShape.cool_run_success w fuel h
    obtain ⟨_, h2, _, _⟩ := (runStatus_success_iff w fuel).mp h
    obtain ⟨ha, hr⟩ := CoolTriangleShape.cool_setup_resources w h2
    refine ⟨CoolTriangleShape.setupCalls w ++ L, ?_, ?_, ?_, ?_, ?_⟩
    · rw [(CoolTriangleShape.cool_main_spec w fuel).2, hrun]; rfl
    · rw [loopLeft_append, hleft]; rfl
    · rw [acquisitions, List.filterMap_append, filterMap_eq_nil_of_loopCall acquired L hloop
        acquired_of_loopCall, List.append_nil]
      exact ha
    · rw [releases, List.filterMap_append, filterMap_eq_nil_of_loopCall released L hloop
        released_of_loopCall, List.append_nil]
      exact hr
    · rw [(CoolTriangleShape.cool_main_spec w fuel).2, hrun, List.drop_append]
      rfl

theorem teardown_order_witness :
    ∃ pre, (CoolTriangleShape.main closedAtOnce 1 State.initial).2.trace =
        pre ++ [closeCheck 7 true,
          own (.spdlog_info "Initiate cleanup"),
          own (.glDeleteBuffers 1 1),
          own (.glDeleteBuffers 1 2),
          own (.glDeleteVertexArrays 1 1),
          own (.glfwDestroyWindow 7),
          own .glfwTerminate] ∧
      loopLeft pre = false ∧
      acquisitions pre =
        [.subsystem, .window 7, .shader 1, .shader 2, .program 3, .vertexArray 1, .buffer 1,
          .buffer 2] ∧
      releases pre = [.shader 1, .shader 2] ∧
      ((((CoolTriangleShape.main closedAtOnce 1 State.initial).2.trace.drop
          (pre.length + 1)).filter fun e => !isLog e.call).map Event.call =
        [.glDeleteBuffers 1 1, .glDeleteBuffers 1 2,
         .glDeleteVertexArrays 1 1, .glfwDestroyWindow 7, .glfwTerminate]) :=
  (teardown_order closedAtOnce 1).2.2 rfl

end OpenGLExamples

namespace OpenGLExamples

/-! ## Iterations of the unthrottled loops -/

theorem plainLoopCalls_first (w : World) (window : Nat) (frame : List Event) :
    ∀ n fuel c p, (∀ i, i < n → w.glfwWindowShouldClose (c + i) = false) →
      w.glfwWindowShouldClose (c + n) = true → n < fuel →
      plainLoopCalls w window frame fuel c p =
        plainIterations w window frame n p ++ [closeCheck window true] := by
  intro n
  induction n with
  | zero =>
    intro fuel c p _ hn hfuel
    obtain ⟨fuel, rfl⟩ : ∃ k, fuel = k + 1 := ⟨fuel - 1, by omega⟩
    simp only [Nat.add_zero] at hn
    simp [plainLoopCalls, plainIterations, hn]
  | succ n ih =>
    intro fuel c p hfirst hn hfuel
    obtain ⟨fuel, rfl⟩ : ∃ k, fuel = k + 1 := ⟨fuel - 1, by omega⟩
    have h0 : w.glfwWindowShouldClose c = false := by simpa using hfirst 0 (by omega)
    have := ih fuel (c + 1) (p + 1)
      (fun i hi => by rw [← hfirst (i + 1) (by omega)]; congr 1; omega)
      (by rw [← hn]; congr 1; omega) (by omega)
    simp [plainLoopCalls, plainIterations, h0, this]

theorem bodyCalls_append (a b : List Event) : bodyCalls (a ++ b) = bodyCalls a ++ bodyCalls b := by
  simp [bodyCalls]

theorem bodyCalls_resizeCalls : ∀ evs, bodyCalls (resizeCalls evs) = [] := by
  intro evs
  induction evs with
  | nil => rfl
  | cons x xs ih =>
    simp only [bodyCalls] at ih
    simp [resizeCalls, bodyCalls, ih]

theorem bodyCalls_plainIterations (w : World) (window : Nat) (frame : List Event)
    (hframe : bodyCalls frame = frame.map Event.call) :
    ∀ n p, bodyCalls (plainIterations w window frame n p) =
      (List.replicate n (frame.map Event.call)).flatten := by
  intro n
  induction n with
  | zero => intro p; rfl
  | succ n ih =>
    intro p
    rw [plainIterations, show closeCheck window false :: (frame ++ (resizeCalls (w.resizeEvents p)
      ++ plainIterations w window frame n (p + 1))) = [closeCheck window false] ++ (frame ++
      (resizeCalls (w.resizeEvents p) ++ plainIterations w window frame n (p + 1))) from rfl,
      bodyCalls_append, bodyCalls_append, bodyCalls_append, bodyCalls_resizeCalls, ih, hframe,
      List.replicate_succ, List.flatten_cons]
    rfl

theorem drawCalls_append (a b : List Event) : drawCalls (a ++ b) = drawCalls a ++ drawCalls b := by
  simp [drawCalls]

theorem drawCalls_resizeCalls : ∀ evs, drawCalls (resizeCalls evs) = [] := by
  intro evs
  induction evs with
  | nil => rfl
  | cons x xs ih =>
    have : drawCalls (resizeCalls (x :: xs)) = drawCalls (resizeCalls xs) := rfl
    rw [this, ih]

theorem drawCalls_plainIterations (w : World) (window : Nat) (frame : List Event) :
    ∀ n p, (drawCalls (plainIterations w window frame n p)).length =
      n * (drawCalls frame).length := by
  intro n
  induction n with
  | zero => intro p; simp [plainIterations, drawCalls]
  | succ n ih =>
    intro p
    rw [plainIterations, show closeCheck window false :: (frame ++ (resizeCalls (w.resizeEvents p)
      ++ plainIterations w window frame n (p + 1))) = [closeCheck window false] ++ (frame ++
      (resizeCalls (w.resizeEvents p) ++ plainIterations w window frame n (p + 1))) from rfl,
      drawCalls_append, drawCalls_append, drawCalls_append, drawCalls_resizeCalls]
    simp only [List.length_append, ih, List.nil_append]
    have : (drawCalls [closeCheck window false]).length = 0 := rfl
    rw [this]
    ring

/-- C7: in the two unthrottled programs, when the initialization succeeds and the close
check first answers true on its (n+1)-th evaluation, the run is the setup, then n
iterations, then the close check that answers true, then the cleanup; the calls `main`
issues in the n iterations, the loop condition apart, are exactly n repetitions of
set clear colour, clear the colour buffer, bind program 3, one `glDrawArrays` of a
triangle list with first vertex 0 and count 3, swap buffers, poll events; and the
whole run has exactly n draw calls. In the throttled program a pass through the loop
body reads the clock and then, when it is skipped, issues nothing else, and otherwise
issues the same sequence with one `glDrawElements` of a triangle list of 12 indices of
type `GL_UNSIGNED_INT` from offset 0 (4 triangles) as its draw call, followed by what the
resize callback does for the events of that poll. -/
theorem loop_call_sequence (w : World) (fuel n : Nat)
    (h1 : w.glfwInit = true) (h2 : w.glfwCreateWindow ≠ 0) (h3 : w.gladLoad = true)
    (hfirst : ∀ i, i < n → w.glfwWindowShouldClose i = false)
    (hn : w.glfwWindowShouldClose n = true) (hfuel : n < fuel) :
    ((HelloTriangle.main w fuel State.initial).2.trace =
        HelloTriangle.setupCalls w ++
          (plainIterations w w.glfwCreateWindow (HelloTriangle.frameCalls w.glfwCreateWindow 3) n 0 ++
            closeCheck w.glfwCreateWindow true :: HelloTriangle.cleanupCalls w) ∧
      bodyCalls (plainIterations w w.glfwCreateWindow
          (HelloTriangle.frameCalls w.glfwCreateWindow 3) n 0) =
        (List.replicate n [Call.glClearColor 0.17 0.25 0.32 1.0, .glClear .GL_COLOR_BUFFER_BIT,
          .glUseProgram 3, .glDrawArrays .GL_TRIANGLES 0 3,
          .glfwSwapBuffers w.glfwCreateWindow, .glfwPollEvents]).flatten ∧
      (drawCalls (HelloTriangle.main w fuel State.initial).2.trace).length = n) ∧
    ((HelloTriangleInterpolated.main w fuel State.initial).2.trace =
        HelloTriangleInterpolated.setupCalls w ++
          (plainIterations w w.glfwCreateWindow (HelloTriangleInterpolated.frameCalls w.glfwCreateWindow 3) n 0 ++
            closeCheck w.glfwCreateWindow true :: HelloTriangleInterpolated.cleanupCalls w) ∧
      bodyCalls (plainIterations w w.glfwCreateWindow
          (HelloTriangleInterpolated.frameCalls w.glfwCreateWindow 3) n 0) =
        (List.replicate n [Call.glClearColor 0.0 0.0 0.0 1.0, .glClear .GL_COLOR_BUFFER_BIT,
          .glUseProgram 3, .glDrawArrays .GL_TRIANGLES 0 3,
          .glfwSwapBuffers w.glfwCreateWindow, .glfwPollEvents]).flatten ∧
      (drawCalls (HelloTriangleInterpolated.main w fuel State.initial).2.trace).length = n) ∧
    (∀ (window prog : Nat) (frameTime prevTime : ℚ) (s : State),
      s.inCallback = false → s.callbackSet = true →
      (Double.sub (w.glfwGetTime s.clockReads) prevTime < frameTime →
        (CoolTriangleShape.loopBody w window prog frameTime prevTime s).2.trace =
          s.trace ++ [⟨false, .glfwGetTime, .real (w.glfwGetTime s.clockReads)⟩]) ∧
      (¬ Double.sub (w.glfwGetTime s.clockReads) prevTime < frameTime →
        (CoolTriangleShape.loopBody w window prog frameTime prevTime s).2.trace =
          s.trace ++ ⟨false, .glfwGetTime, .real (w.glfwGetTime s.clockReads)⟩ ::
            ([own (.glClearColor 0.0 0.0 0.0 1.0), own (.glClear .GL_COLOR_BUFFER_BIT),
              own (.glUseProgram prog),
              own (.glDrawElements .GL_TRIANGLES 12 .GL_UNSIGNED_INT 0),
              own (.glfwSwapBuffers window), own .glfwPollEvents] ++
              resizeCalls (w.resizeEvents s.polls)))) := by
  have hcl : closesWithin w 0 fuel = true :=
    (closesWithin_iff w fuel 0).mpr ⟨n, hfuel, by simpa using hn⟩
  refine ⟨?_, ?_, ?_⟩
  · have hrun : HelloTriangle.runCalls w fuel = HelloTriangle.setupCalls w ++
        (plainIterations w w.glfwCreateWindow (HelloTriangle.frameCalls w.glfwCreateWindow 3) n 0 ++
          closeCheck w.glfwCreateWindow true :: HelloTriangle.cleanupCalls w) := by
      have := plainLoopCalls_first w w.glfwCreateWindow (HelloTriangle.frameCalls w.glfwCreateWindow 3)
        n fuel 0 0 (by simpa using hfirst) (by simpa using hn) hfuel
      simp [HelloTriangle.runCalls, h1, h2, h3, hcl, this]
    rw [(HelloTriangle.hello_main_spec w fuel).2, hrun]
    refine ⟨rfl, ?_, ?_⟩
    · rw [bodyCalls_plainIterations w w.glfwCreateWindow
        (HelloTriangle.frameCalls w.glfwCreateWindow 3) rfl]
      rfl
    · simp only [drawCalls_append, List.length_append, drawCalls_plainIterations]
      have e1 : drawCalls (HelloTriangle.setupCalls w) = [] := rfl
      have e2 : drawCalls (closeCheck w.glfwCreateWindow true :: HelloTriangle.cleanupCalls w) = [] := rfl
      have e3 : (drawCalls (HelloTriangle.frameCalls w.glfwCreateWindow 3)).length = 1 := rfl
      rw [e1, e2, e3]
      simp
  · have hrun : HelloTriangleInterpolated.runCalls w fuel = HelloTriangleInterpolated.setupCalls w ++
        (plainIterations w w.glfwCreateWindow (HelloTriangleInterpolated.frameCalls w.glfwCreateWindow 3) n 0 ++
          closeCheck w.glfwCreateWindow true :: HelloTriangleInterpolated.cleanupCalls w) := by
      have := plainLoopCalls_first w w.glfwCreateWindow (HelloTriangleInterpolated.frameCalls w.glfwCreateWindow 3)
        n fuel 0 0 (by simpa using hfirst) (by simpa using hn) hfuel
      simp [HelloTriangleInterpolated.runCalls, h1, h2, h3, hcl, this]
    rw [(HelloTriangleInterpolated.interp_main_spec w fuel).2, hrun]
    refine ⟨rfl, ?_, ?_⟩
    · rw [bodyCalls_plainIterations w w.glfwCreateWindow
        (HelloTriangleInterpolated.frameCalls w.glfwCreateWindow 3) rfl]
      rfl
    · simp only [drawCalls_append, List.length_append, drawCalls_plainIterations]
      have e1 : drawCalls (HelloTriangleInterpolated.setupCalls w) = [] := rfl
      have e2 : drawCalls (closeCheck w.glfwCreateWindow true :: HelloTriangleInterpolated.cleanupCalls w) = [] := rfl
      have e3 : (drawCalls (HelloTriangleInterpolated.frameCalls w.glfwCreateWindow 3)).length = 1 := rfl
      rw [e1, e2, e3]
      simp
  · intro window prog frameTime prevTime s hs hset
    have := (CoolTriangleShape.cool_loopBody_spec w window prog frameTime prevTime s hs hset).2.1
    constructor
    · intro hlt; rw [this]; simp [hlt]
    · intro hge; rw [this]; simp [hge, CoolTriangleShape.frameCalls]

theorem loop_call_sequence_witness :
    (drawCalls (HelloTriangle.main sampleWorld 5 State.initial).2.trace).length = 2 :=
  (loop_call_sequence sampleWorld 5 2 rfl (by decide) rfl
    (fun i hi => by
      have : i = 0 ∨ i = 1 := by omega
      rcases this with rfl | rfl <;> rfl)
    rfl (by decide)).1.2.2

end OpenGLExamples

namespace OpenGLExamples

/-! ## The shape of a run whose initialization succeeds -/

theorem HelloTriangle.hello_run_shape (w : World) (fuel : Nat)
    (h1 : w.glfwInit = true) (h2 : w.glfwCreateWindow ≠ 0) (h3 : w.gladLoad = true) :
    ∃ L T, runCalls w fuel = setupCalls w ++ (L ++ T) ∧
      (∀ e ∈ L, loopCall e.call = true) ∧ (T = [] ∨ T = cleanupCalls w) := by
  refine ⟨plainLoopCalls w w.glfwCreateWindow (frameCalls w.glfwCreateWindow 3) fuel 0 0, if closesWithin w 0 fuel then cleanupCalls w else [], ?_,
    HelloTriangle.hello_loopCall_loop w fuel, ?_⟩
  · simp [runCalls, h1, h2, h3]
  · cases closesWithin w 0 fuel
    · exact Or.inl rfl
    · exact Or.inr rfl

theorem HelloTriangle.hello_filterMap_run {β : Type} (f : Event → Option β) (w : World) (fuel : Nat)
    (h1 : w.glfwInit = true) (h2 : w.glfwCreateWindow ≠ 0) (h3 : w.gladLoad = true)
    (hloop : ∀ e, loopCall e.call = true → f e = none)
    (hclean : (cleanupCalls w).filterMap f = []) :
    (main w fuel State.initial).2.trace.filterMap f = (setupCalls w).filterMap f := by
  obtain ⟨L, T, hrun, hL, hT⟩ := HelloTriangle.hello_run_shape w fuel h1 h2 h3
  rw [(HelloTriangle.hello_main_spec w fuel).2, hrun, List.filterMap_append, List.filterMap_append,
    filterMap_eq_nil_of_loopCall f L hL hloop]
  rcases hT with rfl | rfl
  · simp
  · simp [hclean]

theorem HelloTriangleInterpolated.interp_run_shape (w : World) (fuel : Nat)
    (h1 : w.glfwInit = true) (h2 : w.glfwCreateWindow ≠ 0) (h3 : w.gladLoad = true) :
    ∃ L T, runCalls w fuel = setupCalls w ++ (L ++ T) ∧
      (∀ e ∈ L, loopCall e.call = true) ∧ (T = [] ∨ T = cleanupCalls w) := by
  refine ⟨plainLoopCalls w w.glfwCreateWindow (frameCalls w.glfwCreateWindow 3) fuel 0 0, if closesWithin w 0 fuel then cleanupCalls w else [], ?_,
    HelloTriangleInterpolated.interp_loopCall_loop w fuel, ?_⟩
  · simp [runCalls, h1, h2, h3]
  · cases closesWithin w 0 fuel
    · exact Or.inl rfl
    · exact Or.inr rfl

theorem HelloTriangleInterpolated.interp_filterMap_run {β : Type} (f : Event → Option β) (w : World) (fuel : Nat)
    (h1 : w.glfwInit = true) (h2 : w.glfwCreateWindow ≠ 0) (h3 : w.gladLoad = true)
    (hloop : ∀ e, loopCall e.call = true → f e = none)
    (hclean : (cleanupCalls w).filterMap f = []) :
    (main w fuel State.initial).2.trace.filterMap f = (setupCalls w).filterMap f := by
  obtain ⟨L, T, hrun, hL, hT⟩ := HelloTriangleInterpolated.interp_run_shape w fuel h1 h2 h3
  rw [(HelloTriangleInterpolated.interp_main_spec w fuel).2, hrun, List.filterMap_append, List.filterMap_append,
    filterMap_eq_nil_of_loopCall f L hL hloop]
  rcases hT with rfl | rfl
  · simp
  · simp [hclean]

theorem CoolTriangleShape.cool_run_shape (w : World) (fuel : Nat)
    (h1 : w.glfwInit = true) (h2 : w.glfwCreateWindow ≠ 0) (h3 : w.gladLoad = true) :
    ∃ L T, runCalls w fuel = setupCalls w ++ (L ++ T) ∧
      (∀ e ∈ L, loopCall e.call = true) ∧ (T = [] ∨ T = cleanupCalls w) := by
  refine ⟨throttledLoopCalls w w.glfwCreateWindow (frameCalls w.glfwCreateWindow 3)
    (Double.div 1.0 60.0) fuel 0 1 0 (w.glfwGetTime 0), if closesWithin w 0 fuel then cleanupCalls w else [], ?_,
    CoolTriangleShape.cool_loopCall_loop w fuel, ?_⟩
  · simp [runCalls, h1, h2, h3]
  · cases closesWithin w 0 fuel
    · exact Or.inl rfl
    · exact Or.inr rfl

theorem CoolTriangleShape.cool_filterMap_run {β : Type} (f : Event → Option β) (w : World) (fuel : Nat)
    (h1 : w.glfwInit = true) (h2 : w.glfwCreateWindow ≠ 0) (h3 : w.gladLoad = true)
    (hloop : ∀ e, loopCall e.call = true → f e = none)
    (hclean : (cleanupCalls w).filterMap f = []) :
    (main w fuel State.initial).2.trace.filterMap f = (setupCalls w).filterMap f := by
  obtain ⟨L, T, hrun, hL, hT⟩ := CoolTriangleShape.cool_run_shape w fuel h1 h2 h3
  rw [(CoolTriangleShape.cool_main_spec w fuel).2, hrun, List.filterMap_append, List.filterMap_append,
    filterMap_eq_nil_of_loopCall f L hL hloop]
  rcases hT with rfl | rfl
  · simp
  · simp [hclean]

/-! ## Vertex attribute layout -/

/-- C8: in each of the three programs, in every run whose initialization succeeds, the
attribute slots enabled are exactly the locations of the `layout(location = k) in vec3`
declarations of that program's vertex shader source (slot 0; slots 0 and 1; slots 0
and 1), every declared attribute has 3 components of type `GL_FLOAT`, the attributes
occupy consecutive byte ranges of 12 bytes that start at offset 0 and end at the stride
(offset 0 with stride 12; offsets 0 and 12 with stride 24), and the one upload to
`GL_ARRAY_BUFFER` has stride times number of vertices bytes, the arrays holding 3
vertices of 3 floats, 3 vertices of 6 floats and 11 vertices. -/
theorem attribute_layout (w : World) (fuel : Nat)
    (h1 : w.glfwInit = true) (h2 : w.glfwCreateWindow ≠ 0) (h3 : w.gladLoad = true) :
    (enabledSlots (HelloTriangle.main w fuel State.initial).2.trace =
        vec3Inputs HelloTriangle.vertShaderSource ∧
      vec3Inputs HelloTriangle.vertShaderSource = [0] ∧
      attribPointers (HelloTriangle.main w fuel State.initial).2.trace = [(0, 3, .GL_FLOAT, 12, 0)] ∧
      fillsStride 12 0 (attribPointers (HelloTriangle.main w fuel State.initial).2.trace) = true ∧
      uploadSizes .GL_ARRAY_BUFFER (HelloTriangle.main w fuel State.initial).2.trace =
        [12 * 3] ∧
      HelloTriangle.vertices.length = 3 * 3) ∧
    (enabledSlots (HelloTriangleInterpolated.main w fuel State.initial).2.trace =
        vec3Inputs HelloTriangleInterpolated.vertShaderSource ∧
      vec3Inputs HelloTriangleInterpolated.vertShaderSource = [0, 1] ∧
      attribPointers (HelloTriangleInterpolated.main w fuel State.initial).2.trace = [(0, 3, .GL_FLOAT, 24, 0), (1, 3, .GL_FLOAT, 24, 12)] ∧
      fillsStride 24 0 (attribPointers (HelloTriangleInterpolated.main w fuel State.initial).2.trace) = true ∧
      uploadSizes .GL_ARRAY_BUFFER (HelloTriangleInterpolated.main w fuel State.initial).2.trace =
        [24 * 3] ∧
      HelloTriangleInterpolated.vertices.length = 3 * 6) ∧
    (enabledSlots (CoolTriangleShape.main w fuel State.initial).2.trace =
        vec3Inputs CoolTriangleShape.vertShaderSource ∧
      vec3Inputs CoolTriangleShape.vertShaderSource = [0, 1] ∧
      attribPointers (CoolTriangleShape.main w fuel State.initial).2.trace = [(0, 3, .GL_FLOAT, 24, 0), (1, 3, .GL_FLOAT, 24, 12)] ∧
      fillsStride 24 0 (attribPointers (CoolTriangleShape.main w fuel State.initial).2.trace) = true ∧
      uploadSizes .GL_ARRAY_BUFFER (CoolTriangleShape.main w fuel State.initial).2.trace =
        [24 * 11] ∧
      CoolTriangleShape.vertices.length = 11) := by
  refine ⟨?_, ?_, ?_⟩
  · have he := HelloTriangle.hello_filterMap_run (fun e => match e.call with
        | .glEnableVertexAttribArray k => some k
        | _ => none) w fuel h1 h2 h3
        (fun e he => by obtain ⟨cb, c, r⟩ := e; cases c <;> first | rfl | simp [loopCall] at he)
        rfl
    have hp := HelloTriangle.hello_filterMap_run (fun e => match e.call with
        | .glVertexAttribPointer index size type _ stride pointer =>
          some (index, size, type, stride, pointer)
        | _ => none) w fuel h1 h2 h3
        (fun e he => by obtain ⟨cb, c, r⟩ := e; cases c <;> first | rfl | simp [loopCall] at he)
        rfl
    have hu := HelloTriangle.hello_filterMap_run (fun e => match e.call with
        | .glBufferData t size _ _ => if t = GLenum.GL_ARRAY_BUFFER then some size else none
        | _ => none) w fuel h1 h2 h3
        (fun e he => by obtain ⟨cb, c, r⟩ := e; cases c <;> first | rfl | simp [loopCall] at he)
        rfl
    have hv : vec3Inputs HelloTriangle.vertShaderSource = [0] := by decide
    refine ⟨?_, hv, ?_, ?_, ?_, by decide⟩
    · rw [hv]; exact he.trans rfl
    · exact hp.trans rfl
    · rw [show attribPointers (HelloTriangle.main w fuel State.initial).2.trace = _ from hp.trans rfl]
      rfl
    · exact hu.trans rfl
  · have he := HelloTriangleInterpolated.interp_filterMap_run (fun e => match e.call with
        | .glEnableVertexAttribArray k => some k
        | _ => none) w fuel h1 h2 h3
        (fun e he => by obtain ⟨cb, c, r⟩ := e; cases c <;> first | rfl | simp [loopCall] at he)
        rfl
    have hp := HelloTriangleInterpolated.interp_filterMap_run (fun e => match e.call with
        | .glVertexAttribPointer index size type _ stride pointer =>
          some (index, size, type, stride, pointer)
        | _ => none) w fuel h1 h2 h3
        (fun e he => by obtain ⟨cb, c, r⟩ := e; cases c <;> first | rfl | simp [loopCall] at he)
        rfl
    have hu := HelloTriangleInterpolated.interp_filterMap_run (fun e => match e.call with
        | .glBufferData t size _ _ => if t = GLenum.GL_ARRAY_BUFFER then some size else none
        | _ => none) w fuel h1 h2 h3
        (fun e he => by obtain ⟨cb, c, r⟩ := e; cases c <;> first | rfl | simp [loopCall] at he)
        rfl
    have hv : vec3Inputs HelloTriangleInterpolated.vertShaderSource = [0, 1] := by decide
    refine ⟨?_, hv, ?_, ?_, ?_, by decide⟩
    · rw [hv]; exact he.trans rfl
    · exact hp.trans rfl
    · rw [show attribPointers (HelloTriangleInterpolated.main w fuel State.initial).2.trace = _ from hp.trans rfl]
      rfl
    · exact hu.trans rfl
  · have he := CoolTriangleShape.cool_filterMap_run (fun e => match e.call with
        | .glEnableVertexAttribArray k => some k
        | _ => none) w fuel h1 h2 h3
        (fun e he => by obtain ⟨cb, c, r⟩ := e; cases c <;> first | rfl | simp [loopCall] at he)
        rfl
    have hp := CoolTriangleShape.cool_filterMap_run (fun e => match e.call with
        | .glVertexAttribPointer index size type _ stride pointer =>
          some (index, size, type, stride, pointer)
        | _ => none) w fuel h1 h2 h3
        (fun e he => by obtain ⟨cb, c, r⟩ := e; cases c <;> first | rfl | simp [loopCall] at he)
        rfl
    have hu := CoolTriangleShape.cool_filterMap_run (fun e => match e.call with
        | .glBufferData t size _ _ => if t = GLenum.GL_ARRAY_BUFFER then some size else none
        | _ => none) w fuel h1 h2 h3
        (fun e he => by obtain ⟨cb, c, r⟩ := e; cases c <;> first | rfl | simp [loopCall] at he)
        rfl
    have hv : vec3Inputs CoolTriangleShape.vertShaderSource = [0, 1] := by decide
    refine ⟨?_, hv, ?_, ?_, ?_, by decide⟩
    · rw [hv]; exact he.trans rfl
    · exact hp.trans rfl
    · rw [show attribPointers (CoolTriangleShape.main w fuel State.initial).2.trace = _ from hp.trans rfl]
      rfl
    · exact hu.trans rfl

theorem attribute_layout_witness :
    enabledSlots (CoolTriangleShape.main sampleWorld 4 State.initial).2.trace =
      vec3Inputs CoolTriangleShape.vertShaderSource :=
  (attribute_layout sampleWorld 4 rfl (by decide) rfl).2.2.1

end OpenGLExamples

namespace OpenGLExamples

/-! ## The resize callback -/

/-- C9: in each of the three programs, for every width `W` and height `H` (and every
window argument and state), the resize callback returns the state it was given with
the viewport set to `(0, 0, W, H)` and with two entries appended to the trace, its
`glViewport(0, 0, W, H)` call and one info log line; every other component of the state
is unchanged, and the appended entries acquire and release no resource. -/
theorem resize_callback_effect (window : Nat) (W H : Int) (s : State) :
    HelloTriangle.window_resize_callback window W H s = ((), resized W H s) ∧
    HelloTriangleInterpolated.window_resize_callback window W H s = ((), resized W H s) ∧
    CoolTriangleShape.window_size_callback window W H s = ((), resized W H s) ∧
    (resized W H s).viewport = some (0, 0, W, H) ∧
    (resized W H s).trace = s.trace ++
      [⟨s.inCallback, .glViewport 0 0 W H, .void⟩,
       ⟨s.inCallback, .spdlog_info "Window resized to dimensions: \x7b:d\x7dx\x7b:d\x7d", .void⟩] ∧
    (resized W H s).inCallback = s.inCallback ∧
    (resized W H s).callbackSet = s.callbackSet ∧
    (resized W H s).objectNames = s.objectNames ∧
    (resized W H s).bufferNames = s.bufferNames ∧
    (resized W H s).arrayNames = s.arrayNames ∧
    (resized W H s).closeChecks = s.closeChecks ∧
    (resized W H s).clockReads = s.clockReads ∧
    (resized W H s).polls = s.polls ∧
    acquisitions (resized W H s).trace = acquisitions s.trace ∧
    releases (resized W H s).trace = releases s.trace := by
  refine ⟨HelloTriangle.hello_callback_spec window W H s,
    HelloTriangleInterpolated.interp_callback_spec window W H s,
    CoolTriangleShape.cool_callback_spec window W H s,
    rfl, rfl, rfl, rfl, rfl, rfl, rfl, rfl, rfl, rfl, ?_, ?_⟩
  · simp [resized, acquisitions, acquired]
  · simp [resized, releases, released]

/-! ## The indexed geometry -/

theorem CoolTriangleShape.cool_draw_of_loopCall_frame (window prog : Nat) (e : Event)
    (h : LoopEvent window (frameCalls window prog) e) (hd : isDraw e.call = true) :
    e.call = .glDrawElements .GL_TRIANGLES 12 .GL_UNSIGNED_INT 0 := by
  rcases h with ⟨b, rfl⟩ | ⟨q, rfl⟩ | h | ⟨W, H, rfl⟩ | rfl
  · simp [closeCheck, isDraw] at hd
  · simp [isDraw] at hd
  · simp only [frameCalls, List.mem_cons, List.mem_singleton, List.not_mem_nil, or_false] at h
    rcases h with rfl | rfl | rfl | rfl | rfl | rfl <;> first | rfl | simp [own, isDraw] at hd
  · simp [isDraw] at hd
  · simp [isDraw] at hd

theorem CoolTriangleShape.cool_draws_of_run (w : World) (fuel : Nat) :
    ∀ e ∈ runCalls w fuel, isDraw e.call = true →
      e.call = .glDrawElements .GL_TRIANGLES 12 .GL_UNSIGNED_INT 0 := by
  intro e he hd
  have hnil : ∀ l : List Event, e ∈ l → drawCalls l = [] → False := by
    intro l hmem hl
    have : e ∈ drawCalls l := by
      simp only [drawCalls, List.mem_filter]
      exact ⟨hmem, hd⟩
    rw [hl] at this
    simp at this
  cases h1 : w.glfwInit
  · simp only [runCalls, h1, if_true] at he
    exact (hnil _ he rfl).elim
  · by_cases h2 : w.glfwCreateWindow = 0
    · simp only [runCalls, h1, h2, if_true, Bool.true_eq_false, if_false] at he
      exact (hnil _ he rfl).elim
    · cases h3 : w.gladLoad
      · simp only [runCalls, h1, h2, h3, if_true, Bool.true_eq_false, if_false] at he
        exact (hnil _ he rfl).elim
      · simp only [runCalls, h1, h2, h3, Bool.true_eq_false, if_false, List.mem_append] at he
        rcases he with he | he | he
        · exact (hnil _ he rfl).elim
        · exact CoolTriangleShape.cool_draw_of_loopCall_frame _ _ e
            (loopEvent_throttledLoopCalls _ _ _ _ e _ _ _ _ _ he) hd
        · split at he
          · exact (hnil _ he rfl).elim
          · simp at he

/-- C5: in the indexed program the vertex array holds 11 vertices whose positions are
pairwise distinct, the index array holds 12 indices that form the 4 triples
`[0,1,2]`, `[0,3,4]`, `[5,6,7]`, `[8,9,10]`, each of three distinct indices, and every
index is below 11. Every draw call of every run is `glDrawElements` of a triangle list
with count 12, the length of the index array, of type `GL_UNSIGNED_INT` from offset 0;
and a run whose initialization succeeds uploads exactly the 11 vertices (264 bytes) to
`GL_ARRAY_BUFFER` and exactly the 12 indices (48 bytes) to `GL_ELEMENT_ARRAY_BUFFER`. -/
theorem indexed_geometry (w : World) (fuel : Nat) :
    CoolTriangleShape.vertices.length = 11 ∧
    (CoolTriangleShape.vertices.map fun v => v.headD []).Nodup ∧
    CoolTriangleShape.indices.length = 12 ∧
    CoolTriangleShape.indices.toChunks 3 = [[0, 1, 2], [0, 3, 4], [5, 6, 7], [8, 9, 10]] ∧
    (∀ t ∈ CoolTriangleShape.indices.toChunks 3, t.length = 3 ∧ t.Nodup) ∧
    (∀ i ∈ CoolTriangleShape.indices, i < CoolTriangleShape.vertices.length) ∧
    (∀ e ∈ (CoolTriangleShape.main w fuel State.initial).2.trace, isDraw e.call = true →
      e.call = .glDrawElements .GL_TRIANGLES CoolTriangleShape.indices.length
        .GL_UNSIGNED_INT 0) ∧
    (w.glfwInit = true → w.glfwCreateWindow ≠ 0 → w.gladLoad = true →
      own (.glBufferData .GL_ARRAY_BUFFER (CoolTriangleShape.vertices.length * 24)
        (.floats CoolTriangleShape.vertices.flatten.flatten) .GL_STATIC_DRAW) ∈
          (CoolTriangleShape.main w fuel State.initial).2.trace ∧
      own (.glBufferData .GL_ELEMENT_ARRAY_BUFFER
        (CoolTriangleShape.indices.length * sizeof_GLuint)
        (.uints CoolTriangleShape.indices) .GL_STATIC_DRAW) ∈
          (CoolTriangleShape.main w fuel State.initial).2.trace ∧
      uploadSizes .GL_ELEMENT_ARRAY_BUFFER (CoolTriangleShape.main w fuel State.initial).2.trace =
        [48]) := by
  refine ⟨rfl, ?_, rfl, by decide, by decide, by decide, ?_, ?_⟩
  · simp only [CoolTriangleShape.vertices, List.map, List.headD]
    norm_num
  · rw [(CoolTriangleShape.cool_main_spec w fuel).2]
    exact CoolTriangleShape.cool_draws_of_run w fuel
  · intro h1 h2 h3
    have hu := CoolTriangleShape.cool_filterMap_run (fun e => match e.call with
        | .glBufferData t size _ _ =>
          if t = GLenum.GL_ELEMENT_ARRAY_BUFFER then some size else none
        | _ => none) w fuel h1 h2 h3
        (fun e he => by obtain ⟨cb, c, r⟩ := e; cases c <;> first | rfl | simp [loopCall] at he)
        rfl
    obtain ⟨L, T, hrun, -, -⟩ := CoolTriangleShape.cool_run_shape w fuel h1 h2 h3
    rw [(CoolTriangleShape.cool_main_spec w fuel).2, hrun]
    refine ⟨?_, ?_, ?_⟩
    · apply List.mem_append_left
      simp [CoolTriangleShape.setupCalls, CoolTriangleShape.vertices, own]
    · apply List.mem_append_left
      simp [CoolTriangleShape.setupCalls, CoolTriangleShape.indices, own, sizeof_GLuint]
    · rw [← hrun, ← (CoolTriangleShape.cool_main_spec w fuel).2]
      exact hu.trans rfl

theorem indexed_geometry_witness :
    uploadSizes .GL_ELEMENT_ARRAY_BUFFER
      (CoolTriangleShape.main sampleWorld 4 State.initial).2.trace = [48] :=
  ((indexed_geometry sampleWorld 4).2.2.2.2.2.2.2 rfl (by decide) rfl).2.2

end OpenGLExamples
namespace OpenGLExamples

/-! ## Rounding to double precision -/

theorem doubleSpacing_pos (x : ℚ) : 0 < doubleSpacing x := by
  unfold doubleSpacing
  positivity

theorem doubleSpacing_eq (x : ℚ) (e : ℤ) (he : -1022 ≤ e) (h1 : (2 : ℚ) ^ e ≤ |x|)
    (h2 : |x| < (2 : ℚ) ^ (e + 1)) : doubleSpacing x = (2 : ℚ) ^ (e - 52) := by
  have hpos : (0 : ℚ) < |x| := lt_of_lt_of_le (by positivity) h1
  have a : e ≤ Int.log 2 |x| :=
    (Int.zpow_le_iff_le_log (by norm_num) hpos).mp (by exact_mod_cast h1)
  have b : Int.log 2 |x| < e + 1 :=
    (Int.lt_zpow_iff_log_lt (by norm_num) hpos).mp (by exact_mod_cast h2)
  have : Int.log 2 |x| = e := by omega
  unfold doubleSpacing
  rw [this, max_eq_left he]

theorem zpow_log_le (x : ℚ) (hx : 0 < x) : (2 : ℚ) ^ Int.log 2 x ≤ x := by
  have := Int.zpow_log_le_self (b := 2) (by norm_num) hx
  exact_mod_cast this

theorem lt_zpow_log_succ (x : ℚ) : x < (2 : ℚ) ^ (Int.log 2 x + 1) := by
  have := Int.lt_zpow_succ_log_self (b := 2) (by norm_num) x
  exact_mod_cast this

theorem two_zpow_split (e : ℤ) : (2 : ℚ) ^ e = 2 ^ 52 * (2 : ℚ) ^ (e - 52) := by
  have h : e = 52 + (e - 52) := by ring
  conv_lhs => rw [h, zpow_add₀ (two_ne_zero)]
  norm_num

theorem two_zpow_succ_split (e : ℤ) : (2 : ℚ) ^ (e + 1) = 2 ^ 53 * (2 : ℚ) ^ (e - 52) := by
  have h : e + 1 = 53 + (e - 52) := by ring
  conv_lhs => rw [h, zpow_add₀ (two_ne_zero)]
  norm_num

theorem floor_le_roundHalfEven (x : ℚ) : ⌊x⌋ ≤ roundHalfEven x := by
  unfold roundHalfEven
  split_ifs <;> omega

theorem le_roundHalfEven (x : ℚ) (n : ℤ) (h : (n : ℚ) ≤ x) : n ≤ roundHalfEven x :=
  le_trans (Int.le_floor.mpr h) (floor_le_roundHalfEven x)

theorem roundHalfEven_le (x : ℚ) (n : ℤ) (h : x ≤ n) : roundHalfEven x ≤ n := by
  have h1 := Int.floor_le x
  have hf : ⌊x⌋ ≤ n := by
    have : (⌊x⌋ : ℚ) ≤ n := le_trans h1 h
    exact_mod_cast this
  unfold roundHalfEven
  by_cases hlt : x - ⌊x⌋ < 1 / 2
  · rw [if_pos hlt]
    exact hf
  · have hlt2 : ⌊x⌋ < n := by
      have : (⌊x⌋ : ℚ) < n := by linarith
      exact_mod_cast this
    rw [if_neg hlt]
    split_ifs <;> omega

theorem roundHalfEven_of_lt (x : ℚ) (n : ℤ) (h1 : (n : ℚ) ≤ x) (h2 : x < n + 1 / 2) :
    roundHalfEven x = n := by
  have hf : ⌊x⌋ = n := by
    rw [Int.floor_eq_iff]
    exact ⟨h1, by linarith⟩
  unfold roundHalfEven
  rw [hf, if_pos (by linarith)]

theorem lt_of_le_roundHalfEven (x : ℚ) (n : ℤ) (hodd : n % 2 = 1)
    (h : n ≤ roundHalfEven x) : (n : ℚ) - 1 / 2 < x := by
  have h1 := Int.floor_le x
  unfold roundHalfEven at h
  split_ifs at h with c1 c2 c3
  · have : (n : ℚ) ≤ ⌊x⌋ := by exact_mod_cast h
    linarith
  · have : (n : ℚ) ≤ ⌊x⌋ + 1 := by exact_mod_cast h
    linarith
  · have : (n : ℚ) ≤ ⌊x⌋ := by exact_mod_cast h
    linarith
  · have h' : n ≤ ⌊x⌋ := by omega
    have : (n : ℚ) ≤ ⌊x⌋ := by exact_mod_cast h'
    linarith

theorem toDouble_nonpos (x : ℚ) (h : x ≤ 0) : toDouble x ≤ 0 := by
  unfold toDouble
  have hs := doubleSpacing_pos x
  have h1 : roundHalfEven (x / doubleSpacing x) ≤ 0 :=
    roundHalfEven_le _ 0 (by
      have := div_nonpos_of_nonpos_of_nonneg h hs.le
      exact_mod_cast this)
  have h2 : ((roundHalfEven (x / doubleSpacing x) : ℤ) : ℚ) ≤ 0 := by exact_mod_cast h1
  exact mul_nonpos_of_nonpos_of_nonneg h2 hs.le

/-- The double `1.0 / 60.0`. -/
theorem frameTime_value : Double.div 1.0 60.0 = 4803839602528529 / 2 ^ 58 := by
  have hs : doubleSpacing (1.0 / 60.0) = (2 : ℚ) ^ (-6 - 52 : ℤ) :=
    doubleSpacing_eq _ (-6) (by norm_num) (by norm_num [abs_of_pos]) (by norm_num [abs_of_pos])
  unfold Double.div toDouble
  rw [hs, roundHalfEven_of_lt _ 4803839602528529 (by norm_num) (by norm_num)]
  norm_num

/-- A difference that reaches the double `1.0 / 60.0` still reaches it when rounded. -/
theorem frameTime_le_toDouble (x : ℚ) (h : 4803839602528529 / 2 ^ 58 ≤ x) :
    4803839602528529 / 2 ^ 58 ≤ toDouble x := by
  have hx : 0 < x := lt_of_lt_of_le (by norm_num) h
  have habs : |x| = x := abs_of_pos hx
  obtain ⟨e, he⟩ : ∃ e, Int.log 2 x = e := ⟨_, rfl⟩
  have h1 : (2 : ℚ) ^ e ≤ x := he ▸ zpow_log_le x hx
  have h2 : x < (2 : ℚ) ^ (e + 1) := he ▸ lt_zpow_log_succ x
  have hge : -6 ≤ e := by
    by_contra hlt
    have h3 : (2 : ℚ) ^ (e + 1) ≤ (2 : ℚ) ^ (-6 : ℤ) :=
      zpow_le_zpow_right₀ (by norm_num) (by omega)
    have h4 : (2 : ℚ) ^ (-6 : ℤ) ≤ 4803839602528529 / 2 ^ 58 := by norm_num
    exact absurd (lt_of_lt_of_le h2 (le_trans h3 (le_trans h4 h))) (lt_irrefl x)
  have hs : doubleSpacing x = (2 : ℚ) ^ (e - 52) :=
    doubleSpacing_eq x e (by omega) (by rw [habs]; exact h1) (by rw [habs]; exact h2)
  have hpos : (0 : ℚ) < (2 : ℚ) ^ (e - 52) := by positivity
  unfold toDouble
  rw [hs]
  rcases eq_or_lt_of_le hge with h6 | h5
  · subst h6
    have hr : (4803839602528529 : ℤ) ≤ roundHalfEven (x / (2 : ℚ) ^ (-6 - 52 : ℤ)) := by
      apply le_roundHalfEven
      rw [le_div_iff₀ (by positivity)]
      norm_num
      linarith
    have hr' : (4803839602528529 : ℚ) ≤ roundHalfEven (x / (2 : ℚ) ^ (-6 - 52 : ℤ)) := by
      exact_mod_cast hr
    calc (4803839602528529 / 2 ^ 58 : ℚ) = 4803839602528529 * (2 : ℚ) ^ (-6 - 52 : ℤ) := by
          norm_num
      _ ≤ _ := mul_le_mul_of_nonneg_right hr' (by positivity)
  · have hr : ((2 ^ 52 : ℕ) : ℤ) ≤ roundHalfEven (x / (2 : ℚ) ^ (e - 52)) := by
      apply le_roundHalfEven
      rw [le_div_iff₀ hpos]
      have := two_zpow_split e
      push_cast
      linarith
    have hr' : ((2 : ℚ) ^ 52) ≤ roundHalfEven (x / (2 : ℚ) ^ (e - 52)) := by
      exact_mod_cast hr
    have h7 : (2 : ℚ) ^ (-5 : ℤ) ≤ (2 : ℚ) ^ e := zpow_le_zpow_right₀ (by norm_num) (by omega)
    have h8 : (4803839602528529 / 2 ^ 58 : ℚ) ≤ (2 : ℚ) ^ (-5 : ℤ) := by norm_num
    calc (4803839602528529 / 2 ^ 58 : ℚ) ≤ (2 : ℚ) ^ e := le_trans h8 h7
      _ = 2 ^ 52 * (2 : ℚ) ^ (e - 52) := two_zpow_split e
      _ ≤ _ := mul_le_mul_of_nonneg_right hr' hpos.le

/-- A difference whose rounded value reaches the double `1.0 / 60.0` lies less than half
a unit in the last place below it. -/
theorem lt_of_frameTime_le_toDouble (x : ℚ) (h : 4803839602528529 / 2 ^ 58 ≤ toDouble x) :
    4803839602528529 / 2 ^ 58 - 1 / 2 ^ 59 < x := by
  rcases le_or_lt x 0 with hx | hx
  · have := toDouble_nonpos x hx
    have : (0 : ℚ) < 4803839602528529 / 2 ^ 58 := by norm_num
    linarith
  have habs : |x| = x := abs_of_pos hx
  obtain ⟨e, he⟩ : ∃ e, Int.log 2 x = e := ⟨_, rfl⟩
  have h1 : (2 : ℚ) ^ e ≤ x := he ▸ zpow_log_le x hx
  have h2 : x < (2 : ℚ) ^ (e + 1) := he ▸ lt_zpow_log_succ x
  rcases lt_trichotomy e (-6) with hlt | heq | hgt
  · exfalso
    obtain ⟨e', he'⟩ : ∃ e', max e (-1022) = e' := ⟨_, rfl⟩
    have hs : doubleSpacing x = (2 : ℚ) ^ (e' - 52) := by
      unfold doubleSpacing
      rw [habs, he, he']
    have hpos : (0 : ℚ) < (2 : ℚ) ^ (e' - 52) := by positivity
    have hle : e ≤ e' := he' ▸ le_max_left _ _
    have hle' : e' ≤ -7 := by
      rw [← he']
      exact max_le (by omega) (by norm_num)
    have h3 : x ≤ 2 ^ 53 * (2 : ℚ) ^ (e' - 52) := by
      rw [← two_zpow_succ_split]
      exact le_trans h2.le (zpow_le_zpow_right₀ (by norm_num) (by omega))
    have hr : roundHalfEven (x / (2 : ℚ) ^ (e' - 52)) ≤ ((2 ^ 53 : ℕ) : ℤ) := by
      apply roundHalfEven_le
      rw [div_le_iff₀ hpos]
      push_cast
      exact h3
    have hr' : ((roundHalfEven (x / (2 : ℚ) ^ (e' - 52)) : ℤ) : ℚ) ≤ 2 ^ 53 := by
      exact_mod_cast hr
    have h4 : toDouble x ≤ (2 : ℚ) ^ (e' + 1) := by
      unfold toDouble
      rw [hs, two_zpow_succ_split]
      exact mul_le_mul_of_nonneg_right hr' hpos.le
    have h5 : (2 : ℚ) ^ (e' + 1) ≤ (2 : ℚ) ^ (-6 : ℤ) :=
      zpow_le_zpow_right₀ (by norm_num) (by omega)
    have h6 : (2 : ℚ) ^ (-6 : ℤ) < 4803839602528529 / 2 ^ 58 := by norm_num
    exact absurd (lt_of_lt_of_le h6 (le_trans h (le_trans h4 h5))) (lt_irrefl _)
  · subst heq
    have hs : doubleSpacing x = (2 : ℚ) ^ (-6 - 52 : ℤ) :=
      doubleSpacing_eq x (-6) (by norm_num) (by rw [habs]; exact h1) (by rw [habs]; exact h2)
    unfold toDouble at h
    rw [hs] at h
    have hr' : (4803839602528529 : ℚ) ≤ roundHalfEven (x / (2 : ℚ) ^ (-6 - 52 : ℤ)) := by
      have h3 : (4803839602528529 / 2 ^ 58 : ℚ) = 4803839602528529 * (2 : ℚ) ^ (-6 - 52 : ℤ) := by
        norm_num
      rw [h3] at h
      exact le_of_mul_le_mul_right h (by positivity)
    have hr : (4803839602528529 : ℤ) ≤ roundHalfEven (x / (2 : ℚ) ^ (-6 - 52 : ℤ)) := by
      exact_mod_cast hr'
    have h4 := lt_of_le_roundHalfEven _ _ (by norm_num) hr
    rw [lt_div_iff₀ (by positivity)] at h4
    norm_num at h4 ⊢
    linarith
  · have h7 : (2 : ℚ) ^ (-5 : ℤ) ≤ (2 : ℚ) ^ e := zpow_le_zpow_right₀ (by norm_num) (by omega)
    have h8 : (4803839602528529 / 2 ^ 58 : ℚ) - 1 / 2 ^ 59 < (2 : ℚ) ^ (-5 : ℤ) := by norm_num
    exact lt_of_lt_of_le h8 (le_trans h7 h1)

theorem frameTime_lt : Double.div 1.0 60.0 < 1 / 60 := by
  rw [frameTime_value]
  norm_num

theorem frameTime_gt : (1 : ℚ) / 60 - 1 / 2 ^ 58 < Double.div 1.0 60.0 := by
  rw [frameTime_value]
  norm_num

/-- A reading at least 1/60 past the reference passes the throttle. -/
theorem frameTime_le_sub (a b : ℚ) (h : b + 1 / 60 ≤ a) :
    Double.div 1.0 60.0 ≤ Double.sub a b := by
  rw [frameTime_value]
  apply frameTime_le_toDouble
  have : (4803839602528529 / 2 ^ 58 : ℚ) ≤ 1 / 60 := by norm_num
  linarith

/-- A reading that passes the throttle is more than 1/60 - 2^-58 past the reference. -/
theorem lt_of_frameTime_le_sub (a b : ℚ) (h : Double.div 1.0 60.0 ≤ Double.sub a b) :
    b + (1 / 60 - 1 / 2 ^ 58) < a := by
  rw [frameTime_value] at h
  have h1 := lt_of_frameTime_le_toDouble (a - b) h
  have h2 : (1 : ℚ) / 60 - 1 / 2 ^ 58 < 4803839602528529 / 2 ^ 58 - 1 / 2 ^ 59 := by norm_num
  linarith

theorem toDouble_zero : toDouble 0 = 0 := by
  simp [toDouble, roundHalfEven]

theorem toDouble_frameTime :
    toDouble (4803839602528529 / 2 ^ 58) = 4803839602528529 / 2 ^ 58 := by
  have hs : doubleSpacing (4803839602528529 / 2 ^ 58) = (2 : ℚ) ^ (-6 - 52 : ℤ) :=
    doubleSpacing_eq _ (-6) (by norm_num) (by norm_num [abs_of_pos]) (by norm_num [abs_of_pos])
  unfold toDouble
  rw [hs, roundHalfEven_of_lt _ 4803839602528529 (by norm_num) (by norm_num)]
  norm_num

/-! ## The throttle -/

theorem CoolTriangleShape.cool_afterIterations_succ (w : World) (i : Nat)
    (h : (afterIterations w i).2.inCallback = false)
    (hset : (afterIterations w i).2.callbackSet = true)
    (hclock : (afterIterations w i).2.clockReads = i + 1) :
    (afterIterations w (i + 1)).1 =
      (if Double.sub (w.glfwGetTime (i + 1)) (afterIterations w i).1 < Double.div 1.0 60.0 then (afterIterations w i).1
       else w.glfwGetTime (i + 1)) ∧
    (drawCalls (afterIterations w (i + 1)).2.trace).length =
      (drawCalls (afterIterations w i).2.trace).length +
        (if Double.sub (w.glfwGetTime (i + 1)) (afterIterations w i).1 < Double.div 1.0 60.0 then 0 else 1) ∧
    (afterIterations w (i + 1)).2.inCallback = false ∧
    (afterIterations w (i + 1)).2.callbackSet = true ∧
    (afterIterations w (i + 1)).2.clockReads = i + 2 ∧
    (afterIterations w (i + 1)).2.closeChecks = (afterIterations w i).2.closeChecks + 1 := by
  obtain ⟨b1, b2, b3, b4, b5, b6, _⟩ := CoolTriangleShape.cool_loopBody_spec w w.glfwCreateWindow 3
    (Double.div 1.0 60.0) (afterIterations w i).1
    (glfwWindowShouldClose w w.glfwCreateWindow (afterIterations w i).2).2
    (by simpa [glfwWindowShouldClose, emit] using h)
    (by simpa [glfwWindowShouldClose, emit] using hset)
  have hc : (glfwWindowShouldClose w w.glfwCreateWindow (afterIterations w i).2).2.clockReads =
      i + 1 := by simpa [glfwWindowShouldClose, emit] using hclock
  rw [hc] at b1 b2
  rw [hc] at b6
  refine ⟨b1, ?_, b3, b4, b6, ?_⟩
  · show (drawCalls (loopBody w w.glfwCreateWindow 3 (Double.div 1.0 60.0) (afterIterations w i).1
      (glfwWindowShouldClose w w.glfwCreateWindow (afterIterations w i).2).2).2.trace).length = _
    rw [b2]
    have e0 : (glfwWindowShouldClose w w.glfwCreateWindow (afterIterations w i).2).2.trace =
        (afterIterations w i).2.trace ++
          [⟨(afterIterations w i).2.inCallback, .glfwWindowShouldClose w.glfwCreateWindow,
            .bool (w.glfwWindowShouldClose (afterIterations w i).2.closeChecks)⟩] := rfl
    rw [e0]
    by_cases hlt : Double.sub (w.glfwGetTime (i + 1)) (afterIterations w i).1 < Double.div 1.0 60.0
    · simp [hlt, drawCalls, isDraw]
    · simp only [hlt, if_false, drawCalls_append, List.length_append]
      have e1 : drawCalls [(⟨(afterIterations w i).2.inCallback,
          .glfwWindowShouldClose w.glfwCreateWindow,
          .bool (w.glfwWindowShouldClose (afterIterations w i).2.closeChecks)⟩ : Event)] = [] := rfl
      have e2 : ∀ l, (drawCalls ((⟨false, .glfwGetTime, .real (w.glfwGetTime (i + 1))⟩ : Event)
          :: l)).length = (drawCalls l).length := fun l => rfl
      rw [e1, e2, drawCalls_append, drawCalls_resizeCalls]
      rfl
  · exact b5.trans rfl

theorem CoolTriangleShape.cool_afterIterations_inv (w : World) :
    ∀ i, (afterIterations w i).2.inCallback = false ∧
      (afterIterations w i).2.callbackSet = true ∧
      (afterIterations w i).2.clockReads = i + 1 ∧
      (afterIterations w i).2.closeChecks = i := by
  intro i
  induction i with
  | zero => exact ⟨rfl, rfl, rfl, rfl⟩
  | succ i ih =>
    obtain ⟨h1, h2, h3, h4⟩ := ih
    obtain ⟨_, _, a3, a4, a5, a6⟩ := CoolTriangleShape.cool_afterIterations_succ w i h1 h2 h3
    exact ⟨a3, a4, a5, by rw [a6, h4]⟩

theorem CoolTriangleShape.cool_drawsIn_iff (w : World) (i : Nat) :
    drawsIn w i ↔
      Double.div 1.0 60.0 ≤ Double.sub (w.glfwGetTime (i + 1)) (afterIterations w i).1 := by
  obtain ⟨h1, h2, h3, _⟩ := CoolTriangleShape.cool_afterIterations_inv w i
  obtain ⟨_, a2, _⟩ := CoolTriangleShape.cool_afterIterations_succ w i h1 h2 h3
  unfold drawsIn
  rw [a2]
  by_cases hlt : Double.sub (w.glfwGetTime (i + 1)) (afterIterations w i).1 < Double.div 1.0 60.0
  · rw [if_pos hlt]
    constructor
    · intro h; omega
    · intro h; exact absurd hlt (not_lt.mpr h)
  · rw [if_neg hlt]
    exact ⟨fun _ => not_lt.mp hlt, fun _ => rfl⟩

theorem CoolTriangleShape.cool_prevTime_succ (w : World) (i : Nat) :
    (afterIterations w (i + 1)).1 =
      if drawsIn w i then w.glfwGetTime (i + 1) else (afterIterations w i).1 := by
  obtain ⟨h1, h2, h3, _⟩ := CoolTriangleShape.cool_afterIterations_inv w i
  obtain ⟨a1, _⟩ := CoolTriangleShape.cool_afterIterations_succ w i h1 h2 h3
  rw [a1]
  by_cases hlt : Double.sub (w.glfwGetTime (i + 1)) (afterIterations w i).1 < Double.div 1.0 60.0
  · have : ¬ drawsIn w i := by
      rw [CoolTriangleShape.cool_drawsIn_iff]; exact not_le.mpr hlt
    rw [if_pos hlt, if_neg this]
  · have : drawsIn w i := by
      rw [CoolTriangleShape.cool_drawsIn_iff]; exact not_lt.mp hlt
    rw [if_neg hlt, if_pos this]

theorem CoolTriangleShape.cool_drawCount_succ (w : World) (i : Nat) :
    (drawCalls (afterIterations w (i + 1)).2.trace).length =
      (drawCalls (afterIterations w i).2.trace).length + (if drawsIn w i then 1 else 0) := by
  obtain ⟨h1, h2, h3, _⟩ := CoolTriangleShape.cool_afterIterations_inv w i
  obtain ⟨_, a2, _⟩ := CoolTriangleShape.cool_afterIterations_succ w i h1 h2 h3
  by_cases hd : drawsIn w i
  · rw [if_pos hd]; exact hd
  · rw [if_neg hd, a2]
    by_cases hlt : Double.sub (w.glfwGetTime (i + 1)) (afterIterations w i).1 < Double.div 1.0 60.0
    · rw [if_pos hlt]
    · exfalso
      apply hd
      unfold drawsIn
      rw [a2, if_neg hlt]

theorem CoolTriangleShape.cool_reference (w : World) :
    ∀ i, ((afterIterations w i).1 = w.glfwGetTime 0 ∧ ∀ k, k < i → ¬ drawsIn w k) ∨
      (∃ j, j < i ∧ drawsIn w j ∧ (afterIterations w i).1 = w.glfwGetTime (j + 1) ∧
        ∀ k, j < k → k < i → ¬ drawsIn w k) := by
  intro i
  induction i with
  | zero => exact Or.inl ⟨rfl, fun k hk => absurd hk (Nat.not_lt_zero k)⟩
  | succ i ih =>
    rw [CoolTriangleShape.cool_prevTime_succ]
    by_cases hd : drawsIn w i
    · rw [if_pos hd]
      exact Or.inr ⟨i, Nat.lt_succ_self i, hd, rfl, fun k h1 h2 => by omega⟩
    · rw [if_neg hd]
      rcases ih with ⟨h0, hnone⟩ | ⟨j, hj, hdj, hprev, hnone⟩
      · refine Or.inl ⟨h0, fun k hk => ?_⟩
        rcases Nat.lt_succ_iff_lt_or_eq.mp hk with h | h
        · exact hnone k h
        · rw [h]; exact hd
      · refine Or.inr ⟨j, by omega, hdj, hprev, fun k h1 h2 => ?_⟩
        rcases Nat.lt_succ_iff_lt_or_eq.mp h2 with h | h
        · exact hnone k h1 h
        · rw [h]; exact hd

theorem CoolTriangleShape.cool_last_draw (w : World) (j i : Nat) (hji : j < i)
    (hj : drawsIn w j) :
    ∃ j', j ≤ j' ∧ j' < i ∧ drawsIn w j' ∧ (afterIterations w i).1 = w.glfwGetTime (j' + 1) ∧
      ∀ k, j' < k → k < i → ¬ drawsIn w k := by
  rcases CoolTriangleShape.cool_reference w i with ⟨_, hnone⟩ | ⟨j', hj', hd, hprev, hnone⟩
  · exact absurd hj (hnone j hji)
  · refine ⟨j', ?_, hj', hd, hprev, hnone⟩
    by_contra hlt
    exact hnone j (by omega) hji hj

theorem CoolTriangleShape.cool_slow_clock (w : World)
    (hslow : ∀ k, w.glfwGetTime (k + 1) - w.glfwGetTime k ≤ 1 / 60 - 1 / 2 ^ 58) :
    ¬ drawsIn w 0 ∧ ∀ i, ¬ (drawsIn w i ∧ drawsIn w (i + 1)) := by
  constructor
  · intro h
    have h0 : (afterIterations w 0).1 = w.glfwGetTime 0 := rfl
    rw [CoolTriangleShape.cool_drawsIn_iff, h0] at h
    have := lt_of_frameTime_le_sub _ _ h
    have := hslow 0
    linarith
  · rintro i ⟨ha, hb⟩
    have hp : (afterIterations w (i + 1)).1 = w.glfwGetTime (i + 1) := by
      rw [CoolTriangleShape.cool_prevTime_succ, if_pos ha]
    rw [CoolTriangleShape.cool_drawsIn_iff, hp] at hb
    have := lt_of_frameTime_le_sub _ _ hb
    have := hslow (i + 1)
    linarith

theorem CoolTriangleShape.cool_slow_clock_count (w : World)
    (hslow : ∀ k, w.glfwGetTime (k + 1) - w.glfwGetTime k ≤ 1 / 60 - 1 / 2 ^ 58) :
    ∀ n, 2 * (drawCalls (afterIterations w n).2.trace).length ≤ n ∧
      (drawsIn w n → 2 * (drawCalls (afterIterations w n).2.trace).length + 1 ≤ n) := by
  obtain ⟨h0, hsucc⟩ := CoolTriangleShape.cool_slow_clock w hslow
  intro n
  induction n with
  | zero => exact ⟨by change 2 * 0 ≤ 0; omega, fun h => absurd h h0⟩
  | succ n ih =>
    obtain ⟨i1, i2⟩ := ih
    rw [CoolTriangleShape.cool_drawCount_succ]
    by_cases hd : drawsIn w n
    · have := i2 hd
      rw [if_pos hd]
      exact ⟨by omega, fun h => absurd ⟨hd, h⟩ (hsucc n)⟩
    · rw [if_neg hd]
      exact ⟨by omega, fun _ => by omega⟩

theorem CoolTriangleShape.cool_fixed_clock (w : World) (t0 : ℚ)
    (hclock : ∀ k, w.glfwGetTime k = t0 + (k : ℚ) / 120) :
    ∀ m, (afterIterations w (2 * m)).1 = w.glfwGetTime (2 * m) ∧ ¬ drawsIn w (2 * m) ∧
      (afterIterations w (2 * m + 1)).1 = w.glfwGetTime (2 * m) ∧ drawsIn w (2 * m + 1) := by
  have hskip : ∀ k, (afterIterations w k).1 = w.glfwGetTime k → ¬ drawsIn w k := by
    intro k hk h
    rw [CoolTriangleShape.cool_drawsIn_iff, hk] at h
    have := lt_of_frameTime_le_sub _ _ h
    rw [hclock, hclock] at this
    push_cast at this
    norm_num at this
    linarith
  have hdraw : ∀ k, (afterIterations w (k + 1)).1 = w.glfwGetTime k → drawsIn w (k + 1) := by
    intro k hk
    rw [CoolTriangleShape.cool_drawsIn_iff, hk]
    apply frameTime_le_sub
    rw [hclock, hclock]
    push_cast
    linarith
  intro m
  induction m with
  | zero =>
    have h0 : (afterIterations w 0).1 = w.glfwGetTime 0 := rfl
    have hd0 : ¬ drawsIn w 0 := hskip 0 h0
    have h1 : (afterIterations w 1).1 = w.glfwGetTime 0 := by
      rw [CoolTriangleShape.cool_prevTime_succ, if_neg hd0, h0]
    exact ⟨h0, hd0, h1, hdraw 0 h1⟩
  | succ m ih =>
    obtain ⟨_, _, h1, hd1⟩ := ih
    have e : 2 * (m + 1) = 2 * m + 1 + 1 := by ring
    have h2 : (afterIterations w (2 * (m + 1))).1 = w.glfwGetTime (2 * (m + 1)) := by
      rw [e, CoolTriangleShape.cool_prevTime_succ, if_pos hd1]
    have hd2 : ¬ drawsIn w (2 * (m + 1)) := hskip _ h2
    have h3 : (afterIterations w (2 * (m + 1) + 1)).1 = w.glfwGetTime (2 * (m + 1)) := by
      rw [CoolTriangleShape.cool_prevTime_succ, if_neg hd2, h2]
    exact ⟨h2, hd2, h3, hdraw _ h3⟩

theorem CoolTriangleShape.cool_fixed_clock_parity (w : World) (t0 : ℚ)
    (hclock : ∀ k, w.glfwGetTime k = t0 + (k : ℚ) / 120) (i : Nat) :
    drawsIn w i ↔ i % 2 = 1 := by
  obtain ⟨_, hd0, _, hd1⟩ := CoolTriangleShape.cool_fixed_clock w t0 hclock (i / 2)
  rcases Nat.mod_two_eq_zero_or_one i with h | h
  · have e : i = 2 * (i / 2) := by omega
    rw [← e] at hd0
    simp [hd0, h]
  · have e : i = 2 * (i / 2) + 1 := by omega
    rw [← e] at hd1
    simp [hd1, h]

theorem CoolTriangleShape.cool_fixed_clock_count (w : World) (t0 : ℚ)
    (hclock : ∀ k, w.glfwGetTime k = t0 + (k : ℚ) / 120) :
    ∀ n, (drawCalls (afterIterations w n).2.trace).length = n / 2 := by
  intro n
  induction n with
  | zero => rfl
  | succ n ih =>
    rw [CoolTriangleShape.cool_drawCount_succ, ih]
    by_cases hd : drawsIn w n
    · have := (CoolTriangleShape.cool_fixed_clock_parity w t0 hclock n).mp hd
      rw [if_pos hd]; omega
    · have : ¬ n % 2 = 1 := fun h =>
        hd ((CoolTriangleShape.cool_fixed_clock_parity w t0 hclock n).mpr h)
      rw [if_neg hd]; omega

theorem CoolTriangleShape.cool_renderLoop_iterations (w : World) :
    ∀ n fuel i, (∀ j, j < n → w.glfwWindowShouldClose (i + j) = false) →
      w.glfwWindowShouldClose (i + n) = true → n < fuel →
      renderLoop w w.glfwCreateWindow 3 (Double.div 1.0 60.0) fuel (afterIterations w i).1
          (afterIterations w i).2 =
        (true, (glfwWindowShouldClose w w.glfwCreateWindow (afterIterations w (i + n)).2).2) := by
  intro n
  induction n with
  | zero =>
    intro fuel i _ hn hfuel
    obtain ⟨fuel, rfl⟩ : ∃ k, fuel = k + 1 := ⟨fuel - 1, by omega⟩
    obtain ⟨_, _, _, hcc⟩ := CoolTriangleShape.cool_afterIterations_inv w i
    simp only [Nat.add_zero] at hn ⊢
    simp [renderLoop, glfwWindowShouldClose, hcc, hn]
  | succ n ih =>
    intro fuel i hfirst hn hfuel
    obtain ⟨fuel, rfl⟩ : ∃ k, fuel = k + 1 := ⟨fuel - 1, by omega⟩
    obtain ⟨_, _, _, hcc⟩ := CoolTriangleShape.cool_afterIterations_inv w i
    have h0 : w.glfwWindowShouldClose i = false := by simpa using hfirst 0 (by omega)
    have hstep : renderLoop w w.glfwCreateWindow 3 (Double.div 1.0 60.0) (fuel + 1)
        (afterIterations w i).1 (afterIterations w i).2 =
        renderLoop w w.glfwCreateWindow 3 (Double.div 1.0 60.0) fuel (afterIterations w (i + 1)).1
          (afterIterations w (i + 1)).2 := by
      simp [renderLoop, glfwWindowShouldClose, hcc, h0, afterIterations]
    rw [hstep, ih fuel (i + 1)
      (fun j hj => by rw [← hfirst (j + 1) (by omega)]; congr 1; omega)
      (by rw [← hn]; congr 1; omega) (by omega)]
    have e : i + 1 + n = i + (n + 1) := by omega
    rw [e]

theorem CoolTriangleShape.cool_main_iterations (w : World) (fuel n : Nat)
    (h1 : w.glfwInit = true) (h2 : w.glfwCreateWindow ≠ 0) (h3 : w.gladLoad = true)
    (hfirst : ∀ i, i < n → w.glfwWindowShouldClose i = false)
    (hn : w.glfwWindowShouldClose n = true) (hfuel : n < fuel) :
    (main w fuel State.initial).2.trace =
      (afterIterations w n).2.trace ++ closeCheck w.glfwCreateWindow true :: cleanupCalls w := by
  have hr := CoolTriangleShape.cool_renderLoop_iterations w n fuel 0
    (by simpa using hfirst) (by simpa using hn) hfuel
  obtain ⟨i1, _, _, i4⟩ := CoolTriangleShape.cool_afterIterations_inv w n
  have h0 : afterIterations w 0 = (w.glfwGetTime 0, setupState w) := rfl
  rw [h0, Nat.zero_add] at hr
  rw [CoolTriangleShape.cool_main_loop w fuel h1 h2 h3, hr]
  simp [glfwTerminate, glfwDestroyWindow, glDeleteVertexArrays, glDeleteBuffers, spdlog.info,
    call, emit, glfwWindowShouldClose, i1, i4, hn, cleanupCalls, own, closeCheck]

theorem steadyWorld_slow (k : Nat) :
    steadyWorld.glfwGetTime (k + 1) - steadyWorld.glfwGetTime k ≤ 1 / 60 - 1 / 2 ^ 58 := by
  show ((k + 1 : ℕ) : ℚ) / 128 - (k : ℚ) / 128 ≤ 1 / 60 - 1 / 2 ^ 58
  have h : ((k + 1 : ℕ) : ℚ) / 128 - (k : ℚ) / 128 = 1 / 128 := by
    push_cast
    ring
  rw [h]
  norm_num

/-- C4: in the frame-throttled program, with clock readings as exact rationals and for
every sequence of readings (in particular every non-decreasing one): a run whose
initialization succeeds and whose close check first answers true on its (n+1)-th
evaluation consists of the first n iterations, that close check and the cleanup. The
frame time is the double `1.0 / 60.0`, which is 4803839602528529 / 2^58, below 1/60 by
less than 2^-58. Iteration i, which takes reading i+1, draws exactly when the double
difference between that reading and the reference reading is at least the frame time,
the reference being the reading taken just before the loop (when no earlier iteration
drew) or the reading of the last earlier iteration that drew; so it draws whenever its
reading is at least 1/60 past the reference, and only when it is more than 1/60 - 2^-58
past it. Two consecutive draws are therefore more than 1/60 - 2^-58 apart, and with a
non-decreasing clock any two draws are. With a clock that advances by at most
1/60 - 2^-58 per reading the first iteration does not draw, no two successive iterations
both draw and n iterations (n readings in the loop) give at most n / 2 draw calls; with
a clock that advances by exactly 1/120 per reading exactly the iterations with odd
number draw and n iterations give n / 2 draw calls, at most one per two readings. -/
theorem throttle_contract (w : World) :
    (∀ fuel n, w.glfwInit = true → w.glfwCreateWindow ≠ 0 → w.gladLoad = true →
      (∀ i, i < n → w.glfwWindowShouldClose i = false) →
      w.glfwWindowShouldClose n = true → n < fuel →
      (CoolTriangleShape.main w fuel State.initial).2.trace =
        (CoolTriangleShape.afterIterations w n).2.trace ++
          closeCheck w.glfwCreateWindow true :: CoolTriangleShape.cleanupCalls w) ∧
    (Double.div 1.0 60.0 = 4803839602528529 / 2 ^ 58 ∧
      (1 : ℚ) / 60 - 1 / 2 ^ 58 < Double.div 1.0 60.0 ∧ Double.div 1.0 60.0 < 1 / 60) ∧
    (∀ i, (∀ k, k < i → ¬ CoolTriangleShape.drawsIn w k) →
      (CoolTriangleShape.drawsIn w i ↔
        Double.div 1.0 60.0 ≤ Double.sub (w.glfwGetTime (i + 1)) (w.glfwGetTime 0)) ∧
      (w.glfwGetTime 0 + 1 / 60 ≤ w.glfwGetTime (i + 1) → CoolTriangleShape.drawsIn w i) ∧
      (CoolTriangleShape.drawsIn w i →
        w.glfwGetTime 0 + (1 / 60 - 1 / 2 ^ 58) < w.glfwGetTime (i + 1))) ∧
    (∀ j i, j < i → CoolTriangleShape.drawsIn w j →
      (∀ k, j < k → k < i → ¬ CoolTriangleShape.drawsIn w k) →
      (CoolTriangleShape.drawsIn w i ↔
        Double.div 1.0 60.0 ≤ Double.sub (w.glfwGetTime (i + 1)) (w.glfwGetTime (j + 1))) ∧
      (w.glfwGetTime (j + 1) + 1 / 60 ≤ w.glfwGetTime (i + 1) →
        CoolTriangleShape.drawsIn w i) ∧
      (CoolTriangleShape.drawsIn w i →
        w.glfwGetTime (j + 1) + (1 / 60 - 1 / 2 ^ 58) < w.glfwGetTime (i + 1))) ∧
    (Monotone w.glfwGetTime → ∀ j i, j < i → CoolTriangleShape.drawsIn w j →
      CoolTriangleShape.drawsIn w i →
      w.glfwGetTime (j + 1) + (1 / 60 - 1 / 2 ^ 58) < w.glfwGetTime (i + 1)) ∧
    ((∀ k, w.glfwGetTime (k + 1) - w.glfwGetTime k ≤ 1 / 60 - 1 / 2 ^ 58) →
      ¬ CoolTriangleShape.drawsIn w 0 ∧
      (∀ i, ¬ (CoolTriangleShape.drawsIn w i ∧ CoolTriangleShape.drawsIn w (i + 1))) ∧
      (∀ n, 2 * (drawCalls (CoolTriangleShape.afterIterations w n).2.trace).length ≤ n)) ∧
    (∀ t0 : ℚ, (∀ k, w.glfwGetTime k = t0 + (k : ℚ) / 120) →
      (∀ i, CoolTriangleShape.drawsIn w i ↔ i % 2 = 1) ∧
      (∀ i, ¬ (CoolTriangleShape.drawsIn w i ∧ CoolTriangleShape.drawsIn w (i + 1))) ∧
      (∀ n, (drawCalls (CoolTriangleShape.afterIterations w n).2.trace).length = n / 2) ∧
      (∀ n, 2 * (drawCalls (CoolTriangleShape.afterIterations w n).2.trace).length ≤ n)) := by
  refine ⟨?_, ⟨frameTime_value, frameTime_gt, frameTime_lt⟩, ?_, ?_, ?_, ?_, ?_⟩
  · intro fuel n h1 h2 h3 hfirst hn hfuel
    exact CoolTriangleShape.cool_main_iterations w fuel n h1 h2 h3 hfirst hn hfuel
  · intro i hnone
    have hp : (CoolTriangleShape.afterIterations w i).1 = w.glfwGetTime 0 := by
      rcases CoolTriangleShape.cool_reference w i with ⟨h0, _⟩ | ⟨j, hj, hd, _, _⟩
      · exact h0
      · exact absurd hd (hnone j hj)
    rw [CoolTriangleShape.cool_drawsIn_iff, hp]
    exact ⟨Iff.rfl, frameTime_le_sub _ _, lt_of_frameTime_le_sub _ _⟩
  · intro j i hji hdj hnone
    have hp : (CoolTriangleShape.afterIterations w i).1 = w.glfwGetTime (j + 1) := by
      obtain ⟨j', hle, hlt, hd', hprev, _⟩ := CoolTriangleShape.cool_last_draw w j i hji hdj
      have : j' = j := by
        by_contra hne
        exact hnone j' (by omega) hlt hd'
      rw [hprev, this]
    rw [CoolTriangleShape.cool_drawsIn_iff, hp]
    exact ⟨Iff.rfl, frameTime_le_sub _ _, lt_of_frameTime_le_sub _ _⟩
  · intro hmono j i hji hdj hdi
    obtain ⟨j', hle, _, _, hprev, _⟩ := CoolTriangleShape.cool_last_draw w j i hji hdj
    have h1 := (CoolTriangleShape.cool_drawsIn_iff w i).mp hdi
    have h2 : w.glfwGetTime (j + 1) ≤ w.glfwGetTime (j' + 1) := hmono (by omega)
    rw [hprev] at h1
    have := lt_of_frameTime_le_sub _ _ h1
    linarith
  · intro hslow
    obtain ⟨h0, hsucc⟩ := CoolTriangleShape.cool_slow_clock w hslow
    exact ⟨h0, hsucc, fun n => (CoolTriangleShape.cool_slow_clock_count w hslow n).1⟩
  · intro t0 hclock
    have hpar := CoolTriangleShape.cool_fixed_clock_parity w t0 hclock
    have hcount := CoolTriangleShape.cool_fixed_clock_count w t0 hclock
    refine ⟨hpar, ?_, hcount, ?_⟩
    · rintro i ⟨ha, hb⟩
      have := (hpar i).mp ha
      have := (hpar (i + 1)).mp hb
      omega
    · intro n
      rw [hcount]
      omega

theorem throttle_contract_witness :
    (¬ CoolTriangleShape.drawsIn steadyWorld 0 ∧
      2 * (drawCalls (CoolTriangleShape.afterIterations steadyWorld 5).2.trace).length ≤ 5) ∧
    CoolTriangleShape.drawsIn sampleWorld 1 ∧
    (drawCalls (CoolTriangleShape.afterIterations sampleWorld 5).2.trace).length = 5 / 2 :=
  ⟨⟨((throttle_contract steadyWorld).2.2.2.2.2.1 steadyWorld_slow).1,
    ((throttle_contract steadyWorld).2.2.2.2.2.1 steadyWorld_slow).2.2 5⟩,
   (((throttle_contract sampleWorld).2.2.2.2.2.2 0 (fun k => by simp [sampleWorld])).1 1).mpr rfl,
   ((throttle_contract sampleWorld).2.2.2.2.2.2 0 (fun k => by simp [sampleWorld])).2.2.1 5⟩

/-- The boundary of the throttle: the clock reads 0 before the loop and the double
`1.0 / 60.0` in the first iteration, both readings are doubles and the sequence of
readings is non-decreasing. The first iteration draws, the run has one draw call, and
the reading is less than 1/60 past the reading taken before the loop. -/
theorem throttle_draws_below_interval :
    toDouble (thresholdWorld.glfwGetTime 0) = thresholdWorld.glfwGetTime 0 ∧
    toDouble (thresholdWorld.glfwGetTime 1) = thresholdWorld.glfwGetTime 1 ∧
    Monotone thresholdWorld.glfwGetTime ∧
    CoolTriangleShape.drawsIn thresholdWorld 0 ∧
    (drawCalls (CoolTriangleShape.main thresholdWorld 2 State.initial).2.trace).length = 1 ∧
    ¬ (thresholdWorld.glfwGetTime 0 + 1 / 60 ≤ thresholdWorld.glfwGetTime 1) := by
  have hd : CoolTriangleShape.drawsIn thresholdWorld 0 := by
    rw [CoolTriangleShape.cool_drawsIn_iff, frameTime_value]
    apply frameTime_le_toDouble
    change (4803839602528529 / 2 ^ 58 : ℚ) ≤
      thresholdWorld.glfwGetTime 1 - thresholdWorld.glfwGetTime 0
    simp [thresholdWorld]
  refine ⟨?_, ?_, ?_, hd, ?_, ?_⟩
  · simpa [thresholdWorld] using toDouble_zero
  · simpa [thresholdWorld] using toDouble_frameTime
  · apply monotone_nat_of_le_succ
    intro k
    by_cases hk : k = 0
    · subst hk
      simp [thresholdWorld]
      positivity
    · simp [thresholdWorld, hk]
  · rw [CoolTriangleShape.cool_main_iterations thresholdWorld 2 1 rfl (by decide) rfl
      (fun i hi => by
        have : i = 0 := by omega
        subst this
        rfl) rfl (by omega)]
    rw [drawCalls_append, List.length_append, hd]
    rfl
  · simp [thresholdWorld]
    norm_num

end OpenGLExamples

namespace OpenGLExamples

/-! ## Graphics calls only between loading and window destruction -/

theorem contextCurrent_append (a b : List Event) :
    contextCurrent (a ++ b) = (contextCurrent a || contextCurrent b) := by
  simp [contextCurrent, List.any_append]

theorem loaderSucceeded_append (a b : List Event) :
    loaderSucceeded (a ++ b) = (loaderSucceeded a || loaderSucceeded b) := by
  simp [loaderSucceeded, List.any_append]

theorem windowDestroyed_append (a b : List Event) :
    windowDestroyed (a ++ b) = (windowDestroyed a || windowDestroyed b) := by
  simp [windowDestroyed, List.any_append]

theorem loopEntered_append (a b : List Event) :
    loopEntered (a ++ b) = (loopEntered a || loopEntered b) := by
  simp [loopEntered, List.any_append]

theorem insidePoll_append_callback (seen : List Event) (e : Event) (h : e.fromCallback = true) :
    insidePoll (seen ++ [e]) = insidePoll seen := by
  simp [insidePoll, List.reverse_append, List.dropWhile_cons, h]

theorem insidePoll_append_poll (seen l : List Event) :
    insidePoll (seen ++ (l ++ [own .glfwPollEvents])) = true := by
  simp [insidePoll, List.reverse_append, List.dropWhile_cons, own]

theorem renderReady_append (seen l : List Event) (h : renderReady seen)
    (hl : windowDestroyed l = false) : renderReady (seen ++ l) := by
  obtain ⟨h1, h2, h3⟩ := h
  refine ⟨?_, ?_, ?_⟩
  · rw [contextCurrent_append, h1]; rfl
  · rw [loaderSucceeded_append, h2]; rfl
  · rw [windowDestroyed_append, h3, hl]; rfl

theorem gated_append (a : List Event) :
    ∀ (seen b : List Event), gated seen (a ++ b) = (gated seen a && gated (seen ++ a) b) := by
  induction a with
  | nil => intro seen b; simp [gated]
  | cons x xs ih =>
    intro seen b
    have e : seen ++ [x] ++ xs = seen ++ x :: xs := by simp
    rw [List.cons_append, gated, gated, ih, e, Bool.and_assoc]

theorem gated_sound (rest : List Event) :
    ∀ (seen pre : List Event) (e : Event) (post : List Event),
      gated seen rest = true → rest = pre ++ e :: post → admissible (seen ++ pre) e := by
  induction rest with
  | nil => intro seen pre e post _ h; simp at h
  | cons x xs ih =>
    intro seen pre e post hg h
    simp only [gated, Bool.and_eq_true, decide_eq_true_eq] at hg
    cases pre with
    | nil =>
      simp only [List.nil_append, List.cons.injEq] at h
      rw [List.append_nil, ← h.1]
      exact hg.1
    | cons y ys =>
      simp only [List.cons_append, List.cons.injEq] at h
      have := ih (seen ++ [x]) ys e post hg.2 h.2
      rw [← h.1]
      simpa using this

theorem gated_plain (l : List Event)
    (hl : l.all (fun e => !isGraphicsCall e.call && !e.fromCallback) = true) :
    ∀ seen, gated seen l = true := by
  induction l with
  | nil => intro seen; rfl
  | cons x xs ih =>
    intro seen
    simp only [List.all_cons, Bool.and_eq_true, Bool.not_eq_true'] at hl
    obtain ⟨⟨h1, h2⟩, h3⟩ := hl
    simp only [gated, Bool.and_eq_true, decide_eq_true_eq]
    exact ⟨⟨by simp [h1], by simp [h2]⟩, ih h3 _⟩

theorem windowDestroyed_cons (x : Event) (xs : List Event)
    (h : windowDestroyed (x :: xs) = false) :
    windowDestroyed [x] = false ∧ windowDestroyed xs = false := by
  have := windowDestroyed_append [x] xs
  rw [List.singleton_append, h] at this
  cases h1 : windowDestroyed [x] <;> cases h2 : windowDestroyed xs <;>
    rw [h1, h2] at this <;> first | exact ⟨rfl, rfl⟩ | exact absurd this (by decide)

theorem gated_own (l : List Event) (hown : l.all (fun e => !e.fromCallback) = true) :
    ∀ seen, renderReady seen → windowDestroyed l = false → gated seen l = true := by
  induction l with
  | nil => intro seen _ _; rfl
  | cons x xs ih =>
    intro seen h hl
    simp only [List.all_cons, Bool.and_eq_true, Bool.not_eq_true'] at hown
    obtain ⟨d1, d2⟩ := windowDestroyed_cons x xs hl
    simp only [gated, Bool.and_eq_true, decide_eq_true_eq]
    refine ⟨⟨fun _ => h, by simp [hown.1]⟩, ?_⟩
    exact ih hown.2 _ (renderReady_append seen [x] h d1) d2

theorem gated_resizeCalls :
    ∀ (evs : List (Int × Int)) (seen : List Event), renderReady seen → loopEntered seen = true →
      loopLeft seen = false → insidePoll seen = true →
      gated seen (resizeCalls evs) = true ∧ insidePoll (seen ++ resizeCalls evs) = true := by
  intro evs
  induction evs with
  | nil => intro seen _ _ _ hp; exact ⟨rfl, by simpa [resizeCalls] using hp⟩
  | cons x xs ih =>
    intro seen h he hleft hp
    have r1 := renderReady_append seen [⟨true, .glViewport 0 0 x.1 x.2, .void⟩] h rfl
    have e1 : loopEntered (seen ++ [⟨true, .glViewport 0 0 x.1 x.2, .void⟩]) = true := by
      rw [loopEntered_append, he]; rfl
    have l1 : loopLeft (seen ++ [⟨true, .glViewport 0 0 x.1 x.2, .void⟩]) = false := by
      rw [loopLeft_append, hleft]; rfl
    have p1 : insidePoll (seen ++ [⟨true, .glViewport 0 0 x.1 x.2, .void⟩]) = true := by
      rw [insidePoll_append_callback _ _ rfl, hp]
    have r2 := renderReady_append _ [⟨true, .spdlog_info resizeMessage, .void⟩] r1 rfl
    have e2 : loopEntered (seen ++ [⟨true, .glViewport 0 0 x.1 x.2, .void⟩] ++
        [⟨true, .spdlog_info resizeMessage, .void⟩]) = true := by
      rw [loopEntered_append, e1]; rfl
    have l2 : loopLeft (seen ++ [⟨true, .glViewport 0 0 x.1 x.2, .void⟩] ++
        [⟨true, .spdlog_info resizeMessage, .void⟩]) = false := by
      rw [loopLeft_append, l1]; rfl
    have p2 : insidePoll (seen ++ [⟨true, .glViewport 0 0 x.1 x.2, .void⟩] ++
        [⟨true, .spdlog_info resizeMessage, .void⟩]) = true := by
      rw [insidePoll_append_callback _ _ rfl, p1]
    obtain ⟨g, p⟩ := ih _ r2 e2 l2 p2
    constructor
    · simp only [resizeCalls, gated, Bool.and_eq_true, decide_eq_true_eq]
      exact ⟨⟨fun _ => h, fun _ => ⟨hp, he, hleft⟩⟩, ⟨fun _ => r1, fun _ => ⟨p1, e1, l1⟩⟩, g⟩
    · simpa [resizeCalls] using p

theorem windowDestroyed_resizeCalls : ∀ evs, windowDestroyed (resizeCalls evs) = false := by
  intro evs
  induction evs with
  | nil => rfl
  | cons x xs ih =>
    have : windowDestroyed (resizeCalls (x :: xs)) = windowDestroyed (resizeCalls xs) := rfl
    rw [this, ih]

theorem windowDestroyed_of_loopCall (l : List Event) (hl : ∀ e ∈ l, loopCall e.call = true) :
    windowDestroyed l = false := by
  induction l with
  | nil => rfl
  | cons x xs ih =>
    have hx := hl x (List.mem_cons_self _ _)
    have h1 : windowDestroyed [x] = false := by
      obtain ⟨cb, c, r⟩ := x
      cases c <;> first | rfl | simp [loopCall] at hx
    have := windowDestroyed_append [x] xs
    rw [List.singleton_append, h1, ih (fun e he => hl e (List.mem_cons_of_mem _ he))] at this
    exact this

theorem gated_iteration (w : World) (window : Nat) (body : List Event) (p : Nat)
    (lead : List Event)
    (hlead : lead.all (fun e => !isGraphicsCall e.call && !e.fromCallback) = true)
    (hlead_d : windowDestroyed lead = false) (hlead_l : loopLeft lead = false)
    (hlead_e : loopEntered lead = true)
    (hown : (body ++ [own .glfwPollEvents]).all (fun e => !e.fromCallback) = true)
    (hd : windowDestroyed (body ++ [own .glfwPollEvents]) = false)
    (hleft : loopLeft (body ++ [own .glfwPollEvents]) = false)
    (seen : List Event) (h : renderReady seen) (hl : loopLeft seen = false) :
    gated seen (lead ++ ((body ++ [own .glfwPollEvents]) ++ resizeCalls (w.resizeEvents p))) =
      true ∧
    renderReady (seen ++ (lead ++ ((body ++ [own .glfwPollEvents]) ++
      resizeCalls (w.resizeEvents p)))) ∧
    loopLeft (seen ++ (lead ++ ((body ++ [own .glfwPollEvents]) ++
      resizeCalls (w.resizeEvents p)))) = false := by
  have r1 := renderReady_append seen lead h hlead_d
  have l1 : loopLeft (seen ++ lead) = false := by rw [loopLeft_append, hl, hlead_l]; rfl
  have e1 : loopEntered (seen ++ lead) = true := by
    rw [loopEntered_append, hlead_e]; simp
  have r2 := renderReady_append _ (body ++ [own .glfwPollEvents]) r1 hd
  have l2 : loopLeft (seen ++ lead ++ (body ++ [own .glfwPollEvents])) = false := by
    rw [loopLeft_append, l1, hleft]; rfl
  have e2 : loopEntered (seen ++ lead ++ (body ++ [own .glfwPollEvents])) = true := by
    rw [loopEntered_append, e1]; rfl
  have p2 : insidePoll (seen ++ lead ++ (body ++ [own .glfwPollEvents])) = true :=
    insidePoll_append_poll _ _
  obtain ⟨g3, _⟩ := gated_resizeCalls (w.resizeEvents p) _ r2 e2 l2 p2
  have r3 := renderReady_append _ (resizeCalls (w.resizeEvents p)) r2
    (windowDestroyed_resizeCalls _)
  have l3 : loopLeft (seen ++ lead ++ (body ++ [own .glfwPollEvents]) ++
      resizeCalls (w.resizeEvents p)) = false := by
    rw [loopLeft_append, l2, loopLeft_resizeCalls]; rfl
  refine ⟨?_, ?_, ?_⟩
  · rw [gated_append, gated_append, gated_plain lead hlead, gated_own _ hown _ r1 hd, g3]
    rfl
  · simpa [List.append_assoc] using r3
  · simpa [List.append_assoc] using l3

theorem gated_plainLoopCalls (w : World) (window : Nat) (body : List Event)
    (hown : (body ++ [own .glfwPollEvents]).all (fun e => !e.fromCallback) = true)
    (hd : windowDestroyed (body ++ [own .glfwPollEvents]) = false)
    (hleft : loopLeft (body ++ [own .glfwPollEvents]) = false) :
    ∀ fuel c p seen, renderReady seen → loopLeft seen = false →
      gated seen (plainLoopCalls w window (body ++ [own .glfwPollEvents]) fuel c p) = true := by
  intro fuel
  induction fuel with
  | zero => intro c p seen _ _; rfl
  | succ fuel ih =>
    intro c p seen h hl
    by_cases hc : w.glfwWindowShouldClose c = true
    · simp only [plainLoopCalls, hc, if_true]
      exact gated_plain [closeCheck window true] rfl _
    · obtain ⟨g, r, l⟩ := gated_iteration w window body p [closeCheck window false] rfl rfl rfl rfl
        hown hd hleft seen h hl
      have e : plainLoopCalls w window (body ++ [own .glfwPollEvents]) (fuel + 1) c p =
          ([closeCheck window false] ++ ((body ++ [own .glfwPollEvents]) ++
            resizeCalls (w.resizeEvents p))) ++
            plainLoopCalls w window (body ++ [own .glfwPollEvents]) fuel (c + 1) (p + 1) := by
        simp [plainLoopCalls, hc]
      rw [e, gated_append, g, ih (c + 1) (p + 1) _ r l]
      rfl

theorem gated_throttledLoopCalls (w : World) (window : Nat) (body : List Event) (frameTime : ℚ)
    (hown : (body ++ [own .glfwPollEvents]).all (fun e => !e.fromCallback) = true)
    (hd : windowDestroyed (body ++ [own .glfwPollEvents]) = false)
    (hleft : loopLeft (body ++ [own .glfwPollEvents]) = false) :
    ∀ fuel c t p prevTime seen, renderReady seen → loopLeft seen = false →
      gated seen (throttledLoopCalls w window (body ++ [own .glfwPollEvents]) frameTime
        fuel c t p prevTime) = true := by
  intro fuel
  induction fuel with
  | zero => intro c t p prevTime seen _ _; rfl
  | succ fuel ih =>
    intro c t p prevTime seen h hl
    by_cases hc : w.glfwWindowShouldClose c = true
    · simp only [throttledLoopCalls, hc, if_true]
      exact gated_plain [closeCheck window true] rfl _
    · by_cases hlt : Double.sub (w.glfwGetTime t) prevTime < frameTime
      · have e : throttledLoopCalls w window (body ++ [own .glfwPollEvents]) frameTime
            (fuel + 1) c t p prevTime =
            [closeCheck window false, ⟨false, .glfwGetTime, .real (w.glfwGetTime t)⟩] ++
              throttledLoopCalls w window (body ++ [own .glfwPollEvents]) frameTime
                fuel (c + 1) (t + 1) p prevTime := by
          simp [throttledLoopCalls, hc, hlt]
        have r := renderReady_append seen
          [closeCheck window false, ⟨false, .glfwGetTime, .real (w.glfwGetTime t)⟩] h rfl
        have l : loopLeft (seen ++
            [closeCheck window false, ⟨false, .glfwGetTime, .real (w.glfwGetTime t)⟩]) =
            false := by
          rw [loopLeft_append, hl]; rfl
        rw [e, gated_append, gated_plain
          [closeCheck window false, ⟨false, .glfwGetTime, .real (w.glfwGetTime t)⟩] rfl,
          ih (c + 1) (t + 1) p prevTime _ r l]
        rfl
      · obtain ⟨g, r, l⟩ := gated_iteration w window body p
          [closeCheck window false, ⟨false, .glfwGetTime, .real (w.glfwGetTime t)⟩]
          rfl rfl rfl rfl hown hd hleft seen h hl
        have e : throttledLoopCalls w window (body ++ [own .glfwPollEvents]) frameTime
            (fuel + 1) c t p prevTime =
            ([closeCheck window false, ⟨false, .glfwGetTime, .real (w.glfwGetTime t)⟩] ++
              ((body ++ [own .glfwPollEvents]) ++ resizeCalls (w.resizeEvents p))) ++
              throttledLoopCalls w window (body ++ [own .glfwPollEvents]) frameTime
                fuel (c + 1) (t + 1) (p + 1) (w.glfwGetTime t) := by
          simp [throttledLoopCalls, hc, hlt]
        rw [e, gated_append, g, ih (c + 1) (t + 1) (p + 1) (w.glfwGetTime t) _ r l]
        rfl

theorem gated_run (setup loop cleanup T : List Event)
    (h1 : gated [] (setup.take 12) = true)
    (h2 : renderReady (setup.take 12))
    (h3 : (setup.drop 12).all (fun e => !e.fromCallback) = true)
    (h4 : windowDestroyed (setup.drop 12) = false)
    (h5 : loopLeft setup = false)
    (h6 : ∀ seen, renderReady seen → loopLeft seen = false → gated seen loop = true)
    (h7 : ∀ e ∈ loop, loopCall e.call = true)
    (h8 : ∀ seen, renderReady seen → gated seen cleanup = true)
    (hT : T = [] ∨ T = cleanup) :
    gated [] (setup ++ (loop ++ T)) = true := by
  have hs : setup = setup.take 12 ++ setup.drop 12 := (List.take_append_drop 12 setup).symm
  have r1 : renderReady setup := by
    rw [hs]; exact renderReady_append _ _ h2 h4
  have g1 : gated [] setup = true := by
    rw [hs, gated_append, h1, List.nil_append, gated_own _ h3 _ h2 h4]; rfl
  have r2 : renderReady (setup ++ loop) :=
    renderReady_append _ _ r1 (windowDestroyed_of_loopCall loop h7)
  rw [gated_append, g1, List.nil_append, gated_append, h6 setup r1 h5]
  rcases hT with rfl | rfl
  · rfl
  · rw [h8 _ r2]; rfl

theorem HelloTriangle.hello_gated (w : World) (fuel : Nat) : gated [] (runCalls w fuel) = true := by
  cases h1 : w.glfwInit
  · simp only [runCalls, h1, if_true]
    exact gated_plain _ (by rfl) _
  · by_cases h2 : w.glfwCreateWindow = 0
    · simp only [runCalls, h1, h2, if_true, Bool.true_eq_false, if_false]
      exact gated_plain _ (by rfl) _
    · cases h3 : w.gladLoad
      · simp only [runCalls, h1, h2, h3, if_true, Bool.true_eq_false, if_false]
        exact gated_plain _ (by rfl) _
      · simp only [runCalls, h1, h2, h3, Bool.true_eq_false, if_false]
        refine gated_run (setupCalls w) (plainLoopCalls w w.glfwCreateWindow (frameCalls w.glfwCreateWindow 3) fuel 0 0) (cleanupCalls w) _
          (gated_plain _ (by rfl) _) ⟨rfl, rfl, rfl⟩ (by rfl) (by rfl) (by rfl)
          (gated_plainLoopCalls w w.glfwCreateWindow ((frameCalls w.glfwCreateWindow 3).take 5)
            (by rfl) (by rfl) (by rfl) fuel 0 0)
          (HelloTriangle.hello_loopCall_loop w fuel) ?_ ?_
        · intro seen h
          rw [show cleanupCalls w = (cleanupCalls w).take 3 ++ (cleanupCalls w).drop 3 from rfl,
            gated_append, gated_own _ (by rfl) seen h (by rfl), gated_plain _ (by rfl)]
          rfl
        · cases closesWithin w 0 fuel
          · exact Or.inl rfl
          · exact Or.inr rfl

theorem HelloTriangleInterpolated.interp_gated (w : World) (fuel : Nat) : gated [] (runCalls w fuel) = true := by
  cases h1 : w.glfwInit
  · simp only [runCalls, h1, if_true]
    exact gated_plain _ (by rfl) _
  · by_cases h2 : w.glfwCreateWindow = 0
    · simp only [runCalls, h1, h2, if_true, Bool.true_eq_false, if_false]
      exact gated_plain _ (by rfl) _
    · cases h3 : w.gladLoad
      · simp only [runCalls, h1, h2, h3, if_true, Bool.true_eq_false, if_false]
        exact gated_plain _ (by rfl) _
      · simp only [runCalls, h1, h2, h3, Bool.true_eq_false, if_false]
        refine gated_run (setupCalls w) (plainLoopCalls w w.glfwCreateWindow (frameCalls w.glfwCreateWindow 3) fuel 0 0) (cleanupCalls w) _
          (gated_plain _ (by rfl) _) ⟨rfl, rfl, rfl⟩ (by rfl) (by rfl) (by rfl)
          (gated_plainLoopCalls w w.glfwCreateWindow ((frameCalls w.glfwCreateWindow 3).take 5)
            (by rfl) (by rfl) (by rfl) fuel 0 0)
          (HelloTriangleInterpolated.interp_loopCall_loop w fuel) ?_ ?_
        · intro seen h
          rw [show cleanupCalls w = (cleanupCalls w).take 3 ++ (cleanupCalls w).drop 3 from rfl,
            gated_append, gated_own _ (by rfl) seen h (by rfl), gated_plain _ (by rfl)]
          rfl
        · cases closesWithin w 0 fuel
          · exact Or.inl rfl
          · exact Or.inr rfl

theorem CoolTriangleShape.cool_gated (w : World) (fuel : Nat) : gated [] (runCalls w fuel) = true := by
  cases h1 : w.glfwInit
  · simp only [runCalls, h1, if_true]
    exact gated_plain _ (by rfl) _
  · by_cases h2 : w.glfwCreateWindow = 0
    · simp only [runCalls, h1, h2, if_true, Bool.true_eq_false, if_false]
      exact gated_plain _ (by rfl) _
    · cases h3 : w.gladLoad
      · simp only [runCalls, h1, h2, h3, if_true, Bool.true_eq_false, if_false]
        exact gated_plain _ (by rfl) _
      · simp only [runCalls, h1, h2, h3, Bool.true_eq_false, if_false]
        refine gated_run (setupCalls w) (throttledLoopCalls w w.glfwCreateWindow
          (frameCalls w.glfwCreateWindow 3) (Double.div 1.0 60.0) fuel 0 1 0 (w.glfwGetTime 0)) (cleanupCalls w) _
          (gated_plain _ (by rfl) _) ⟨rfl, rfl, rfl⟩ (by rfl) (by rfl) (by rfl)
          (gated_throttledLoopCalls w w.glfwCreateWindow
            ((frameCalls w.glfwCreateWindow 3).take 5) (Double.div 1.0 60.0) (by rfl) (by rfl) (by rfl)
            fuel 0 1 0 (w.glfwGetTime 0))
          (CoolTriangleShape.cool_loopCall_loop w fuel) ?_ ?_
        · intro seen h
          rw [show cleanupCalls w = (cleanupCalls w).take 4 ++ (cleanupCalls w).drop 4 from rfl,
            gated_append, gated_own _ (by rfl) seen h (by rfl), gated_plain _ (by rfl)]
          rfl
        · cases closesWithin w 0 fuel
          · exact Or.inl rfl
          · exact Or.inr rfl

/-- C10: in each of the three programs, for every world and every amount of fuel (so
for every run, failing, finished or still looping, and every point reached in it), each
entry of the trace may follow what precedes it: before a graphics call (shader,
program, buffer, vertex-array, clear, draw or viewport call) the trace contains a
`glfwMakeContextCurrent` and a loader call that returned true and contains no
`glfwDestroyWindow`; and before an entry issued from the resize callback, going back
over the callback's own entries, comes a `glfwPollEvents`, some close check has answered
false and none has answered true, so the callback runs only inside an event poll of
the render loop. Event delivery is as GLFW documents it: from event processing only. -/
theorem graphics_calls_gated (w : World) (fuel : Nat) :
    ∀ m ∈ programs, ∀ (pre : List Event) (e : Event) (post : List Event),
      (m w fuel State.initial).2.trace = pre ++ e :: post →
      (isGraphicsCall e.call = true →
        contextCurrent pre = true ∧ loaderSucceeded pre = true ∧ windowDestroyed pre = false) ∧
      (e.fromCallback = true →
        insidePoll pre = true ∧ loopEntered pre = true ∧ loopLeft pre = false) := by
  intro m hm pre e post h
  simp only [programs, List.mem_cons, List.mem_singleton, List.not_mem_nil, or_false] at hm
  have key : gated [] (m w fuel State.initial).2.trace = true := by
    rcases hm with rfl | rfl | rfl
    · rw [(HelloTriangle.hello_main_spec w fuel).2]
      exact HelloTriangle.hello_gated w fuel
    · rw [(HelloTriangleInterpolated.interp_main_spec w fuel).2]
      exact HelloTriangleInterpolated.interp_gated w fuel
    · rw [(CoolTriangleShape.cool_main_spec w fuel).2]
      exact CoolTriangleShape.cool_gated w fuel
  have := gated_sound _ [] pre e post key h
  rw [List.nil_append] at this
  exact this

theorem graphics_calls_gated_witness :
    insidePoll ((HelloTriangle.main sampleWorld 5 State.initial).2.trace.take 49) = true ∧
    loopEntered ((HelloTriangle.main sampleWorld 5 State.initial).2.trace.take 49) = true ∧
    loopLeft ((HelloTriangle.main sampleWorld 5 State.initial).2.trace.take 49) = false :=
  (graphics_calls_gated sampleWorld 5 HelloTriangle.main (by simp [programs])
    ((HelloTriangle.main sampleWorld 5 State.initial).2.trace.take 49)
    ⟨true, .glViewport 0 0 800 600, .void⟩
    ((HelloTriangle.main sampleWorld 5 State.initial).2.trace.drop 50) rfl).2 rfl

end OpenGLExamples
